import Mathlib

/-!
# VOXL2 rangefinder service: register codec, sensor drivers, multiplexer, sampling loop

A shallow embedding of `src/vl53l1x.c`, `src/sf20c.c`, `src/main.c`, the part of
`src/config_file.c` that derives the globals, and the constants of `src/common.h` and
`src/vl53l1x_registers.h`.

Conventions of the embedding

* C `int` values (return codes, distances, ports, addresses) are `Int`; bytes and register
  values are `Nat`, reduced with an explicit `%` where the C type truncates.
* Every call that leaves the program (I2C transport, `usleep`, the clock, the pipe server) is
  logged as an `Event` in a chronological `Trace`.  What the outside world answers is taken
  from an `Env`: the answer to the `k`-th external call of a run is `env.reply k`, so a run is
  a function of the environment and every sequence of answers can be supplied.
* A C function `int f(args)` that talks to the bus becomes
  `f env args tr : result × Trace`, where `tr` is the trace so far.
* `float` fields are carried as rationals: every finite `float` is a rational, the comparisons
  of the field-of-view selection are against constants that are exact in binary, and the other
  `float` fields are only copied.  `distance_m` is the exact quotient `dist_mm / 1000`, of
  which the C code stores the nearest `float`.
-/

namespace Rangefinder

/-! ## `common.h` -/

def MAX_SENSORS : Nat := 32
def TCA9548A_MUX_DEFAULT_ADDR : Int := 0x70
def VL53L1X_TOF_DEFAULT_ADDR : Int := 0x29
def VL53L1X_TOF_SECONDARY_ADDR : Int := VL53L1X_TOF_DEFAULT_ADDR + 1
def MUX_ALL : Int := 8
def MUX_NONE : Int := -1

/-! ## `vl53l1x_registers.h` (the registers the drivers use) -/

def VL53L1_I2C_SLAVE__DEVICE_ADDRESS : Nat := 0x0001
def GPIO__TIO_HV_STATUS : Nat := 0x0031
def PHASECAL_CONFIG__TIMEOUT_MACROP : Nat := 0x004B
def RANGE_CONFIG__TIMEOUT_MACROP_A_HI : Nat := 0x005E
def RANGE_CONFIG__VCSEL_PERIOD_A : Nat := 0x0060
def RANGE_CONFIG__VCSEL_PERIOD_B : Nat := 0x0063
def RANGE_CONFIG__TIMEOUT_MACROP_B_HI : Nat := 0x0061
def RANGE_CONFIG__VALID_PHASE_HIGH : Nat := 0x0069
def VL53L1_SYSTEM__INTERMEASUREMENT_PERIOD : Nat := 0x006C
def SD_CONFIG__WOI_SD0 : Nat := 0x0078
def SD_CONFIG__INITIAL_PHASE_SD0 : Nat := 0x007A
def ROI_CONFIG__USER_ROI_CENTRE_SPAD : Nat := 0x007F
def ROI_CONFIG__USER_ROI_REQUESTED_GLOBAL_XY_SIZE : Nat := 0x0080
def SYSTEM__INTERRUPT_CLEAR : Nat := 0x0086
def SYSTEM__MODE_START : Nat := 0x0087
def VL53L1_RESULT__INTERRUPT_STATUS : Nat := 0x0088
def VL53L1_RESULT__RANGE_STATUS : Nat := 0x0089
def VL53L1_RESULT__PEAK_SIGNAL_COUNT_RATE_MCPS_SD0 : Nat := 0x008E
def VL53L1_RESULT__SIGMA_SD0 : Nat := 0x0092
def VL53L1_RESULT__FINAL_CROSSTALK_CORRECTED_RANGE_MM_SD0 : Nat := 0x0096
def VL53L1_RESULT__OSC_CALIBRATE_VAL : Nat := 0x00DE
def VL53L1_IDENTIFICATION__MODEL_ID : Nat := 0x010F

/-- The 91 default register values for addresses `0x2D .. 0x87`
(`vl53l1x_registers.h`, lines 249-341). -/
def VL51L1X_DEFAULT_CONFIGURATION : List Nat :=
  [0x00, 0x01, 0x01, 0x01, 0x02, 0x00, 0x02, 0x08, 0x00, 0x08,
   0x10, 0x01, 0x01, 0x00, 0x00, 0x00, 0x00, 0xff, 0x00, 0x0F,
   0x00, 0x00, 0x00, 0x00, 0x00, 0x20, 0x0b, 0x00, 0x00, 0x02,
   0x0a, 0x21, 0x00, 0x00, 0x05, 0x00, 0x00, 0x00, 0x00, 0xc8,
   0x00, 0x00, 0x38, 0xff, 0x01, 0x00, 0x08, 0x00, 0x00, 0x01,
   0xdb, 0x0f, 0x01, 0xf1, 0x0d, 0x01, 0x68, 0x00, 0x80, 0x08,
   0xb8, 0x00, 0x00, 0x00, 0x00, 0x0f, 0x89, 0x00, 0x00, 0x00,
   0x00, 0x00, 0x00, 0x00, 0x01, 0x0f, 0x0d, 0x0e, 0x0e, 0x00,
   0x00, 0x02, 0xc7, 0xff, 0x9B, 0x00, 0x00, 0x00, 0x01, 0x00,
   0x00]

/-! ## Records -/

/-- The sensor entry of the configuration: `rangefinder_config_t` of `config_file.h`, with the
two fields (`i2c_address`, `uncertainty_m`) that `config_file.c` and `main.c` use. -/
structure rangefinder_config_t where
  enabled : Int
  sensor_id : Int
  type : Int
  i2c_address : Int
  uncertainty_m : ℚ
  fov_deg : ℚ
  range_max_m : ℚ
  location_wrt_body : List ℚ
  direction_wrt_body : List ℚ
  is_on_mux : Int
  i2c_mux_address : Int
  i2c_mux_port : Int
deriving DecidableEq

/-- The output record, with the fields `main.c` fills (lines 288-303 and 387-389). -/
structure rangefinder_data_t where
  magic_number : Nat
  timestamp_ns : Int
  sample_id : Int
  sensor_id : Int
  distance_m : ℚ
  uncertainty_m : ℚ
  fov_deg : ℚ
  location_wrt_body : List ℚ
  direction_wrt_body : List ℚ
  range_max_m : ℚ
  type : Int
  reserved : Int
deriving DecidableEq

/-! ## The outside world -/

/-- What the outside answers to one external call: the call's return value and, for a call
that fills a buffer, the bytes it stored there. -/
structure Reply where
  ret : Int
  data : List Nat
deriving DecidableEq

/-- One external call, with the arguments the program passed (the bus number is a global that
never changes and is left out). -/
inductive Event where
  | set_device_address (addr : Int)
  | send_byte (b : Nat)
  | reg16_write_bytes (reg : Nat) (data : List Nat)
  | reg16_read_bytes (reg : Nat) (count : Nat)
  | usleep (us : Int)
  | clock_gettime
  | i2c_init (addr : Int)
  | pipe_server_get_num_clients
  | pipe_server_create
  | pipe_server_write (batch : List rangefinder_data_t)
  | i2c_close
  | pipe_server_close_all
  | exit (code : Int)
deriving DecidableEq

abbrev Trace := List Event

/-- The environment of a run: `reply k` answers the `k`-th external call; `indeterminate` is
the content of an uninitialised `uint16_t` local (read only when `init` ignores a failed
read of the oscillator calibration register); `signal k` tells whether the signal handler
has cleared `main_running` before the `k`-th external call. -/
structure Env where
  reply : Nat → Reply
  indeterminate : Nat
  signal : Nat → Bool

/-- An environment that answers from a list, and with `dflt` once the list is used up; no
termination signal arrives. -/
def Env.ofReplies (l : List Reply) (dflt : Reply) : Env :=
  { reply := fun k => l.getD k dflt, indeterminate := 0, signal := fun _ => false }

/-- Byte `i` of a buffer the transport filled (`uint8_t`). -/
def byteAt (buf : List Nat) (i : Nat) : Nat := buf.getD i 0 % 256

/-! ### `voxl_io/i2c.h`, `unistd.h` -/

def voxl_i2c_set_device_address (env : Env) (addr : Int) (tr : Trace) : Int × Trace :=
  ((env.reply tr.length).ret, tr ++ [Event.set_device_address addr])

def voxl_i2c_send_byte (env : Env) (b : Nat) (tr : Trace) : Int × Trace :=
  ((env.reply tr.length).ret, tr ++ [Event.send_byte b])

def voxl_i2c_reg16_write_bytes (env : Env) (reg : Nat) (data : List Nat) (tr : Trace) :
    Int × Trace :=
  ((env.reply tr.length).ret, tr ++ [Event.reg16_write_bytes reg data])

/-- Returns the transport's byte count and the buffer it filled. -/
def voxl_i2c_reg16_read_bytes (env : Env) (reg count : Nat) (tr : Trace) :
    (Int × List Nat) × Trace :=
  (((env.reply tr.length).ret, (env.reply tr.length).data),
    tr ++ [Event.reg16_read_bytes reg count])

def usleep (us : Int) (tr : Trace) : Trace := tr ++ [Event.usleep us]

/-! ## Register codec (`vl53l1x.c` lines 54-113, `sf20c.c` lines 21-80) -/

/-- `_reverse_lsb_msb_16`: `out = reg >> 8; out |= (reg & 0xff) << 8`. -/
def _reverse_lsb_msb_16 (reg : Nat) : Nat :=
  ((reg % 65536) >>> 8) ||| (((reg % 65536) &&& 0xff) <<< 8)

def vl53l1x_write_reg_byte (env : Env) (reg data : Nat) (tr : Trace) : Int × Trace :=
  voxl_i2c_reg16_write_bytes env (_reverse_lsb_msb_16 reg) [data % 256] tr

def vl53l1x_write_reg_word (env : Env) (reg data : Nat) (tr : Trace) : Int × Trace :=
  voxl_i2c_reg16_write_bytes env (_reverse_lsb_msb_16 reg)
    [((data % 65536) >>> 8) % 256, (data % 65536) &&& 0x00FF] tr

def vl53l1x_write_reg_int (env : Env) (reg data : Nat) (tr : Trace) : Int × Trace :=
  voxl_i2c_reg16_write_bytes env (_reverse_lsb_msb_16 reg)
    [((data % 4294967296) >>> 24) &&& 0xFF, ((data % 4294967296) >>> 16) &&& 0xFF,
     ((data % 4294967296) >>> 8) &&& 0xFF, ((data % 4294967296) >>> 0) &&& 0xFF] tr

/-- Returns the status and the buffer (meaningful when the status is 0). -/
def vl53l1x_read_reg_bytes (env : Env) (reg : Nat) (bytes : Nat) (tr : Trace) :
    (Int × List Nat) × Trace :=
  let r := voxl_i2c_reg16_read_bytes env (_reverse_lsb_msb_16 reg) bytes tr
  (if r.1.1 ≠ (bytes : Int) then (-1, r.1.2) else (0, r.1.2), r.2)

/-- Returns the status and the byte stored in `*data` (meaningful when the status is 0). -/
def vl53l1x_read_reg_byte (env : Env) (reg : Nat) (tr : Trace) : (Int × Nat) × Trace :=
  let r := voxl_i2c_reg16_read_bytes env (_reverse_lsb_msb_16 reg) 1 tr
  (if r.1.1 ≠ 1 then (-1, byteAt r.1.2 0) else (0, byteAt r.1.2 0), r.2)

/-- `data` is the content of `*data` before the call; the result carries its content after
the call, which is unchanged when the read fails. -/
def vl53l1x_read_reg_word (env : Env) (reg : Nat) (data : Nat) (tr : Trace) :
    (Int × Nat) × Trace :=
  let r := voxl_i2c_reg16_read_bytes env (_reverse_lsb_msb_16 reg) 2 tr
  (if r.1.1 ≠ 2 then (-1, data)
   else (0, ((byteAt r.1.2 0 <<< 8) + byteAt r.1.2 1) % 65536), r.2)

def sf20c_write_reg_byte (env : Env) (reg data : Nat) (tr : Trace) : Int × Trace :=
  voxl_i2c_reg16_write_bytes env (_reverse_lsb_msb_16 reg) [data % 256] tr

def sf20c_write_reg_word (env : Env) (reg data : Nat) (tr : Trace) : Int × Trace :=
  voxl_i2c_reg16_write_bytes env (_reverse_lsb_msb_16 reg)
    [((data % 65536) >>> 8) % 256, (data % 65536) &&& 0x00FF] tr

def sf20c_write_reg_int (env : Env) (reg data : Nat) (tr : Trace) : Int × Trace :=
  voxl_i2c_reg16_write_bytes env (_reverse_lsb_msb_16 reg)
    [((data % 4294967296) >>> 24) &&& 0xFF, ((data % 4294967296) >>> 16) &&& 0xFF,
     ((data % 4294967296) >>> 8) &&& 0xFF, ((data % 4294967296) >>> 0) &&& 0xFF] tr

def sf20c_read_reg_bytes (env : Env) (reg : Nat) (bytes : Nat) (tr : Trace) :
    (Int × List Nat) × Trace :=
  let r := voxl_i2c_reg16_read_bytes env (_reverse_lsb_msb_16 reg) bytes tr
  (if r.1.1 ≠ (bytes : Int) then (-1, r.1.2) else (0, r.1.2), r.2)

def sf20c_read_reg_byte (env : Env) (reg : Nat) (tr : Trace) : (Int × Nat) × Trace :=
  let r := voxl_i2c_reg16_read_bytes env (_reverse_lsb_msb_16 reg) 1 tr
  (if r.1.1 ≠ 1 then (-1, byteAt r.1.2 0) else (0, byteAt r.1.2 0), r.2)

def sf20c_read_reg_word (env : Env) (reg : Nat) (data : Nat) (tr : Trace) :
    (Int × Nat) × Trace :=
  let r := voxl_i2c_reg16_read_bytes env (_reverse_lsb_msb_16 reg) 2 tr
  (if r.1.1 ≠ 2 then (-1, data)
   else (0, ((byteAt r.1.2 0 <<< 8) + byteAt r.1.2 1) % 65536), r.2)

/-! ## Decoding a measurement -/

/-- `#define VL53L1X_LOWEST_ACCEPTABLE_SIGNAL 2` (`vl53l1x.c` line 44). -/
def VL53L1X_LOWEST_ACCEPTABLE_SIGNAL : Nat := 2

/-- `#define SF20C_LOWEST_ACCEPTABLE_SIGNAL 5` (`sf20c.c` line 10). -/
def SF20C_LOWEST_ACCEPTABLE_SIGNAL : Nat := 5

/-- `base`, the first register of the bulk read. -/
def base : Nat := VL53L1_RESULT__INTERRUPT_STATUS

/-- `n_bytes`, the size of the bulk read. -/
def n_bytes : Nat := 16

/-- The two-byte field at `offset`, as both decoders read it into a `uint16_t`:
`(all_data[offset]<<8) + all_data[offset+1]`. -/
def field16 (all_data : List Nat) (offset : Nat) : Nat :=
  ((byteAt all_data offset <<< 8) + byteAt all_data (offset + 1)) % 65536

/-- `status_raw = all_data[VL53L1_RESULT__RANGE_STATUS-base] & 0x1F`. -/
def status_raw (all_data : List Nat) : Nat :=
  byteAt all_data (VL53L1_RESULT__RANGE_STATUS - base) &&& 0x1F

/-- `status_rtn` of `vl53l1x_get_distance_mm`. -/
def vl53l1x_status_rtn : List Nat :=
  [255, 255, 255, 5, 2, 4, 1, 7, 3, 0,
   255, 255, 9, 13, 255, 255, 255, 255, 10, 6,
   255, 255, 11, 12]

/-- `status_rtn` of `sf20c_get_distance_mm`. -/
def sf20c_status_rtn : List Nat :=
  [255, 255, 255, 5, 2, 4, 1, 7, 3, 0,
   255, 255, 9, 13, 255, 255, 255, 255, 10, 6,
   255, 255, 11, 12]

/-- `status = 255; if(status_raw < 24) status = status_rtn[status_raw];` (vl53l1x). -/
def vl53l1x_status (all_data : List Nat) : Nat :=
  if status_raw all_data < 24 then vl53l1x_status_rtn.getD (status_raw all_data) 0 else 255

/-- `status = 255; if(status_raw < 24) status = status_rtn[status_raw];` (sf20c). -/
def sf20c_status (all_data : List Nat) : Nat :=
  if status_raw all_data < 24 then sf20c_status_rtn.getD (status_raw all_data) 0 else 255

/-- `dist_mm_raw`. -/
def dist_mm_raw (all_data : List Nat) : Nat :=
  field16 all_data (VL53L1_RESULT__FINAL_CROSSTALK_CORRECTED_RANGE_MM_SD0 - base)

/-- `signal`. -/
def signal (all_data : List Nat) : Nat :=
  field16 all_data (VL53L1_RESULT__PEAK_SIGNAL_COUNT_RATE_MCPS_SD0 - base)

/-- `sigma_mm` after `sigma_mm /= 4`. -/
def sigma_mm (all_data : List Nat) : Nat :=
  field16 all_data (VL53L1_RESULT__SIGMA_SD0 - base) / 4

/-- What a `get_distance_mm` call leaves: its return value and the two outputs. -/
structure Measurement where
  ret : Int
  dist_mm : Int
  sd : Int
deriving DecidableEq

/-- `vl53l1x_get_distance_mm` (`vl53l1x.c` lines 193-257). -/
def vl53l1x_get_distance_mm (env : Env) (tr : Trace) : Measurement × Trace :=
  let r := vl53l1x_read_reg_bytes env VL53L1_RESULT__INTERRUPT_STATUS n_bytes tr
  (if r.1.1 ≠ 0 then { ret := -1, dist_mm := -1, sd := -1 }
   else if vl53l1x_status r.1.2 ≠ 0 ∧ vl53l1x_status r.1.2 ≠ 2 then
     { ret := 0, dist_mm := -1, sd := -1 }
   else if signal r.1.2 < VL53L1X_LOWEST_ACCEPTABLE_SIGNAL then
     { ret := 0, dist_mm := -1, sd := -1 }
   else { ret := 0, dist_mm := dist_mm_raw r.1.2, sd := sigma_mm r.1.2 }, r.2)

/-- `sf20c_get_distance_mm` (`sf20c.c` lines 160-227).  The signal test names
`VL53L1X_LOWEST_ACCEPTABLE_SIGNAL` (line 221), whose only definition in the repository is the
one of `vl53l1x.c`. -/
def sf20c_get_distance_mm (env : Env) (tr : Trace) : Measurement × Trace :=
  let r := sf20c_read_reg_bytes env VL53L1_RESULT__INTERRUPT_STATUS n_bytes tr
  (if r.1.1 ≠ 0 then { ret := -1, dist_mm := -1000, sd := -1 }
   else if sf20c_status r.1.2 ≠ 0 ∧ sf20c_status r.1.2 ≠ 2 then
     { ret := 0, dist_mm := -1000, sd := -1 }
   else if dist_mm_raw r.1.2 > 8000 then
     { ret := 0, dist_mm := -1000, sd := -1 }
   else if signal r.1.2 < VL53L1X_LOWEST_ACCEPTABLE_SIGNAL then
     { ret := 0, dist_mm := -1000, sd := -1 }
   else { ret := 0, dist_mm := dist_mm_raw r.1.2, sd := sigma_mm r.1.2 }, r.2)

/-- A result block with raw status byte `st`, signal `sg`, sigma register `sm` and range
`d` (each two-byte field big-endian), the other bytes zero. -/
def resultBlock (st sg sm d : Nat) : List Nat :=
  [0, st, 0, 0, 0, 0, sg / 256 % 256, sg % 256, 0, 0, sm / 256 % 256, sm % 256, 0, 0,
   d / 256 % 256, d % 256]

/-! ## Driver operations -/

def vl53l1x_set_address (env : Env) (addr : Nat) (tr : Trace) : Int × Trace :=
  vl53l1x_write_reg_byte env VL53L1_I2C_SLAVE__DEVICE_ADDRESS addr tr

def vl53l1x_start_ranging (env : Env) (tr : Trace) : Int × Trace :=
  vl53l1x_write_reg_byte env SYSTEM__MODE_START 0x40 tr

def vl53l1x_stop_ranging (env : Env) (tr : Trace) : Int × Trace :=
  vl53l1x_write_reg_byte env SYSTEM__MODE_START 0x00 tr

def vl53l1x_clear_interrupt (env : Env) (tr : Trace) : Int × Trace :=
  vl53l1x_write_reg_byte env SYSTEM__INTERRUPT_CLEAR 0x01 tr

/-- `isDataReady` is the content of `*isDataReady` before the call; the result carries its
content after the call. -/
def vl53l1x_check_for_data_ready (env : Env) (isDataReady : Nat) (tr : Trace) :
    (Int × Nat) × Trace :=
  let r := vl53l1x_read_reg_byte env GPIO__TIO_HV_STATUS tr
  (if r.1.1 ≠ 0 then (-1, isDataReady)
   else if r.1.2 &&& 1 ≠ 0 then (0, 1)
   else (0, 0), r.2)

def sf20c_set_address (env : Env) (addr : Nat) (tr : Trace) : Int × Trace :=
  sf20c_write_reg_byte env VL53L1_I2C_SLAVE__DEVICE_ADDRESS addr tr

def sf20c_start_ranging (env : Env) (tr : Trace) : Int × Trace :=
  sf20c_write_reg_byte env SYSTEM__MODE_START 0x40 tr

/-- The stop function of `sf20c.c` (lines 94-97; the file defines it under the name
`vl53l1x_stop_ranging`, the header declares `sf20c_stop_ranging`). -/
def sf20c_stop_ranging (env : Env) (tr : Trace) : Int × Trace :=
  sf20c_write_reg_byte env SYSTEM__MODE_START 0x00 tr

def sf20c_clear_interrupt (env : Env) (tr : Trace) : Int × Trace :=
  sf20c_write_reg_byte env SYSTEM__INTERRUPT_CLEAR 0x01 tr

def sf20c_check_for_data_ready (env : Env) (isDataReady : Nat) (tr : Trace) :
    (Int × Nat) × Trace :=
  let r := sf20c_read_reg_byte env GPIO__TIO_HV_STATUS tr
  (if r.1.1 ≠ 0 then (-1, isDataReady)
   else if r.1.2 &&& 1 ≠ 0 then (0, 1)
   else (0, 0), r.2)

/-- `vl53l1x_check_whoami` (`vl53l1x.c` lines 260-277); `quiet` only selects a message. -/
def vl53l1x_check_whoami (env : Env) (_quiet : Int) (tr : Trace) : Int × Trace :=
  let r := vl53l1x_read_reg_word env VL53L1_IDENTIFICATION__MODEL_ID env.indeterminate tr
  (if r.1.1 < 0 then -2
   else if r.1.2 ≠ 0xEACC then -1
   else 0, r.2)

/-- `sf20c_check_whoami` (`sf20c.c` lines 230-250). -/
def sf20c_check_whoami (env : Env) (_quiet : Int) (tr : Trace) : Int × Trace :=
  let r := sf20c_read_reg_word env VL53L1_IDENTIFICATION__MODEL_ID env.indeterminate tr
  (if r.1.1 < 0 then -2
   else if r.1.2 ≠ 0xEACC then -1
   else 0, r.2)

/-- The field-of-view selection of `vl53l1x_init` (lines 342-370): the new value of the local
`fov_deg` and `pads`. -/
def vl53l1x_fov_select (fov_deg : ℚ) : ℚ × Nat :=
  if fov_deg ≥ 26.125 then (27.0, 16)
  else if fov_deg ≥ 24.375 then (25.25, 14)
  else if fov_deg ≥ 22.625 then (23.5, 12)
  else if fov_deg ≥ 20.875 then (21.75, 10)
  else if fov_deg ≥ 18.75 then (20.0, 8)
  else if fov_deg ≥ 16.25 then (17.5, 6)
  else (15.0, 4)

/-- The field-of-view selection of `sf20c_init` (lines 318-346). -/
def sf20c_fov_select (fov_deg : ℚ) : ℚ × Nat :=
  if fov_deg ≥ 26.125 then (27.0, 16)
  else if fov_deg ≥ 24.375 then (25.25, 14)
  else if fov_deg ≥ 22.625 then (23.5, 12)
  else if fov_deg ≥ 20.875 then (21.75, 10)
  else if fov_deg ≥ 18.75 then (20.0, 8)
  else if fov_deg ≥ 16.25 then (17.5, 6)
  else (15.0, 4)

/-- The loop `for (Addr = 0x2D; Addr <= 0x87; Addr++)` of both `init` functions, from the
value `Addr` of the `uint8_t` counter, with `fuel` bounding the number of passes.  Both files
call `vl53l1x_write_reg_byte` in the body (`vl53l1x.c` line 292, `sf20c.c` line 268). -/
def load_defaults_loop (env : Env) : Nat → Nat → Trace → Trace
  | 0, _, tr => tr
  | fuel + 1, Addr, tr =>
    if Addr ≤ 0x87 then
      load_defaults_loop env fuel ((Addr + 1) % 256)
        (vl53l1x_write_reg_byte env Addr (VL51L1X_DEFAULT_CONFIGURATION.getD (Addr - 0x2D) 0) tr).2
    else tr

/-- The value written to the inter-measurement period register,
`(uint32_t)(ClockPLL * intermeasurement_time_ms * 1.075)` with
`intermeasurement_time_ms = 30`.  `ClockPLL` is at most 1023, the product with 30 is exact in
`double`, and the truncated product with the `double` nearest to 1.075 is the integer part of
`ClockPLL * 30 * 43 / 40`. -/
def intermeasurement_value (ClockPLL : Nat) : Nat := (ClockPLL * 30 * 43) / 40

/-- `vl53l1x_init` (`vl53l1x.c` lines 282-388).  The return values of the writes and of the
oscillator read are not looked at by the C code. -/
def vl53l1x_init (env : Env) (fov_deg : ℚ) (TimingBudgetInMs : Int) (tr : Trace) :
    Int × Trace :=
  let w := vl53l1x_check_whoami env 0 tr
  if w.1 ≠ 0 then (-1, w.2)
  else
    let t1 := load_defaults_loop env 256 0x2D w.2
    let t2 := (vl53l1x_write_reg_byte env PHASECAL_CONFIG__TIMEOUT_MACROP 0x0A t1).2
    let t3 := (vl53l1x_write_reg_byte env RANGE_CONFIG__VCSEL_PERIOD_A 0x0F t2).2
    let t4 := (vl53l1x_write_reg_byte env RANGE_CONFIG__VCSEL_PERIOD_B 0x0D t3).2
    let t5 := (vl53l1x_write_reg_byte env RANGE_CONFIG__VALID_PHASE_HIGH 0xB8 t4).2
    let t6 := (vl53l1x_write_reg_word env SD_CONFIG__WOI_SD0 0x0F0D t5).2
    let t7 := (vl53l1x_write_reg_word env SD_CONFIG__INITIAL_PHASE_SD0 0x0E0E t6).2
    let budget : Option (Nat × Nat) :=
      if TimingBudgetInMs = 20 then some (0x001E, 0x0022)
      else if TimingBudgetInMs = 33 then some (0x0060, 0x006E)
      else if TimingBudgetInMs = 50 then some (0x00AD, 0x00C6)
      else if TimingBudgetInMs = 100 then some (0x01CC, 0x01EA)
      else if TimingBudgetInMs = 200 then some (0x02D9, 0x02F8)
      else if TimingBudgetInMs = 500 then some (0x048F, 0x04A4)
      else none
    match budget with
    | none => (-1, t7)
    | some (a, b) =>
      let t8 := (vl53l1x_write_reg_word env RANGE_CONFIG__TIMEOUT_MACROP_A_HI a t7).2
      let t9 := (vl53l1x_write_reg_word env RANGE_CONFIG__TIMEOUT_MACROP_B_HI b t8).2
      let t10 := (vl53l1x_write_reg_byte env ROI_CONFIG__USER_ROI_CENTRE_SPAD 199 t9).2
      let pads := (vl53l1x_fov_select fov_deg).2
      let t11 := (vl53l1x_write_reg_byte env ROI_CONFIG__USER_ROI_REQUESTED_GLOBAL_XY_SIZE
        (((pads - 1) <<< 4) ||| (pads - 1)) t10).2
      let c := vl53l1x_read_reg_word env VL53L1_RESULT__OSC_CALIBRATE_VAL env.indeterminate t11
      let ClockPLL := c.1.2 &&& 0x3FF
      let t12 := (vl53l1x_write_reg_int env VL53L1_SYSTEM__INTERMEASUREMENT_PERIOD
        (intermeasurement_value ClockPLL) c.2).2
      (0, t12)

/-- `sf20c_init` (`sf20c.c` lines 255-368). -/
def sf20c_init (env : Env) (fov_deg : ℚ) (TimingBudgetInMs : Int) (tr : Trace) :
    Int × Trace :=
  let w := sf20c_check_whoami env 0 tr
  if w.1 ≠ 0 then (-1, w.2)
  else
    let t1 := load_defaults_loop env 256 0x2D w.2
    let t2 := (sf20c_write_reg_byte env PHASECAL_CONFIG__TIMEOUT_MACROP 0x0A t1).2
    let t3 := (sf20c_write_reg_byte env RANGE_CONFIG__VCSEL_PERIOD_A 0x0F t2).2
    let t4 := (sf20c_write_reg_byte env RANGE_CONFIG__VCSEL_PERIOD_B 0x0D t3).2
    let t5 := (sf20c_write_reg_byte env RANGE_CONFIG__VALID_PHASE_HIGH 0xB8 t4).2
    let t6 := (sf20c_write_reg_word env SD_CONFIG__WOI_SD0 0x0F0D t5).2
    let t7 := (sf20c_write_reg_word env SD_CONFIG__INITIAL_PHASE_SD0 0x0E0E t6).2
    let budget : Option (Nat × Nat) :=
      if TimingBudgetInMs = 20 then some (0x001E, 0x0022)
      else if TimingBudgetInMs = 33 then some (0x0060, 0x006E)
      else if TimingBudgetInMs = 50 then some (0x00AD, 0x00C6)
      else if TimingBudgetInMs = 100 then some (0x01CC, 0x01EA)
      else if TimingBudgetInMs = 200 then some (0x02D9, 0x02F8)
      else if TimingBudgetInMs = 500 then some (0x048F, 0x04A4)
      else none
    match budget with
    | none => (-1, t7)
    | some (a, b) =>
      let t8 := (sf20c_write_reg_word env RANGE_CONFIG__TIMEOUT_MACROP_A_HI a t7).2
      let t9 := (sf20c_write_reg_word env RANGE_CONFIG__TIMEOUT_MACROP_B_HI b t8).2
      let t10 := (sf20c_write_reg_byte env ROI_CONFIG__USER_ROI_CENTRE_SPAD 199 t9).2
      let pads := (sf20c_fov_select fov_deg).2
      let t11 := (sf20c_write_reg_byte env ROI_CONFIG__USER_ROI_REQUESTED_GLOBAL_XY_SIZE
        (((pads - 1) <<< 4) ||| (pads - 1)) t10).2
      let c := sf20c_read_reg_word env VL53L1_RESULT__OSC_CALIBRATE_VAL env.indeterminate t11
      let ClockPLL := c.1.2 &&& 0x3FF
      let t12 := (sf20c_write_reg_int env VL53L1_SYSTEM__INTERMEASUREMENT_PERIOD
        (intermeasurement_value ClockPLL) c.2).2
      (0, t12)

/-- The loop of `vl53l1x_wait_for_data` with `n` passes left (`i = 100 - n`). -/
def vl53l1x_wait_loop (env : Env) : Nat → Trace → Int × Trace
  | 0, tr => (-1, tr)
  | n + 1, tr =>
    let r := vl53l1x_check_for_data_ready env 0 tr
    if r.1.1 ≠ 0 then (-1, r.2)
    else if r.1.2 ≠ 0 then (0, r.2)
    else vl53l1x_wait_loop env n (usleep 5000 r.2)

/-- `vl53l1x_wait_for_data` (`vl53l1x.c` lines 391-406). -/
def vl53l1x_wait_for_data (env : Env) (tr : Trace) : Int × Trace :=
  vl53l1x_wait_loop env 100 tr

/-- The loop of `sf20c_wait_for_data` with `n` passes left (`i = 20 - n`). -/
def sf20c_wait_loop (env : Env) : Nat → Trace → Int × Trace
  | 0, tr => (-1, tr)
  | n + 1, tr =>
    let r := sf20c_check_for_data_ready env 0 tr
    if r.1.1 ≠ 0 then (-1, r.2)
    else if r.1.2 ≠ 0 then (0, r.2)
    else sf20c_wait_loop env n (usleep 5000 r.2)

/-- `sf20c_wait_for_data` (`sf20c.c` lines 371-386). -/
def sf20c_wait_for_data (env : Env) (tr : Trace) : Int × Trace :=
  sf20c_wait_loop env 20 tr

/-! ## `config_file.c`: the globals the core reads -/

/-- The globals of `config_file.c` together with the statics of `main.c` that the sampling
code reads.  `n_enabled_sensors` is the length of `enabled_sensors`.  `TimingBudgetInMs` is
the identifier `main.c` uses at line 348, and `RANGEFINDER_MAGIC_NUMBER` the constant of
`voxl_rangefinder_interface.h`; neither has a definition in the repository. -/
structure Globals where
  enabled_sensors : List rangefinder_config_t
  has_nonmux_sensor : Int
  n_mux_sensors : Int
  mux_address : Int
  en_debug : Int
  TimingBudgetInMs : Int
  RANGEFINDER_MAGIC_NUMBER : Nat
deriving DecidableEq

/-- `n_enabled_sensors`. -/
def Globals.n_enabled_sensors (g : Globals) : Nat := g.enabled_sensors.length

/-- The last loop of `read_config_file` (`config_file.c` lines 216-239) over the parsed
entries `r`; `none` is the `return -1` on a multiplexer port outside 0..7. -/
def read_config_loop : List rangefinder_config_t → Globals → Option Globals
  | [], g => some g
  | r :: rest, g =>
    let g1 := if r.enabled ≠ 0 then { g with enabled_sensors := g.enabled_sensors ++ [r] } else g
    let g2 := if r.is_on_mux = 0 ∧ r.enabled ≠ 0 then { g1 with has_nonmux_sensor := 1 } else g1
    if r.is_on_mux ≠ 0 ∧ r.enabled ≠ 0 then
      if r.i2c_mux_port < 0 ∨ r.i2c_mux_port > 7 then none
      else read_config_loop rest
        { g2 with n_mux_sensors := g2.n_mux_sensors + 1, mux_address := r.i2c_mux_address }
    else read_config_loop rest g2

/-- The globals `read_config_file` leaves for the parsed entries `r` (at most `MAX_SENSORS`,
at least one: lines 166-175), with the statics and constants of `main.c` supplied. -/
def read_config_file (r : List rangefinder_config_t) (en_debug TimingBudgetInMs : Int)
    (magic : Nat) : Option Globals :=
  if r.length > MAX_SENSORS then none
  else if r.length = 0 then none
  else read_config_loop r
    { enabled_sensors := [], has_nonmux_sensor := 0, n_mux_sensors := 0, mux_address := 0,
      en_debug := en_debug, TimingBudgetInMs := TimingBudgetInMs,
      RANGEFINDER_MAGIC_NUMBER := magic }

/-! ## `main.c` -/

def voxl_i2c_init (env : Env) (addr : Int) (tr : Trace) : Int × Trace :=
  ((env.reply tr.length).ret, tr ++ [Event.i2c_init addr])

def pipe_server_get_num_clients (env : Env) (tr : Trace) : Int × Trace :=
  ((env.reply tr.length).ret, tr ++ [Event.pipe_server_get_num_clients])

def pipe_server_create (env : Env) (tr : Trace) : Int × Trace :=
  ((env.reply tr.length).ret, tr ++ [Event.pipe_server_create])

def pipe_server_write (batch : List rangefinder_data_t) (tr : Trace) : Trace :=
  tr ++ [Event.pipe_server_write batch]

/-- `_apps_time_monotonic_ns` (`main.c` lines 137-145): the reply carries the return value of
`clock_gettime` and `[tv_sec, tv_nsec]`. -/
def _apps_time_monotonic_ns (env : Env) (tr : Trace) : Int × Trace :=
  (if (env.reply tr.length).ret ≠ 0 then -1
   else ((env.reply tr.length).data.getD 0 0 : Int) * 1000000000
     + ((env.reply tr.length).data.getD 1 0 : Int),
   tr ++ [Event.clock_gettime])

/-- The bitmask `_set_multiplexer` computes (`main.c` lines 164-174), a `uint8_t`. -/
def mux_bitmask (mux_ch : Int) : Nat :=
  if mux_ch > 7 then 0xFF
  else if mux_ch < 0 then 0
  else (1 <<< mux_ch.toNat) % 256

/-- `_set_multiplexer` (`main.c` lines 149-189); `addr` is a `uint8_t` parameter. -/
def _set_multiplexer (env : Env) (g : Globals) (mux_ch : Int) (addr : Int) (tr : Trace) :
    Int × Trace :=
  let a := voxl_i2c_set_device_address env g.mux_address tr
  if a.1 ≠ 0 then (-1, a.2)
  else
    let s := voxl_i2c_send_byte env (mux_bitmask mux_ch) a.2
    if s.1 ≠ 0 then (-1, s.2)
    else
      let c := voxl_i2c_set_device_address env (addr % 256) s.2
      if c.1 ≠ 0 then (-1, c.2) else (0, c.2)

/-- `_quit` (`main.c` lines 193-205). -/
def _quit (ret : Int) (tr : Trace) : Trace :=
  tr ++ [Event.i2c_close, Event.pipe_server_close_all, Event.exit ret]

/-- The sensor initialisation loop of `main` (lines 250-270) over the sensors still to
initialise; the result is 0, or -1 where the C code calls `_quit(-1)`.  Line 269 reads
`vl53l1x_init(i)` against the prototype `vl53l1x_init(float fov_deg, int TimingBudgetInMs)`;
the embedding passes the sensor's configured `fov_deg` and the timing budget.  Both are
passed by value. -/
def main_init_loop (env : Env) (g : Globals) : List rangefinder_config_t → Trace → Int × Trace
  | [], tr => (0, tr)
  | s :: rest, tr =>
    let m :=
      if s.is_on_mux = 0 then
        if g.n_mux_sensors > 0 then _set_multiplexer env g MUX_NONE VL53L1X_TOF_DEFAULT_ADDR tr
        else (0, tr)
      else _set_multiplexer env g s.i2c_mux_port VL53L1X_TOF_DEFAULT_ADDR tr
    if m.1 ≠ 0 then (-1, m.2)
    else
      let r := vl53l1x_init env s.fov_deg g.TimingBudgetInMs m.2
      if r.1 ≠ 0 then (-1, r.2) else main_init_loop env g rest r.2

/-- The record `main` pre-fills for one enabled sensor (lines 288-303). -/
def prefill (g : Globals) (s : rangefinder_config_t) : rangefinder_data_t :=
  { magic_number := g.RANGEFINDER_MAGIC_NUMBER
    timestamp_ns := 0
    sample_id := 0
    sensor_id := s.sensor_id
    distance_m := 0
    uncertainty_m := s.uncertainty_m
    fov_deg := s.fov_deg
    location_wrt_body := s.location_wrt_body
    direction_wrt_body := s.direction_wrt_body
    range_max_m := s.range_max_m
    type := s.type
    reserved := 0 }

/-- What `main` keeps from one pass of the sampling loop to the next. -/
structure MainState where
  main_running : Int
  last_time_ns : Int
  sample_id : Int
  data : List rangefinder_data_t
deriving DecidableEq

/-- Starting the standalone sensor if there is one (`main.c` lines 326-335): the return
value of `vl53l1x_start_ranging`, or 0 when there is nothing to start. -/
def main_start_nonmux (env : Env) (g : Globals) (tr : Trace) : Int × Trace :=
  if g.has_nonmux_sensor ≠ 0 then
    vl53l1x_start_ranging env
      (if g.n_mux_sensors > 0 then
        (_set_multiplexer env g MUX_NONE VL53L1X_TOF_DEFAULT_ADDR tr).2 else tr)
  else (0, tr)

/-- Starting all multiplexed sensors at once (`main.c` lines 337-344): the return value of
`vl53l1x_start_ranging`, or 0 when there is nothing to start. -/
def main_start_muxed (env : Env) (g : Globals) (tr : Trace) : Int × Trace :=
  if g.n_mux_sensors > 0 then
    vl53l1x_start_ranging env (_set_multiplexer env g MUX_ALL VL53L1X_TOF_DEFAULT_ADDR tr).2
  else (0, tr)

/-- Starting the sensors (`main.c` lines 324-344): 0, or -1 where the C code sets
`main_running = 0` and breaks out of the `while`. -/
def main_start_ranging (env : Env) (g : Globals) (tr : Trace) : Int × Trace :=
  let a := main_start_nonmux env g tr
  if a.1 ≠ 0 then (-1, a.2)
  else
    let b := main_start_muxed env g a.2
    if b.1 ≠ 0 then (-1, b.2) else (0, b.2)

/-- Switching the bus to sensor `s` in the read-back loop (`main.c` lines 353-360); the
return value of `_set_multiplexer` is not looked at. -/
def main_select (env : Env) (g : Globals) (s : rangefinder_config_t) (tr : Trace) : Trace :=
  if s.is_on_mux ≠ 0 then (_set_multiplexer env g s.i2c_mux_port s.i2c_mux_address tr).2
  else if g.n_mux_sensors > 0 then
    (_set_multiplexer env g MUX_NONE VL53L1X_TOF_DEFAULT_ADDR tr).2
  else tr

/-- The read-back loop `for(i=0;i<n_enabled_sensors;i++)` of `main` (lines 351-372) from
index `i`, over the sensors `enabled_sensors[i..]`; the result carries `main_running` and the
array `dist_mm`.  Line 369 reads `vl53l1x_get_distance_mm(&dist_mm[i])`; the second output
of the decoder is not kept. -/
def main_read_back (env : Env) (g : Globals) :
    List rangefinder_config_t → Nat → Int → List Int → Trace → (Int × List Int) × Trace
  | [], _, main_running, dist_mm, tr => ((main_running, dist_mm), tr)
  | s :: rest, i, main_running, dist_mm, tr =>
    let w := vl53l1x_wait_for_data env (main_select env g s tr)
    if w.1 ≠ 0 then ((0, dist_mm), w.2)
    else
      let m := vl53l1x_get_distance_mm env w.2
      let t2 := (vl53l1x_clear_interrupt env m.2).2
      let t3 := (vl53l1x_stop_ranging env t2).2
      main_read_back env g rest (i + 1) main_running (dist_mm.set i m.1.dist_mm) t3

/-- Filling the batch (`main.c` lines 386-390). -/
def populate (data : List rangefinder_data_t) (dist_mm : List Int) (timestamp_ns sample_id : Int) :
    List rangefinder_data_t :=
  List.zipWith
    (fun d m => { d with timestamp_ns := timestamp_ns, sample_id := sample_id,
                         distance_m := (m : ℚ) / 1000 })
    data dist_mm

/-- The value a 32-bit `int` holds after an arithmetic result `x`: the representative of `x`
modulo 2^32 in the range -2^31 .. 2^31 - 1 (two's complement, as the target's compiler
produces for `sample_id++`). -/
def to_int32 (x : Int) : Int := (x + 2147483648) % 4294967296 - 2147483648

/-- The end of a pass (`main.c` lines 375-400) after the read-back loop has left `r`: read
the clock, stamp and fill the batch, write it to the pipe, remember the time.  The counter
is `static int sample_id = 0; sample_id++;` (lines 382-383), a 32-bit `int`. -/
def main_publish (env : Env) (st : MainState) (r : (Int × List Int) × Trace) :
    MainState × Trace :=
  let tm := _apps_time_monotonic_ns env r.2
  let timestamp_ns := tm.1 - Int.tdiv (tm.1 - st.last_time_ns) 2
  let sample_id := to_int32 (st.sample_id + 1)
  let data := populate st.data r.1.2 timestamp_ns sample_id
  ({ main_running := r.1.1, last_time_ns := tm.1, sample_id := sample_id, data := data },
    pipe_server_write data tm.2)

/-- One pass through the body of `while(main_running)` (`main.c` lines 317-400). -/
def main_loop_pass (env : Env) (g : Globals) (st : MainState) (tr : Trace) :
    MainState × Trace :=
  let c := pipe_server_get_num_clients env tr
  if c.1 = 0 ∧ g.en_debug = 0 then (st, usleep 500000 c.2)
  else
    let s := main_start_ranging env g c.2
    if s.1 ≠ 0 then ({ st with main_running := 0 }, s.2)
    else
      main_publish env st
        (main_read_back env g g.enabled_sensors 0 st.main_running
          (List.replicate MAX_SENSORS 0) (usleep (g.TimingBudgetInMs * 1000) s.2))

/-- The loop `while(main_running)` for at most `fuel` passes.  The loop is left when
`main_running` is 0, by the code or by the signal handler; a result with `main_running ≠ 0`
means the loop is still running after `fuel` passes. -/
def main_loop (env : Env) (g : Globals) : Nat → MainState → Trace → MainState × Trace
  | 0, st, tr => (st, tr)
  | fuel + 1, st, tr =>
    if st.main_running = 0 ∨ env.signal tr.length = true then
      ({ st with main_running := 0 }, tr)
    else
      let p := main_loop_pass env g st tr
      main_loop env g fuel p.1 p.2

/-- `main` from the bus initialisation on (`main.c` lines 238-406), for globals `g` left by
`read_config_file`: the exit status, or `none` when the sampling loop is still running after
`fuel` passes, and the trace of external calls. -/
def main (env : Env) (g : Globals) (fuel : Nat) : Option Int × Trace :=
  let i := voxl_i2c_init env VL53L1X_TOF_DEFAULT_ADDR []
  if i.1 ≠ 0 then (some (-1), i.2)
  else
    let ini := main_init_loop env g g.enabled_sensors (usleep 10000 i.2)
    if ini.1 ≠ 0 then (some (-1), _quit (-1) ini.2)
    else
      let pc := pipe_server_create env ini.2
      if pc.1 ≠ 0 then (some (-1), _quit (-1) pc.2)
      else
        let lt := _apps_time_monotonic_ns env pc.2
        let r := main_loop env g fuel
          { main_running := 1, last_time_ns := lt.1, sample_id := 0,
            data := g.enabled_sensors.map (prefill g) } lt.2
        if r.1.main_running ≠ 0 then (none, r.2) else (some 0, _quit 0 r.2)

/-- The batches written to the pipe, in order. -/
def batches : Trace → List (List rangefinder_data_t)
  | [] => []
  | Event.pipe_server_write b :: rest => b :: batches rest
  | _ :: rest => batches rest

/-! ## The operations of a round, as they appear on the bus -/

/-- The bulk read of the result block, as it appears on the wire. -/
def bulk_read : Event := Event.reg16_read_bytes 0x8800 16

/-- `select(channel)`: address the multiplexer, send the channel bitmask, address `addr`. -/
def select_events (g : Globals) (mux_ch : Int) (addr : Int) : List Event :=
  [Event.set_device_address g.mux_address, Event.send_byte (mux_bitmask mux_ch),
   Event.set_device_address (addr % 256)]

/-- `wait_for_data` that finds the data ready after `p` unsuccessful polls: `p` times a read
of the status register followed by a 5 ms sleep, then the read that finds the bit set. -/
def wait_events : Nat → List Event
  | 0 => [Event.reg16_read_bytes 0x3100 1]
  | p + 1 => Event.reg16_read_bytes 0x3100 1 :: Event.usleep 5000 :: wait_events p

/-! ## The round as `main` issues it -/

/-- What the visit of one multiplexed sensor in `main.c` lines 353-371 puts on the bus when
every operation succeeds: `_set_multiplexer(i2c_mux_port, i2c_mux_address)` (lines 355-356,
the address to return to is the multiplexer's), the polls of `wait_for_data` (`p`
unsuccessful ones), the bulk read, clear interrupt, stop ranging. -/
def visit_issued (g : Globals) (s : rangefinder_config_t) (p : Nat) : List Event :=
  select_events g s.i2c_mux_port s.i2c_mux_address ++ wait_events p ++
    [bulk_read, Event.reg16_write_bytes 0x8600 [0x01], Event.reg16_write_bytes 0x8700 [0x00]]

/-- The visits `main` makes, in order, sensor `i` needing `polls[i]` unsuccessful polls. -/
def visits_issued (g : Globals) : List rangefinder_config_t → List Nat → List Event
  | s :: rest, p :: ps => visit_issued g s p ++ visits_issued g rest ps
  | _, _ => []

/-- What one pass of `main` over multiplexed sensors only puts in the trace: the client
check, `_set_multiplexer(MUX_ALL, VL53L1X_TOF_DEFAULT_ADDR)`, start ranging, the
timing-budget sleep, the visits, the clock reading and the batch. -/
def round_issued (g : Globals) (polls : List Nat) (batch : List rangefinder_data_t) :
    List Event :=
  [Event.pipe_server_get_num_clients] ++ select_events g MUX_ALL VL53L1X_TOF_DEFAULT_ADDR ++
    [Event.reg16_write_bytes 0x8700 [0x40], Event.usleep (g.TimingBudgetInMs * 1000)] ++
    visits_issued g g.enabled_sensors polls ++
    [Event.clock_gettime, Event.pipe_server_write batch]

/-! ## The round as the specification describes it -/

/-- The specification's visit of one multiplexed sensor (4.3, 4.4): select(its port), which
ends by setting the bus back to the sensor's own address `i2c_address`, then wait for data
(`p` unsuccessful polls), read the result block, clear the interrupt, stop ranging. -/
def visit_events (g : Globals) (s : rangefinder_config_t) (p : Nat) : List Event :=
  select_events g s.i2c_mux_port s.i2c_address ++ wait_events p ++
    [bulk_read, Event.reg16_write_bytes 0x8600 [0x01], Event.reg16_write_bytes 0x8700 [0x00]]

/-- The specification's visits of the sensors in configured order, sensor `i` needing
`polls[i]` unsuccessful polls. -/
def visits_events (g : Globals) : List rangefinder_config_t → List Nat → List Event
  | s :: rest, p :: ps => visit_events g s p ++ visits_events g rest ps
  | _, _ => []

/-- The specification's round over multiplexed sensors only: the client check, select(ALL),
start ranging, the timing-budget sleep, the visits in configured order, the clock reading and
the batch. -/
def round_events (g : Globals) (polls : List Nat) (batch : List rangefinder_data_t) :
    List Event :=
  [Event.pipe_server_get_num_clients] ++ select_events g MUX_ALL VL53L1X_TOF_DEFAULT_ADDR ++
    [Event.reg16_write_bytes 0x8700 [0x40], Event.usleep (g.TimingBudgetInMs * 1000)] ++
    visits_events g g.enabled_sensors polls ++
    [Event.clock_gettime, Event.pipe_server_write batch]

/-- Whether the answer `r` to the bus operation `e` reports success: 0 from the address,
send and write calls, the requested byte count from a read. -/
def Event.succeeded (e : Event) (r : Reply) : Bool :=
  match e with
  | Event.set_device_address _ => r.ret == 0
  | Event.send_byte _ => r.ret == 0
  | Event.reg16_write_bytes _ _ => r.ret == 0
  | Event.reg16_read_bytes _ n => r.ret == (n : Int)
  | _ => true

/-! ## Concrete configurations and environments -/

/-- An enabled VL53L1X on multiplexer port `p` with configured field of view `fov`. -/
def sensor_on_port (p : Int) (fov : ℚ) : rangefinder_config_t :=
  { enabled := 1, sensor_id := p, type := 0, i2c_address := 0x29, uncertainty_m := 1 / 50,
    fov_deg := fov, range_max_m := 3, location_wrt_body := [0, 0, 0],
    direction_wrt_body := [1, 0, 0], is_on_mux := 1, i2c_mux_address := 0x70,
    i2c_mux_port := p }

/-- The globals for the multiplexed sensors `l` alone, with timing budget 33 ms. -/
def globals_muxed (l : List rangefinder_config_t) (en_debug : Int) : Globals :=
  { enabled_sensors := l, has_nonmux_sensor := 0, n_mux_sensors := l.length,
    mux_address := 0x70, en_debug := en_debug, TimingBudgetInMs := 33,
    RANGEFINDER_MAGIC_NUMBER := 0 }

/-- The loop state before the first pass, with the clock at 0. -/
def initial_state (g : Globals) : MainState :=
  { main_running := 1, last_time_ns := 0, sample_id := 0,
    data := g.enabled_sensors.map (prefill g) }

/-- One client is connected and every bus call succeeds, but the data-ready bit of the
status register is never set. -/
def env_never_ready : Env :=
  Env.ofReplies ([⟨1, []⟩] ++ List.replicate 8 ⟨0, []⟩) ⟨1, [0]⟩

/-- The identity register reads `0xEACC` (call 5), the first data-ready poll of the first
pass finds the bit set (call 120) and the bulk read returns a valid block with range
1234 mm (call 121); every other call is answered with 0. -/
def env_one_sensor_run : Env :=
  Env.ofReplies (List.replicate 5 ⟨0, []⟩ ++ [⟨2, [0xEA, 0xCC]⟩] ++ List.replicate 114 ⟨0, []⟩
    ++ [⟨1, [1]⟩, ⟨16, resultBlock 9 16 40 1234⟩]) ⟨0, []⟩

/-- The environment `env` with the answer to call `k` replaced by `r`. -/
def Env.withReply (env : Env) (k : Nat) (r : Reply) : Env :=
  { env with reply := fun x => if x = k then r else env.reply x }

/-- Four multiplexed sensors on ports 0 to 3. -/
def four_sensors : List rangefinder_config_t :=
  [sensor_on_port 0 27, sensor_on_port 1 27, sensor_on_port 2 27, sensor_on_port 3 27]

/-- The answers to the visit of a sensor that is ready at the first poll and returns a block
with raw status 9 and range `d`: three for the select, the poll, the bulk read, the clear and
the stop. -/
def ready_visit (d : Nat) : List Reply :=
  [⟨0, []⟩, ⟨0, []⟩, ⟨0, []⟩, ⟨1, [1]⟩, ⟨16, resultBlock 9 16 40 d⟩, ⟨0, []⟩, ⟨0, []⟩]

/-- A pass over `four_sensors` from an empty trace in which everything succeeds: one client
(call 0), select(ALL), start and sleep (calls 1-5), sensor 0 ready at its second poll (calls
6-14, bulk read at 12), sensors 1, 2 and 3 ready at once (bulk reads at calls 19, 26 and 33),
the clock at 5 s + 1000 ns (call 36). -/
def env_four_sensors : Env :=
  Env.ofReplies ([⟨1, []⟩] ++ List.replicate 5 ⟨0, []⟩ ++
    [⟨0, []⟩, ⟨0, []⟩, ⟨0, []⟩, ⟨1, [0]⟩, ⟨0, []⟩, ⟨1, [1]⟩, ⟨16, resultBlock 9 16 40 1000⟩,
      ⟨0, []⟩, ⟨0, []⟩] ++
    ready_visit 1100 ++ ready_visit 1200 ++ ready_visit 1300 ++ [⟨0, [5, 1000]⟩]) ⟨0, []⟩

/-- The writes both `init` functions issue between the identity check and the timing-budget
switch, as they appear on the wire (register `0x00NN` is sent as `0xNN00`): the 91 bytes of
the default table to registers `0x2D .. 0x87` in ascending order, then the six long-distance
mode writes. -/
def init_prologue : List Event :=
  (List.range 91).map
    (fun i => Event.reg16_write_bytes ((0x2D + i) * 256) [VL51L1X_DEFAULT_CONFIGURATION.getD i 0])
  ++ [Event.reg16_write_bytes 0x4B00 [0x0A],
      Event.reg16_write_bytes 0x6000 [0x0F],
      Event.reg16_write_bytes 0x6300 [0x0D],
      Event.reg16_write_bytes 0x6900 [0xB8],
      Event.reg16_write_bytes 0x7800 [0x0F, 0x0D],
      Event.reg16_write_bytes 0x7A00 [0x0E, 0x0E]]

/-- An environment in which the identity register reads `0xEACC` and every other call is
answered with `0` and no data. -/
def env_identity_ok : Env := Env.ofReplies [⟨2, [0xEA, 0xCC]⟩] ⟨0, []⟩

/-- The payloads of the register writes to wire address `reg`, in order. -/
def writes_to (reg : Nat) : Trace → List (List Nat)
  | [] => []
  | Event.reg16_write_bytes r d :: rest =>
    if r = reg then d :: writes_to reg rest else writes_to reg rest
  | _ :: rest => writes_to reg rest

/-- A write to the pipe. -/
def Event.isPipeWrite : Event → Bool
  | Event.pipe_server_write _ => true
  | _ => false

/-- A write on the register bus. -/
def Event.isRegWrite : Event → Bool
  | Event.reg16_write_bytes _ _ => true
  | _ => false

/-- A write of `n` bytes to the register whose wire address is `reg`. -/
def Event.isWriteOf (reg n : Nat) : Event → Bool
  | Event.reg16_write_bytes r d => r == reg && d.length == n
  | _ => false

/-- The big-endian 16-bit value of bytes 10 and 11 of a result block, the sigma register. -/
def sigma_register (block : List Nat) : Nat := byteAt block 10 * 256 + byteAt block 11

/-- A full result block with raw status 9, signal 16, sigma register 43 and range 1234 mm as
the answer to the first call. -/
def env_sigma_43 : Env := Env.ofReplies [⟨16, resultBlock 9 16 43 1234⟩] ⟨0, []⟩

/-- The identity register reads `0xEACC` (call 0) and the oscillator calibration register
reads `0x0123` (call 102); the transport answers every other call, the 102 register writes of
`init` among them, with the error value -1. -/
def env_writes_fail : Env :=
  Env.ofReplies ([⟨2, [0xEA, 0xCC]⟩] ++ List.replicate 101 ⟨-1, []⟩ ++ [⟨2, [0x01, 0x23]⟩])
    ⟨-1, []⟩

/-- The same answers to the two reads as in `env_writes_fail`, and success (0) to every other
call. -/
def env_writes_succeed : Env :=
  Env.ofReplies ([⟨2, [0xEA, 0xCC]⟩] ++ List.replicate 101 ⟨0, []⟩ ++ [⟨2, [0x01, 0x23]⟩])
    ⟨0, []⟩

/-- The answer to a poll of the status register reports one byte read with the low bit of
the byte clear. -/
def Reply.pollClear (r : Reply) : Bool := r.ret == 1 && (byteAt r.data 0 &&& 1) == 0

/-- The answer to a poll of the status register reports one byte read with the low bit of
the byte set. -/
def Reply.pollReady (r : Reply) : Bool := r.ret == 1 && (byteAt r.data 0 &&& 1) != 0

/-- The events of `n` polls that each find the bit clear: a read of the status register
followed by a 5 ms sleep, `n` times. -/
def timeout_events : Nat → List Event
  | 0 => []
  | n + 1 => Event.reg16_read_bytes 0x3100 1 :: Event.usleep 5000 :: timeout_events n

/-- The total time slept in a trace, in microseconds. -/
def slept_us : Trace → Int
  | [] => 0
  | Event.usleep us :: rest => us + slept_us rest
  | _ :: rest => slept_us rest

/-- The clock answers 1001 ns to the first call. -/
def env_clock_1001 : Env := Env.ofReplies [⟨0, [0, 1001]⟩] ⟨0, []⟩

/-- The values `_apps_time_monotonic_ns` returned in a run, in order: `done` is the trace
before the stretch of events looked at. -/
def clock_readings (env : Env) : Trace → Trace → List Int
  | _, [] => []
  | done, Event.clock_gettime :: rest =>
    (_apps_time_monotonic_ns env done).1 ::
      clock_readings env (done ++ [Event.clock_gettime]) rest
  | done, e :: rest => clock_readings env (done ++ [e]) rest

/-- Neither a reading of the clock nor a write to the pipe. -/
def Event.isQuiet : Event → Bool
  | Event.clock_gettime => false
  | Event.pipe_server_write _ => false
  | _ => true

/-- The answers to one pass over a single multiplexed sensor in which everything succeeds and
the clock reads `sec` s + 1000 ns: the client check, select(ALL), start and sleep (6 calls),
the visit of the sensor (7 calls), the clock and the pipe write. -/
def round_replies (sec : Nat) : List Reply :=
  [⟨0, []⟩] ++ List.replicate 5 ⟨0, []⟩ ++ ready_visit 1000 ++ [⟨0, [sec, 1000]⟩, ⟨0, []⟩]

/-- Two passes over a single multiplexed sensor, the clock reading 5 s + 1000 ns at the end
of the first and 9 s + 1000 ns at the end of the second.  The client check is answered 0, so
the passes sample only in debug mode. -/
def env_two_rounds : Env := Env.ofReplies (round_replies 5 ++ round_replies 9) ⟨0, []⟩

/-- The device address a call sets the bus to, for the two calls that set one. -/
def Event.address : Event → Option Int
  | Event.set_device_address a => some a
  | Event.i2c_init a => some a
  | _ => none

/-- The device address the bus was last set to in a trace: the argument of the most recent
`voxl_i2c_init` or `voxl_i2c_set_device_address`, which is the device that register operations
reach when that call succeeded. -/
def bus_target : Trace → Option Int
  | [] => none
  | e :: rest =>
    match bus_target rest with
    | some a => some a
    | none => e.address

/-- Every call is answered 0 with no data. -/
def env_all_zero : Env := Env.ofReplies [] ⟨0, []⟩

/-- A measurement counts as a reading when the call returned 0 and the distance is not
negative (both rejection sentinels, -1 and -1000, are negative; a decoded range is not). -/
def Measurement.accepted (m : Measurement) : Bool := m.ret == 0 && decide (0 ≤ m.dist_mm)

/-- The state in which `main` enters the sampling loop, `lt` being the clock reading taken
just before (`main.c` lines 286-314). -/
def loop_entry_state (g : Globals) (lt : Int) : MainState :=
  { main_running := 1, last_time_ns := lt, sample_id := 0,
    data := g.enabled_sensors.map (prefill g) }

/-- A record with the three fields a round writes (`timestamp_ns`, `sample_id`,
`distance_m`) blanked: what is left is the part of the record a round must not change. -/
def rangefinder_data_t.static (d : rangefinder_data_t) : rangefinder_data_t :=
  { d with timestamp_ns := 0, sample_id := 0, distance_m := 0 }

/-- The `dist_mm` values `vl53l1x_get_distance_mm` decoded at the bulk reads of a stretch of
events, in order: `done` is the trace before the stretch. -/
def decoded_readings (env : Env) : Trace → Trace → List Int
  | _, [] => []
  | done, e :: rest =>
    if e = bulk_read then
      (vl53l1x_get_distance_mm env done).1.dist_mm :: decoded_readings env (done ++ [e]) rest
    else decoded_readings env (done ++ [e]) rest

/-- The trace at which the read-back loop of a pass starts: after the client check, the
start of ranging and the sleep of the timing budget (`main.c` lines 319-348). -/
def read_back_start (env : Env) (g : Globals) (tr : Trace) : Trace :=
  usleep (g.TimingBudgetInMs * 1000)
    (main_start_ranging env g (pipe_server_get_num_clients env tr).2).2

/-- Debug mode with two multiplexed sensors on ports 0 and 1: the first pass starts, the
sensor on port 0 is ready at its first poll and returns a block with range 1000 mm, and every
call after that (the polls of the sensor on port 1 among them) is answered 1 with a byte
whose low bit is clear, so that sensor times out. -/
def env_second_sensor_times_out : Env :=
  Env.ofReplies ([⟨0, []⟩] ++ List.replicate 5 ⟨0, []⟩ ++ ready_visit 1000 ++
    List.replicate 3 ⟨0, []⟩) ⟨1, [0]⟩

/-- Two multiplexed sensors on ports 0 and 1. -/
def two_sensors : List rangefinder_config_t := [sensor_on_port 0 27, sensor_on_port 1 27]

theorem byteAt_lt (buf : List Nat) (i : Nat) : byteAt buf i < 256 := by
  unfold byteAt
  omega

theorem field16_eq (all_data : List Nat) (offset : Nat) :
    field16 all_data offset = byteAt all_data offset * 256 + byteAt all_data (offset + 1) := by
  have h0 := byteAt_lt all_data offset
  have h1 := byteAt_lt all_data (offset + 1)
  unfold field16
  rw [Nat.shiftLeft_eq]
  omega

theorem field16_lt (all_data : List Nat) (offset : Nat) : field16 all_data offset < 65536 := by
  unfold field16
  omega

/-- C1: a block with normalized status 0, signal 16 and raw distance 65535 (above the
8000 mm ceiling) is accepted by `vl53l1x_get_distance_mm`, which returns 0 with
`dist_mm = 65535`; the sf20c decoder rejects the same block. -/
theorem C1_vl53l1x_accepts_distance_above_ceiling :
    vl53l1x_status (resultBlock 9 16 40 65535) = 0 ∧
    signal (resultBlock 9 16 40 65535) = 16 ∧
    dist_mm_raw (resultBlock 9 16 40 65535) = 65535 ∧
    (vl53l1x_get_distance_mm (Env.ofReplies [⟨16, resultBlock 9 16 40 65535⟩] ⟨0, []⟩) []).1
      = { ret := 0, dist_mm := 65535, sd := 10 } ∧
    (sf20c_get_distance_mm (Env.ofReplies [⟨16, resultBlock 9 16 40 65535⟩] ⟨0, []⟩) []).1
      = { ret := 0, dist_mm := -1000, sd := -1 } := by
  decide

/-- C2: a block with normalized status 0, raw distance 1000 and signal 3, below
`SF20C_LOWEST_ACCEPTABLE_SIGNAL = 5`, is accepted by `sf20c_get_distance_mm`, which returns 0
with `dist_mm = 1000`: the threshold the code applies is the VL53L1X one, 2. -/
theorem C2_sf20c_accepts_signal_below_own_threshold :
    sf20c_status (resultBlock 9 3 40 1000) = 0 ∧
    dist_mm_raw (resultBlock 9 3 40 1000) = 1000 ∧
    signal (resultBlock 9 3 40 1000) = 3 ∧
    signal (resultBlock 9 3 40 1000) < SF20C_LOWEST_ACCEPTABLE_SIGNAL ∧
    (sf20c_get_distance_mm (Env.ofReplies [⟨16, resultBlock 9 3 40 1000⟩] ⟨0, []⟩) []).1
      = { ret := 0, dist_mm := 1000, sd := 10 } := by
  decide

/-- C3: for every answer of the bus to the bulk read, both decoders return 0 when the 16
bytes came in full and -1 exactly when they did not; on a full read the two outputs are
either the decoded pair or the sentinel pair (`-1`/`-1000` and `-1`), the sentinel pair
whenever one of the code's rejection tests fires, and after a failed read they are the
sentinel pair. -/
theorem C3_soft_rejection_is_not_an_error (env : Env) (tr : Trace) :
    ((env.reply tr.length).ret = 16 →
      (vl53l1x_get_distance_mm env tr).1.ret = 0 ∧ (sf20c_get_distance_mm env tr).1.ret = 0) ∧
    ((env.reply tr.length).ret = 16 →
      ((vl53l1x_get_distance_mm env tr).1.dist_mm = dist_mm_raw (env.reply tr.length).data ∧
        (vl53l1x_get_distance_mm env tr).1.sd = sigma_mm (env.reply tr.length).data) ∨
      ((vl53l1x_get_distance_mm env tr).1.dist_mm = -1 ∧
        (vl53l1x_get_distance_mm env tr).1.sd = -1)) ∧
    ((env.reply tr.length).ret = 16 →
      ((sf20c_get_distance_mm env tr).1.dist_mm = dist_mm_raw (env.reply tr.length).data ∧
        (sf20c_get_distance_mm env tr).1.sd = sigma_mm (env.reply tr.length).data) ∨
      ((sf20c_get_distance_mm env tr).1.dist_mm = -1000 ∧
        (sf20c_get_distance_mm env tr).1.sd = -1)) ∧
    ((env.reply tr.length).ret = 16 →
      (vl53l1x_status (env.reply tr.length).data ≠ 0 ∧
          vl53l1x_status (env.reply tr.length).data ≠ 2) ∨
        signal (env.reply tr.length).data < 2 →
      (vl53l1x_get_distance_mm env tr).1 = { ret := 0, dist_mm := -1, sd := -1 }) ∧
    ((env.reply tr.length).ret = 16 →
      (sf20c_status (env.reply tr.length).data ≠ 0 ∧
          sf20c_status (env.reply tr.length).data ≠ 2) ∨
        dist_mm_raw (env.reply tr.length).data > 8000 ∨
        signal (env.reply tr.length).data < 2 →
      (sf20c_get_distance_mm env tr).1 = { ret := 0, dist_mm := -1000, sd := -1 }) ∧
    ((vl53l1x_get_distance_mm env tr).1.ret = -1 ↔ (env.reply tr.length).ret ≠ 16) ∧
    ((sf20c_get_distance_mm env tr).1.ret = -1 ↔ (env.reply tr.length).ret ≠ 16) ∧
    ((env.reply tr.length).ret ≠ 16 →
      (vl53l1x_get_distance_mm env tr).1 = { ret := -1, dist_mm := -1, sd := -1 } ∧
      (sf20c_get_distance_mm env tr).1 = { ret := -1, dist_mm := -1000, sd := -1 }) := by
  simp only [vl53l1x_get_distance_mm, sf20c_get_distance_mm, vl53l1x_read_reg_bytes,
    sf20c_read_reg_bytes, voxl_i2c_reg16_read_bytes, n_bytes, VL53L1X_LOWEST_ACCEPTABLE_SIGNAL]
  by_cases hfull : (env.reply tr.length).ret = 16
  · simp only [hfull, Nat.cast_ofNat, ne_eq, not_true_eq_false, if_false, forall_const]
    refine ⟨?_, ?_, ?_, ?_, ?_, ?_, ?_, ?_⟩
    · constructor <;> split_ifs <;> rfl
    · split_ifs <;> simp
    · split_ifs <;> simp
    · intro h
      split_ifs with h1 h2 <;> first | rfl | (exfalso; tauto)
    · intro h
      split_ifs with h1 h2 h3 <;> first | rfl | (exfalso; tauto)
    · split_ifs <;> simp
    · split_ifs <;> simp
    · intro h; exact h.elim
  · simp [hfull]

/-! ## Facts about `init` -/

theorem load_defaults_loop_eq (env : Env) :
    ∀ (fuel Addr : Nat) (tr : Trace), Addr ≤ 0x88 → 0x88 - Addr ≤ fuel →
      load_defaults_loop env fuel Addr tr
        = tr ++ (List.range' Addr (0x88 - Addr)).map
            (fun a => Event.reg16_write_bytes (_reverse_lsb_msb_16 a)
              [VL51L1X_DEFAULT_CONFIGURATION.getD (a - 0x2D) 0 % 256]) := by
  intro fuel
  induction fuel with
  | zero =>
    intro Addr tr h1 h2
    have : 0x88 - Addr = 0 := by omega
    simp [load_defaults_loop, this]
  | succ n ih =>
    intro Addr tr h1 h2
    by_cases h : Addr ≤ 0x87
    · have e1 : (Addr + 1) % 256 = Addr + 1 := by omega
      have e2 : 0x88 - Addr = (0x88 - (Addr + 1)) + 1 := by omega
      rw [load_defaults_loop, if_pos h, e1, ih (Addr + 1) _ (by omega) (by omega)]
      conv_rhs => rw [e2, List.range'_succ]
      simp [vl53l1x_write_reg_byte, voxl_i2c_reg16_write_bytes]
    · have : 0x88 - Addr = 0 := by omega
      rw [load_defaults_loop, if_neg h, this]
      simp

theorem load_defaults_events :
    (List.range' 0x2D (0x88 - 0x2D)).map
        (fun a => Event.reg16_write_bytes (_reverse_lsb_msb_16 a)
          [VL51L1X_DEFAULT_CONFIGURATION.getD (a - 0x2D) 0 % 256])
      = (List.range 91).map
          (fun i => Event.reg16_write_bytes ((0x2D + i) * 256)
            [VL51L1X_DEFAULT_CONFIGURATION.getD i 0]) := by
  decide

theorem vl53l1x_check_whoami_eq (env : Env) (quiet : Int) (tr : Trace) :
    vl53l1x_check_whoami env quiet tr
      = (if (env.reply tr.length).ret ≠ 2 then -2
          else if field16 (env.reply tr.length).data 0 ≠ 0xEACC then -1 else 0,
         tr ++ [Event.reg16_read_bytes 0x0F01 2]) := by
  have e : _reverse_lsb_msb_16 VL53L1_IDENTIFICATION__MODEL_ID = 0x0F01 := by decide
  simp only [vl53l1x_check_whoami, vl53l1x_read_reg_word, voxl_i2c_reg16_read_bytes, e, field16]
  split_ifs <;> simp_all

theorem sf20c_check_whoami_eq (env : Env) (quiet : Int) (tr : Trace) :
    sf20c_check_whoami env quiet tr
      = (if (env.reply tr.length).ret ≠ 2 then -2
          else if field16 (env.reply tr.length).data 0 ≠ 0xEACC then -1 else 0,
         tr ++ [Event.reg16_read_bytes 0x0F01 2]) := by
  have e : _reverse_lsb_msb_16 VL53L1_IDENTIFICATION__MODEL_ID = 0x0F01 := by decide
  simp only [sf20c_check_whoami, sf20c_read_reg_word, voxl_i2c_reg16_read_bytes, e, field16]
  split_ifs <;> simp_all

/-- C10: `check_whoami` returns 0 exactly when the two-byte read of register `0x010F`
succeeds with big-endian value `0xEACC`, -1 on another value and -2 on a failed read; it
issues that one read; and when it is non-zero `init` returns -1 with that read as its only
bus operation (both variants). -/
theorem C10_identity_check (env : Env) (quiet : Int) (fov_deg : ℚ) (TimingBudgetInMs : Int)
    (tr : Trace) :
    (((vl53l1x_check_whoami env quiet tr).1 = 0 ↔
        (env.reply tr.length).ret = 2 ∧
          byteAt (env.reply tr.length).data 0 * 256 + byteAt (env.reply tr.length).data 1
            = 0xEACC) ∧
      ((env.reply tr.length).ret = 2 ∧
          byteAt (env.reply tr.length).data 0 * 256 + byteAt (env.reply tr.length).data 1
            ≠ 0xEACC → (vl53l1x_check_whoami env quiet tr).1 = -1) ∧
      ((env.reply tr.length).ret ≠ 2 → (vl53l1x_check_whoami env quiet tr).1 = -2) ∧
      (vl53l1x_check_whoami env quiet tr).2
        = tr ++ [Event.reg16_read_bytes (_reverse_lsb_msb_16 0x010F) 2] ∧
      ((vl53l1x_check_whoami env 0 tr).1 ≠ 0 →
        vl53l1x_init env fov_deg TimingBudgetInMs tr
          = (-1, tr ++ [Event.reg16_read_bytes (_reverse_lsb_msb_16 0x010F) 2]))) ∧
    (((sf20c_check_whoami env quiet tr).1 = 0 ↔
        (env.reply tr.length).ret = 2 ∧
          byteAt (env.reply tr.length).data 0 * 256 + byteAt (env.reply tr.length).data 1
            = 0xEACC) ∧
      ((env.reply tr.length).ret = 2 ∧
          byteAt (env.reply tr.length).data 0 * 256 + byteAt (env.reply tr.length).data 1
            ≠ 0xEACC → (sf20c_check_whoami env quiet tr).1 = -1) ∧
      ((env.reply tr.length).ret ≠ 2 → (sf20c_check_whoami env quiet tr).1 = -2) ∧
      (sf20c_check_whoami env quiet tr).2
        = tr ++ [Event.reg16_read_bytes (_reverse_lsb_msb_16 0x010F) 2] ∧
      ((sf20c_check_whoami env 0 tr).1 ≠ 0 →
        sf20c_init env fov_deg TimingBudgetInMs tr
          = (-1, tr ++ [Event.reg16_read_bytes (_reverse_lsb_msb_16 0x010F) 2]))) := by
  have e : _reverse_lsb_msb_16 0x010F = 0x0F01 := by decide
  have hf := field16_eq (env.reply tr.length).data 0
  simp only [zero_add] at hf
  constructor
  · refine ⟨?_, ?_, ?_, ?_, ?_⟩
    · rw [vl53l1x_check_whoami_eq, ← hf]
      by_cases h1 : (env.reply tr.length).ret = 2 <;>
        by_cases h2 : field16 (env.reply tr.length).data 0 = 0xEACC <;> simp [h1, h2]
    · rintro ⟨h1, h2⟩
      rw [← hf] at h2
      rw [vl53l1x_check_whoami_eq]
      simp [h1, h2]
    · intro h1
      rw [vl53l1x_check_whoami_eq]
      simp [h1]
    · rw [vl53l1x_check_whoami_eq, e]
    · intro h
      have ht : (vl53l1x_check_whoami env 0 tr).2 = tr ++ [Event.reg16_read_bytes 0x0F01 2] := by
        rw [vl53l1x_check_whoami_eq]
      unfold vl53l1x_init
      simp only [ne_eq, h, not_false_eq_true, if_true, ht, e]
  · refine ⟨?_, ?_, ?_, ?_, ?_⟩
    · rw [sf20c_check_whoami_eq, ← hf]
      by_cases h1 : (env.reply tr.length).ret = 2 <;>
        by_cases h2 : field16 (env.reply tr.length).data 0 = 0xEACC <;> simp [h1, h2]
    · rintro ⟨h1, h2⟩
      rw [← hf] at h2
      rw [sf20c_check_whoami_eq]
      simp [h1, h2]
    · intro h1
      rw [sf20c_check_whoami_eq]
      simp [h1]
    · rw [sf20c_check_whoami_eq, e]
    · intro h
      have ht : (sf20c_check_whoami env 0 tr).2 = tr ++ [Event.reg16_read_bytes 0x0F01 2] := by
        rw [sf20c_check_whoami_eq]
      unfold sf20c_init
      simp only [ne_eq, h, not_false_eq_true, if_true, ht, e]

theorem vl53l1x_write_reg_byte_trace (env : Env) (reg d : Nat) (tr : Trace) :
    (vl53l1x_write_reg_byte env reg d tr).2
      = tr ++ [Event.reg16_write_bytes (_reverse_lsb_msb_16 reg) [d % 256]] := rfl

theorem vl53l1x_write_reg_word_trace (env : Env) (reg d : Nat) (tr : Trace) :
    (vl53l1x_write_reg_word env reg d tr).2
      = tr ++ [Event.reg16_write_bytes (_reverse_lsb_msb_16 reg)
          [((d % 65536) >>> 8) % 256, (d % 65536) &&& 0x00FF]] := rfl

theorem sf20c_write_reg_byte_trace (env : Env) (reg d : Nat) (tr : Trace) :
    (sf20c_write_reg_byte env reg d tr).2
      = tr ++ [Event.reg16_write_bytes (_reverse_lsb_msb_16 reg) [d % 256]] := rfl

theorem sf20c_write_reg_word_trace (env : Env) (reg d : Nat) (tr : Trace) :
    (sf20c_write_reg_word env reg d tr).2
      = tr ++ [Event.reg16_write_bytes (_reverse_lsb_msb_16 reg)
          [((d % 65536) >>> 8) % 256, (d % 65536) &&& 0x00FF]] := rfl

theorem vl53l1x_init_prologue_eq (env : Env) (t : Trace) :
    (vl53l1x_write_reg_word env SD_CONFIG__INITIAL_PHASE_SD0 0x0E0E
      (vl53l1x_write_reg_word env SD_CONFIG__WOI_SD0 0x0F0D
        (vl53l1x_write_reg_byte env RANGE_CONFIG__VALID_PHASE_HIGH 0xB8
          (vl53l1x_write_reg_byte env RANGE_CONFIG__VCSEL_PERIOD_B 0x0D
            (vl53l1x_write_reg_byte env RANGE_CONFIG__VCSEL_PERIOD_A 0x0F
              (vl53l1x_write_reg_byte env PHASECAL_CONFIG__TIMEOUT_MACROP 0x0A
                (load_defaults_loop env 256 0x2D t)).2).2).2).2).2).2
      = t ++ init_prologue := by
  rw [load_defaults_loop_eq env 256 0x2D t (by decide) (by decide), load_defaults_events]
  simp only [vl53l1x_write_reg_byte_trace, vl53l1x_write_reg_word_trace,
    init_prologue, List.append_assoc, List.singleton_append, List.cons_append, List.nil_append]
  rfl

theorem sf20c_init_prologue_eq (env : Env) (t : Trace) :
    (sf20c_write_reg_word env SD_CONFIG__INITIAL_PHASE_SD0 0x0E0E
      (sf20c_write_reg_word env SD_CONFIG__WOI_SD0 0x0F0D
        (sf20c_write_reg_byte env RANGE_CONFIG__VALID_PHASE_HIGH 0xB8
          (sf20c_write_reg_byte env RANGE_CONFIG__VCSEL_PERIOD_B 0x0D
            (sf20c_write_reg_byte env RANGE_CONFIG__VCSEL_PERIOD_A 0x0F
              (sf20c_write_reg_byte env PHASECAL_CONFIG__TIMEOUT_MACROP 0x0A
                (load_defaults_loop env 256 0x2D t)).2).2).2).2).2).2
      = t ++ init_prologue := by
  rw [load_defaults_loop_eq env 256 0x2D t (by decide) (by decide), load_defaults_events]
  simp only [sf20c_write_reg_byte_trace, sf20c_write_reg_word_trace,
    init_prologue, List.append_assoc, List.singleton_append, List.cons_append, List.nil_append]
  rfl

theorem vl53l1x_init_rejects (env : Env) (fov_deg : ℚ) (b : Int) (tr : Trace)
    (h1 : (env.reply tr.length).ret = 2)
    (h2 : field16 (env.reply tr.length).data 0 = 0xEACC)
    (hb : b ∉ [20, 33, 50, 100, 200, 500]) :
    vl53l1x_init env fov_deg b tr
      = (-1, tr ++ Event.reg16_read_bytes 0x0F01 2 :: init_prologue) := by
  simp only [List.mem_cons, List.mem_singleton, not_or, List.not_mem_nil, or_false] at hb
  obtain ⟨b1, b2, b3, b4, b5, b6⟩ := hb
  have hw : vl53l1x_check_whoami env 0 tr = (0, tr ++ [Event.reg16_read_bytes 0x0F01 2]) := by
    rw [vl53l1x_check_whoami_eq]; simp [h1, h2]
  unfold vl53l1x_init
  simp only [hw, ne_eq, not_true_eq_false, if_false, b1, b2, b3, b4, b5, b6,
    vl53l1x_init_prologue_eq]
  simp

theorem sf20c_init_rejects (env : Env) (fov_deg : ℚ) (b : Int) (tr : Trace)
    (h1 : (env.reply tr.length).ret = 2)
    (h2 : field16 (env.reply tr.length).data 0 = 0xEACC)
    (hb : b ∉ [20, 33, 50, 100, 200, 500]) :
    sf20c_init env fov_deg b tr
      = (-1, tr ++ Event.reg16_read_bytes 0x0F01 2 :: init_prologue) := by
  simp only [List.mem_cons, List.mem_singleton, not_or, List.not_mem_nil, or_false] at hb
  obtain ⟨b1, b2, b3, b4, b5, b6⟩ := hb
  have hw : sf20c_check_whoami env 0 tr = (0, tr ++ [Event.reg16_read_bytes 0x0F01 2]) := by
    rw [sf20c_check_whoami_eq]; simp [h1, h2]
  unfold sf20c_init
  simp only [hw, ne_eq, not_true_eq_false, if_false, b1, b2, b3, b4, b5, b6,
    sf20c_init_prologue_eq]
  simp

/-- With a passing identity check and a supported budget, `vl53l1x_init` returns 0 after this
sequence of bus operations. -/
theorem vl53l1x_init_accepts (env : Env) (fov_deg : ℚ) (b : Int) (A B : Nat) (tr : Trace)
    (h1 : (env.reply tr.length).ret = 2)
    (h2 : field16 (env.reply tr.length).data 0 = 0xEACC)
    (hb : (b, A, B) ∈ [((20 : Int), 0x001E, 0x0022), (33, 0x0060, 0x006E), (50, 0x00AD, 0x00C6),
      (100, 0x01CC, 0x01EA), (200, 0x02D9, 0x02F8), (500, 0x048F, 0x04A4)]) :
    ∃ roi clk, vl53l1x_init env fov_deg b tr
      = (0, tr ++ (Event.reg16_read_bytes 0x0F01 2 :: init_prologue ++
          [Event.reg16_write_bytes 0x5E00 [A / 256, A % 256],
           Event.reg16_write_bytes 0x6100 [B / 256, B % 256],
           Event.reg16_write_bytes 0x7F00 [199],
           Event.reg16_write_bytes 0x8000 [roi],
           Event.reg16_read_bytes 0xDE00 2,
           Event.reg16_write_bytes 0x6C00 clk])) := by
  have hw : vl53l1x_check_whoami env 0 tr = (0, tr ++ [Event.reg16_read_bytes 0x0F01 2]) := by
    rw [vl53l1x_check_whoami_eq]; simp [h1, h2]
  have e1 : _reverse_lsb_msb_16 RANGE_CONFIG__TIMEOUT_MACROP_A_HI = 0x5E00 := by decide
  have e2 : _reverse_lsb_msb_16 RANGE_CONFIG__TIMEOUT_MACROP_B_HI = 0x6100 := by decide
  have e3 : _reverse_lsb_msb_16 ROI_CONFIG__USER_ROI_CENTRE_SPAD = 0x7F00 := by decide
  have e4 : _reverse_lsb_msb_16 ROI_CONFIG__USER_ROI_REQUESTED_GLOBAL_XY_SIZE = 0x8000 := by
    decide
  have e5 : _reverse_lsb_msb_16 VL53L1_RESULT__OSC_CALIBRATE_VAL = 0xDE00 := by decide
  have e6 : _reverse_lsb_msb_16 VL53L1_SYSTEM__INTERMEASUREMENT_PERIOD = 0x6C00 := by decide
  simp only [List.mem_cons, List.mem_singleton, Prod.mk.injEq, List.not_mem_nil, or_false] at hb
  unfold vl53l1x_init
  simp only [hw, ne_eq, not_true_eq_false, if_false, vl53l1x_init_prologue_eq]
  rcases hb with h | h | h | h | h | h <;> obtain ⟨hb1, hb2, hb3⟩ := h <;> subst hb1 hb2 hb3 <;>
  · simp only [vl53l1x_write_reg_byte, vl53l1x_write_reg_word, vl53l1x_write_reg_int,
      vl53l1x_read_reg_word, voxl_i2c_reg16_write_bytes, voxl_i2c_reg16_read_bytes,
      e1, e2, e3, e4, e5, e6, List.append_assoc, List.singleton_append, List.cons_append,
      List.nil_append]
    exact ⟨_, _, rfl⟩

/-- With a passing identity check and a supported budget, `sf20c_init` returns 0 after this
sequence of bus operations. -/
theorem sf20c_init_accepts (env : Env) (fov_deg : ℚ) (b : Int) (A B : Nat) (tr : Trace)
    (h1 : (env.reply tr.length).ret = 2)
    (h2 : field16 (env.reply tr.length).data 0 = 0xEACC)
    (hb : (b, A, B) ∈ [((20 : Int), 0x001E, 0x0022), (33, 0x0060, 0x006E), (50, 0x00AD, 0x00C6),
      (100, 0x01CC, 0x01EA), (200, 0x02D9, 0x02F8), (500, 0x048F, 0x04A4)]) :
    ∃ roi clk, sf20c_init env fov_deg b tr
      = (0, tr ++ (Event.reg16_read_bytes 0x0F01 2 :: init_prologue ++
          [Event.reg16_write_bytes 0x5E00 [A / 256, A % 256],
           Event.reg16_write_bytes 0x6100 [B / 256, B % 256],
           Event.reg16_write_bytes 0x7F00 [199],
           Event.reg16_write_bytes 0x8000 [roi],
           Event.reg16_read_bytes 0xDE00 2,
           Event.reg16_write_bytes 0x6C00 clk])) := by
  have hw : sf20c_check_whoami env 0 tr = (0, tr ++ [Event.reg16_read_bytes 0x0F01 2]) := by
    rw [sf20c_check_whoami_eq]; simp [h1, h2]
  have e1 : _reverse_lsb_msb_16 RANGE_CONFIG__TIMEOUT_MACROP_A_HI = 0x5E00 := by decide
  have e2 : _reverse_lsb_msb_16 RANGE_CONFIG__TIMEOUT_MACROP_B_HI = 0x6100 := by decide
  have e3 : _reverse_lsb_msb_16 ROI_CONFIG__USER_ROI_CENTRE_SPAD = 0x7F00 := by decide
  have e4 : _reverse_lsb_msb_16 ROI_CONFIG__USER_ROI_REQUESTED_GLOBAL_XY_SIZE = 0x8000 := by
    decide
  have e5 : _reverse_lsb_msb_16 VL53L1_RESULT__OSC_CALIBRATE_VAL = 0xDE00 := by decide
  have e6 : _reverse_lsb_msb_16 VL53L1_SYSTEM__INTERMEASUREMENT_PERIOD = 0x6C00 := by decide
  simp only [List.mem_cons, List.mem_singleton, Prod.mk.injEq, List.not_mem_nil, or_false] at hb
  unfold sf20c_init
  simp only [hw, ne_eq, not_true_eq_false, if_false, sf20c_init_prologue_eq]
  rcases hb with h | h | h | h | h | h <;> obtain ⟨hb1, hb2, hb3⟩ := h <;> subst hb1 hb2 hb3 <;>
  · simp only [sf20c_write_reg_byte, sf20c_write_reg_word, sf20c_write_reg_int,
      sf20c_read_reg_word, voxl_i2c_reg16_write_bytes, voxl_i2c_reg16_read_bytes,
      e1, e2, e3, e4, e5, e6, List.append_assoc, List.singleton_append, List.cons_append,
      List.nil_append]
    exact ⟨_, _, rfl⟩

theorem init_prologue_length : init_prologue.length = 97 := by decide

theorem init_prologue_all_writes : ∀ e ∈ init_prologue, e.isRegWrite = true := by decide

theorem init_prologue_no_word_A :
    init_prologue.filter (Event.isWriteOf 0x5E00 2) = [] := by decide

theorem init_prologue_no_word_B :
    init_prologue.filter (Event.isWriteOf 0x6100 2) = [] := by decide

/-- C8 (as stated, refuted): with a passing identity check and the unsupported budget 25,
both `init` functions return -1 only after 97 register writes have been issued. -/
theorem C8_counterexample_writes_precede_rejection :
    (vl53l1x_init env_identity_ok 27 25 []).1 = -1 ∧
    ((vl53l1x_init env_identity_ok 27 25 []).2.filter Event.isRegWrite).length = 97 ∧
    (sf20c_init env_identity_ok 27 25 []).1 = -1 ∧
    ((sf20c_init env_identity_ok 27 25 []).2.filter Event.isRegWrite).length = 97 := by
  have hv := vl53l1x_init_rejects env_identity_ok 27 25 [] (by decide) (by decide) (by decide)
  have hs := sf20c_init_rejects env_identity_ok 27 25 [] (by decide) (by decide) (by decide)
  rw [hv, hs]
  decide

/-- C8 (amended): for every timing budget outside {20, 33, 50, 100, 200, 500} and a passing
identity check, both `init` functions return -1 after exactly the identity read followed by
the 97 writes of `init_prologue` (default table and long-distance mode); no timing-budget,
ROI or inter-measurement write is issued. -/
theorem C8_invalid_budget_rejected_after_defaults (env : Env) (fov_deg : ℚ) (b : Int)
    (tr : Trace)
    (hid : (env.reply tr.length).ret = 2 ∧ field16 (env.reply tr.length).data 0 = 0xEACC)
    (hb : b ∉ [20, 33, 50, 100, 200, 500]) :
    vl53l1x_init env fov_deg b tr
      = (-1, tr ++ Event.reg16_read_bytes 0x0F01 2 :: init_prologue) ∧
    sf20c_init env fov_deg b tr
      = (-1, tr ++ Event.reg16_read_bytes 0x0F01 2 :: init_prologue) ∧
    init_prologue.length = 97 ∧ (∀ e ∈ init_prologue, e.isRegWrite = true) :=
  ⟨vl53l1x_init_rejects env fov_deg b tr hid.1 hid.2 hb,
   sf20c_init_rejects env fov_deg b tr hid.1 hid.2 hb,
   init_prologue_length, init_prologue_all_writes⟩

theorem C8_invalid_budget_witness :
    ((env_identity_ok.reply ([] : Trace).length).ret = 2 ∧
      field16 (env_identity_ok.reply ([] : Trace).length).data 0 = 0xEACC) ∧
    (25 : Int) ∉ [20, 33, 50, 100, 200, 500] ∧
    (vl53l1x_init env_identity_ok 27 25 []
      = (-1, [] ++ Event.reg16_read_bytes 0x0F01 2 :: init_prologue) ∧
    sf20c_init env_identity_ok 27 25 []
      = (-1, [] ++ Event.reg16_read_bytes 0x0F01 2 :: init_prologue) ∧
    init_prologue.length = 97 ∧ (∀ e ∈ init_prologue, e.isRegWrite = true)) :=
  ⟨by decide, by decide,
   C8_invalid_budget_rejected_after_defaults env_identity_ok 27 25 [] (by decide) (by decide)⟩

/-- C9: with a passing identity check, for each supported budget `b` with its pair `(A, B)`
both `init` functions return 0 and, among the bus operations they issue, exactly one is a
two-byte write to register `0x005E`, carrying `A` big-endian, and exactly one is a two-byte
write to register `0x0061`, carrying `B` big-endian. -/
theorem C9_timing_budget_registers (env : Env) (fov_deg : ℚ) (b : Int) (A B : Nat)
    (tr : Trace)
    (hid : (env.reply tr.length).ret = 2 ∧ field16 (env.reply tr.length).data 0 = 0xEACC)
    (hb : (b, A, B) ∈ [((20 : Int), 0x001E, 0x0022), (33, 0x0060, 0x006E), (50, 0x00AD, 0x00C6),
      (100, 0x01CC, 0x01EA), (200, 0x02D9, 0x02F8), (500, 0x048F, 0x04A4)]) :
    ((vl53l1x_init env fov_deg b tr).1 = 0 ∧
      ((vl53l1x_init env fov_deg b tr).2.drop tr.length).filter
          (Event.isWriteOf (_reverse_lsb_msb_16 RANGE_CONFIG__TIMEOUT_MACROP_A_HI) 2)
        = [Event.reg16_write_bytes (_reverse_lsb_msb_16 0x005E) [A / 256, A % 256]] ∧
      ((vl53l1x_init env fov_deg b tr).2.drop tr.length).filter
          (Event.isWriteOf (_reverse_lsb_msb_16 RANGE_CONFIG__TIMEOUT_MACROP_B_HI) 2)
        = [Event.reg16_write_bytes (_reverse_lsb_msb_16 0x0061) [B / 256, B % 256]]) ∧
    ((sf20c_init env fov_deg b tr).1 = 0 ∧
      ((sf20c_init env fov_deg b tr).2.drop tr.length).filter
          (Event.isWriteOf (_reverse_lsb_msb_16 RANGE_CONFIG__TIMEOUT_MACROP_A_HI) 2)
        = [Event.reg16_write_bytes (_reverse_lsb_msb_16 0x005E) [A / 256, A % 256]] ∧
      ((sf20c_init env fov_deg b tr).2.drop tr.length).filter
          (Event.isWriteOf (_reverse_lsb_msb_16 RANGE_CONFIG__TIMEOUT_MACROP_B_HI) 2)
        = [Event.reg16_write_bytes (_reverse_lsb_msb_16 0x0061) [B / 256, B % 256]]) := by
  have e1 : _reverse_lsb_msb_16 RANGE_CONFIG__TIMEOUT_MACROP_A_HI = 0x5E00 := by decide
  have e2 : _reverse_lsb_msb_16 RANGE_CONFIG__TIMEOUT_MACROP_B_HI = 0x6100 := by decide
  have e3 : _reverse_lsb_msb_16 0x005E = 0x5E00 := by decide
  have e4 : _reverse_lsb_msb_16 0x0061 = 0x6100 := by decide
  obtain ⟨roi, clk, hv⟩ := vl53l1x_init_accepts env fov_deg b A B tr hid.1 hid.2 hb
  obtain ⟨roi', clk', hs⟩ := sf20c_init_accepts env fov_deg b A B tr hid.1 hid.2 hb
  rw [hv, hs, e1, e2, e3, e4]
  simp only [List.drop_left, List.cons_append, List.filter_cons, List.filter_append,
    init_prologue_no_word_A, init_prologue_no_word_B, List.nil_append, List.filter_nil]
  simp [Event.isWriteOf]

theorem C9_timing_budget_witness :
    ((env_identity_ok.reply ([] : Trace).length).ret = 2 ∧
      field16 (env_identity_ok.reply ([] : Trace).length).data 0 = 0xEACC) ∧
    ((33 : Int), 0x0060, 0x006E) ∈ [((20 : Int), 0x001E, 0x0022), (33, 0x0060, 0x006E),
      (50, 0x00AD, 0x00C6), (100, 0x01CC, 0x01EA), (200, 0x02D9, 0x02F8),
      (500, 0x048F, 0x04A4)] ∧
    (((vl53l1x_init env_identity_ok 27 33 []).1 = 0 ∧
      ((vl53l1x_init env_identity_ok 27 33 []).2.drop ([] : Trace).length).filter
          (Event.isWriteOf (_reverse_lsb_msb_16 RANGE_CONFIG__TIMEOUT_MACROP_A_HI) 2)
        = [Event.reg16_write_bytes (_reverse_lsb_msb_16 0x005E) [0x0060 / 256, 0x0060 % 256]] ∧
      ((vl53l1x_init env_identity_ok 27 33 []).2.drop ([] : Trace).length).filter
          (Event.isWriteOf (_reverse_lsb_msb_16 RANGE_CONFIG__TIMEOUT_MACROP_B_HI) 2)
        = [Event.reg16_write_bytes (_reverse_lsb_msb_16 0x0061) [0x006E / 256, 0x006E % 256]]) ∧
    ((sf20c_init env_identity_ok 27 33 []).1 = 0 ∧
      ((sf20c_init env_identity_ok 27 33 []).2.drop ([] : Trace).length).filter
          (Event.isWriteOf (_reverse_lsb_msb_16 RANGE_CONFIG__TIMEOUT_MACROP_A_HI) 2)
        = [Event.reg16_write_bytes (_reverse_lsb_msb_16 0x005E) [0x0060 / 256, 0x0060 % 256]] ∧
      ((sf20c_init env_identity_ok 27 33 []).2.drop ([] : Trace).length).filter
          (Event.isWriteOf (_reverse_lsb_msb_16 RANGE_CONFIG__TIMEOUT_MACROP_B_HI) 2)
        = [Event.reg16_write_bytes (_reverse_lsb_msb_16 0x0061)
            [0x006E / 256, 0x006E % 256]])) :=
  ⟨by decide, by decide,
   C9_timing_budget_registers env_identity_ok 27 33 0x0060 0x006E [] (by decide) (by decide)⟩

/-! ## The sampling loop on concrete runs -/

set_option maxRecDepth 20000 in
/-- C4: one multiplexed sensor whose data-ready bit never sets.  In the first pass
`vl53l1x_wait_for_data` polls 100 times and fails, no result block is read, and the pass
still ends by writing a batch (with `distance_m = 0` for the sensor) to the pipe, as the last
external call of the run; the loop then stops, having started ranging once. -/
theorem C4_batch_written_in_the_round_of_the_timeout :
    (main_loop env_never_ready (globals_muxed [sensor_on_port 0 27] 0) 3
        (initial_state (globals_muxed [sensor_on_port 0 27] 0)) []).1.main_running = 0 ∧
    ((main_loop env_never_ready (globals_muxed [sensor_on_port 0 27] 0) 3
        (initial_state (globals_muxed [sensor_on_port 0 27] 0)) []).2.count
          (Event.reg16_read_bytes 0x3100 1)) = 100 ∧
    ((main_loop env_never_ready (globals_muxed [sensor_on_port 0 27] 0) 3
        (initial_state (globals_muxed [sensor_on_port 0 27] 0)) []).2.count
          (Event.reg16_read_bytes 0x8800 16)) = 0 ∧
    ((main_loop env_never_ready (globals_muxed [sensor_on_port 0 27] 0) 3
        (initial_state (globals_muxed [sensor_on_port 0 27] 0)) []).2.count
          (Event.reg16_write_bytes 0x8700 [0x40])) = 1 ∧
    ((main_loop env_never_ready (globals_muxed [sensor_on_port 0 27] 0) 3
        (initial_state (globals_muxed [sensor_on_port 0 27] 0)) []).2.getLast?.map
          Event.isPipeWrite) = some true ∧
    batches (main_loop env_never_ready (globals_muxed [sensor_on_port 0 27] 0) 3
        (initial_state (globals_muxed [sensor_on_port 0 27] 0)) []).2
      = [[{ prefill (globals_muxed [sensor_on_port 0 27] 0) (sensor_on_port 0 27) with
              timestamp_ns := -1, sample_id := 1, distance_m := 0 }]] := by
  refine ⟨by decide, by decide, by decide, by decide, by decide, ?_⟩
  with_unfolding_all decide

set_option maxRecDepth 20000 in
/-- C7: one multiplexed sensor configured with `fov_deg = 20.5`.  `vl53l1x_init` selects
20.0 degrees and 8 pads (after the default `0xff`, the ROI byte `0x77` is written to register
`0x0080`), and the record written to the pipe in the first pass carries `fov_deg = 20.5`,
the configured value. -/
theorem C7_output_carries_configured_fov :
    vl53l1x_fov_select (41 / 2) = (20, 8) ∧
    writes_to 0x8000 (main env_one_sensor_run (globals_muxed [sensor_on_port 0 (41 / 2)] 1) 1).2
      = [[0xff], [0x77]] ∧
    batches (main env_one_sensor_run (globals_muxed [sensor_on_port 0 (41 / 2)] 1) 1).2
      = [[{ prefill (globals_muxed [sensor_on_port 0 (41 / 2)] 1) (sensor_on_port 0 (41 / 2)) with
            timestamp_ns := 0, sample_id := 1, distance_m := 1234 / 1000 }]] ∧
    (batches (main env_one_sensor_run (globals_muxed [sensor_on_port 0 (41 / 2)] 1) 1).2).map
        (List.map rangefinder_data_t.fov_deg) = [[41 / 2]] := by
  refine ⟨by with_unfolding_all decide, by with_unfolding_all decide,
    by with_unfolding_all decide, by with_unfolding_all decide⟩

/-! ## Traces only grow -/

theorem set_multiplexer_trace_first (env : Env) (g : Globals) (mux_ch addr : Int) (tr : Trace) :
    tr ++ [Event.set_device_address g.mux_address] <+: (_set_multiplexer env g mux_ch addr tr).2 := by
  unfold _set_multiplexer voxl_i2c_set_device_address voxl_i2c_send_byte
  simp only
  split_ifs
  · exact List.prefix_refl _
  · exact List.prefix_append _ _
  · exact (List.prefix_append _ _).trans (List.prefix_append _ _)
  · exact (List.prefix_append _ _).trans (List.prefix_append _ _)

theorem set_multiplexer_extends (env : Env) (g : Globals) (mux_ch addr : Int) (tr : Trace) :
    tr <+: (_set_multiplexer env g mux_ch addr tr).2 :=
  (List.prefix_append _ _).trans (set_multiplexer_trace_first env g mux_ch addr tr)

/-- The status poll, as it appears on the wire. -/
theorem wait_loop_zero (env : Env) (tr : Trace) : vl53l1x_wait_loop env 0 tr = (-1, tr) := rfl

theorem wait_loop_succ (env : Env) (n : Nat) (tr : Trace) :
    vl53l1x_wait_loop env (n + 1) tr
      = if (env.reply tr.length).ret ≠ 1 then (-1, tr ++ [Event.reg16_read_bytes 0x3100 1])
        else if byteAt (env.reply tr.length).data 0 &&& 1 ≠ 0 then
          (0, tr ++ [Event.reg16_read_bytes 0x3100 1])
        else vl53l1x_wait_loop env n
          (tr ++ [Event.reg16_read_bytes 0x3100 1, Event.usleep 5000]) := by
  have e : _reverse_lsb_msb_16 GPIO__TIO_HV_STATUS = 0x3100 := by decide
  rw [vl53l1x_wait_loop]
  simp only [vl53l1x_check_for_data_ready, vl53l1x_read_reg_byte, voxl_i2c_reg16_read_bytes,
    usleep, e]
  by_cases h1 : (env.reply tr.length).ret = 1
  · by_cases h2 : byteAt (env.reply tr.length).data 0 &&& 1 = 0
    · simp only [h1, h2, ne_eq, not_true_eq_false, if_false, List.append_assoc,
        List.singleton_append]
    · simp only [h1, h2, ne_eq, not_true_eq_false, not_false_eq_true, if_false, if_true]
      rfl
  · simp only [h1, ne_eq, not_false_eq_true, if_true]
    rfl

theorem wait_loop_extends (env : Env) :
    ∀ (n : Nat) (tr : Trace), tr <+: (vl53l1x_wait_loop env n tr).2 := by
  intro n
  induction n with
  | zero => intro tr; exact List.prefix_refl _
  | succ n ih =>
    intro tr
    rw [wait_loop_succ]
    split_ifs
    · exact List.prefix_append _ _
    · exact List.prefix_append _ _
    · exact (List.prefix_append _ _).trans (ih _)

theorem get_distance_trace (env : Env) (tr : Trace) :
    (vl53l1x_get_distance_mm env tr).2 = tr ++ [bulk_read] := rfl

theorem clear_interrupt_trace (env : Env) (tr : Trace) :
    (vl53l1x_clear_interrupt env tr).2 = tr ++ [Event.reg16_write_bytes 0x8600 [0x01]] := rfl

theorem stop_ranging_trace (env : Env) (tr : Trace) :
    (vl53l1x_stop_ranging env tr).2 = tr ++ [Event.reg16_write_bytes 0x8700 [0x00]] := rfl

theorem start_ranging_eq (env : Env) (tr : Trace) :
    vl53l1x_start_ranging env tr
      = ((env.reply tr.length).ret, tr ++ [Event.reg16_write_bytes 0x8700 [0x40]]) := rfl

theorem main_select_extends (env : Env) (g : Globals) (s : rangefinder_config_t) (tr : Trace) :
    tr <+: main_select env g s tr := by
  unfold main_select
  split_ifs
  · exact set_multiplexer_extends _ _ _ _ _
  · exact set_multiplexer_extends _ _ _ _ _
  · exact List.prefix_refl _

theorem main_read_back_cons (env : Env) (g : Globals) (s : rangefinder_config_t)
    (rest : List rangefinder_config_t) (i : Nat) (run : Int) (dm : List Int) (tr : Trace) :
    main_read_back env g (s :: rest) i run dm tr
      = if (vl53l1x_wait_for_data env (main_select env g s tr)).1 ≠ 0 then
          ((0, dm), (vl53l1x_wait_for_data env (main_select env g s tr)).2)
        else
          main_read_back env g rest (i + 1) run
            (dm.set i (vl53l1x_get_distance_mm env
              (vl53l1x_wait_for_data env (main_select env g s tr)).2).1.dist_mm)
            ((vl53l1x_wait_for_data env (main_select env g s tr)).2 ++
              [bulk_read, Event.reg16_write_bytes 0x8600 [0x01],
               Event.reg16_write_bytes 0x8700 [0x00]]) := by
  rw [main_read_back]
  simp only [get_distance_trace, clear_interrupt_trace, stop_ranging_trace, List.append_assoc,
    List.singleton_append, List.cons_append, List.nil_append]

theorem main_read_back_extends (env : Env) (g : Globals) :
    ∀ (l : List rangefinder_config_t) (i : Nat) (run : Int) (dm : List Int) (tr : Trace),
      tr <+: (main_read_back env g l i run dm tr).2 := by
  intro l
  induction l with
  | nil => intro i run dm tr; exact List.prefix_refl _
  | cons s rest ih =>
    intro i run dm tr
    rw [main_read_back_cons]
    have h1 := main_select_extends env g s tr
    have h2 := wait_loop_extends env 100 (main_select env g s tr)
    split_ifs
    · exact h1.trans h2
    · exact ((h1.trans h2).trans (List.prefix_append _ _)).trans (ih _ _ _ _)

theorem main_publish_trace (env : Env) (st : MainState) (r : (Int × List Int) × Trace) :
    (main_publish env st r).2
      = r.2 ++ [Event.clock_gettime, Event.pipe_server_write (main_publish env st r).1.data] := by
  simp [main_publish, pipe_server_write, _apps_time_monotonic_ns]

theorem main_publish_running (env : Env) (st : MainState) (r : (Int × List Int) × Trace) :
    (main_publish env st r).1.main_running = r.1.1 := rfl

/-! ## One round over multiplexed sensors -/

theorem succeeded_at (env : Env) (F T : Trace) (e : Event) (n0 : Nat)
    (hbus : ∀ k (h : k < F.length), n0 ≤ k → (F[k]).succeeded (env.reply k) = true)
    (hp : T ++ [e] <+: F) (hn : n0 ≤ T.length) :
    e.succeeded (env.reply T.length) = true := by
  have hlt : T.length < (T ++ [e]).length := by simp
  have hlt' : T.length < F.length := Nat.lt_of_lt_of_le hlt hp.length_le
  have hget := List.IsPrefix.getElem hp hlt
  have := hbus T.length hlt' hn
  rw [← hget] at this
  simpa using this

theorem set_multiplexer_ok (env : Env) (g : Globals) (mux_ch addr : Int) (F T : Trace)
    (n0 : Nat)
    (hbus : ∀ k (h : k < F.length), n0 ≤ k → (F[k]).succeeded (env.reply k) = true)
    (hp : (_set_multiplexer env g mux_ch addr T).2 <+: F) (hn : n0 ≤ T.length) :
    _set_multiplexer env g mux_ch addr T = (0, T ++ select_events g mux_ch addr) := by
  have h1 : (env.reply T.length).ret = 0 := by
    have := succeeded_at env F T _ n0 hbus
      ((set_multiplexer_trace_first env g mux_ch addr T).trans hp) hn
    simpa [Event.succeeded] using this
  unfold _set_multiplexer voxl_i2c_set_device_address voxl_i2c_send_byte at hp ⊢
  simp only [h1, ne_eq, not_true_eq_false, if_false, List.length_append, List.length_singleton]
    at hp ⊢
  by_cases h2 : (env.reply (T.length + 1)).ret = 0
  · simp only [h2, not_true_eq_false, if_false] at hp ⊢
    by_cases h3 : (env.reply (T.length + 1 + 1)).ret = 0
    · simp only [h3, not_true_eq_false, if_false, select_events, List.append_assoc,
        List.singleton_append, List.cons_append, List.nil_append]
    · exfalso
      simp only [h3, not_false_eq_true, if_true] at hp
      have := succeeded_at env F _ _ n0 hbus hp (by simp; omega)
      simp only [Event.succeeded, List.length_append, List.length_singleton, beq_iff_eq] at this
      exact h3 this
  · exfalso
    simp only [h2, not_false_eq_true, if_true] at hp
    have := succeeded_at env F _ _ n0 hbus hp (by simp; omega)
    simp only [Event.succeeded, List.length_append, List.length_singleton, beq_iff_eq] at this
    exact h2 this

theorem wait_loop_ready (env : Env) :
    ∀ (n : Nat) (T : Trace), (vl53l1x_wait_loop env n T).1 = 0 →
      ∃ p, p < n ∧ (vl53l1x_wait_loop env n T).2 = T ++ wait_events p := by
  intro n
  induction n with
  | zero =>
    intro T h
    rw [wait_loop_zero] at h
    simp at h
  | succ n ih =>
    intro T h
    rw [wait_loop_succ] at h ⊢
    split_ifs at h ⊢ with h1 h2
    · simp at h
    · exact ⟨0, Nat.succ_pos n, rfl⟩
    · obtain ⟨p, hp, he⟩ := ih _ h
      refine ⟨p + 1, Nat.succ_lt_succ hp, ?_⟩
      rw [he]
      simp [wait_events]

theorem main_read_back_ok (env : Env) (g : Globals) (F : Trace) (n0 : Nat)
    (hbus : ∀ k (h : k < F.length), n0 ≤ k → (F[k]).succeeded (env.reply k) = true) :
    ∀ (l : List rangefinder_config_t) (i : Nat) (run : Int) (dm : List Int) (T : Trace),
      (∀ s ∈ l, s.is_on_mux ≠ 0) → n0 ≤ T.length →
      (main_read_back env g l i run dm T).2 <+: F →
      (main_read_back env g l i run dm T).1.1 ≠ 0 →
      ∃ polls : List Nat, polls.length = l.length ∧ (∀ p ∈ polls, p < 100) ∧
        (main_read_back env g l i run dm T).2 = T ++ visits_issued g l polls := by
  intro l
  induction l with
  | nil =>
    intro i run dm T _ _ _ _
    exact ⟨[], rfl, by simp, by simp [main_read_back, visits_issued]⟩
  | cons s rest ih =>
    intro i run dm T hmux hn hp hrun
    rw [main_read_back_cons] at hp hrun ⊢
    have hs : s.is_on_mux ≠ 0 := hmux s (List.mem_cons_self _ _)
    by_cases hw : (vl53l1x_wait_for_data env (main_select env g s T)).1 = 0
    · simp only [hw, ne_eq, not_true_eq_false, if_false] at hp hrun ⊢
      have hsel : main_select env g s T
          = T ++ select_events g s.i2c_mux_port s.i2c_mux_address := by
        have hpre : (_set_multiplexer env g s.i2c_mux_port s.i2c_mux_address T).2 <+: F := by
          have e : main_select env g s T
              = (_set_multiplexer env g s.i2c_mux_port s.i2c_mux_address T).2 := by
            simp [main_select, hs]
          rw [← e]
          exact (((wait_loop_extends env 100 _).trans (List.prefix_append _ _)).trans
            (main_read_back_extends env g _ _ _ _ _)).trans hp
        have := set_multiplexer_ok env g _ _ F T n0 hbus hpre hn
        simp [main_select, hs, this]
      obtain ⟨p, hp100, hwt⟩ := wait_loop_ready env 100 _ hw
      have hwt' : (vl53l1x_wait_for_data env (main_select env g s T)).2
          = main_select env g s T ++ wait_events p := hwt
      obtain ⟨polls, hlen, hlt, htr⟩ := ih (i + 1) run _ _
        (fun x hx => hmux x (List.mem_cons_of_mem _ hx))
        (by rw [hwt', hsel]; simp; omega) hp hrun
      refine ⟨p :: polls, by simp [hlen], ?_, ?_⟩
      · intro q hq
        rcases List.mem_cons.mp hq with rfl | hq
        · exact hp100
        · exact hlt q hq
      · rw [htr, hwt', hsel]
        simp [visits_issued, visit_issued]
    · exfalso
      simp only [hw, ne_eq, not_false_eq_true, if_true, not_true_eq_false] at hrun

theorem main_read_back_length (env : Env) (g : Globals) :
    ∀ (l : List rangefinder_config_t) (i : Nat) (run : Int) (dm : List Int) (T : Trace),
      (main_read_back env g l i run dm T).1.2.length = dm.length := by
  intro l
  induction l with
  | nil => intro i run dm T; rfl
  | cons s rest ih =>
    intro i run dm T
    rw [main_read_back_cons]
    split_ifs
    · rfl
    · rw [ih]; simp

theorem populate_length (data : List rangefinder_data_t) (dm : List Int) (ts id : Int) :
    (populate data dm ts id).length = min data.length dm.length := by
  simp [populate]

theorem populate_mem (ts id : Int) :
    ∀ (data : List rangefinder_data_t) (dm : List Int) (e : rangefinder_data_t),
      e ∈ populate data dm ts id → e.sample_id = id ∧ e.timestamp_ns = ts := by
  intro data
  induction data with
  | nil => intro dm e h; simp [populate] at h
  | cons d ds ih =>
    intro dm e h
    cases dm with
    | nil => simp [populate] at h
    | cons m ms =>
      simp only [populate, List.zipWith_cons_cons, List.mem_cons] at h
      rcases h with rfl | h
      · exact ⟨rfl, rfl⟩
      · exact ih ms e h

/-- The pass over multiplexed sensors only, with a client connected (or debug mode), in
terms of its parts. -/
theorem main_loop_pass_muxed (env : Env) (g : Globals) (st : MainState) (tr : Trace)
    (hnon : g.has_nonmux_sensor = 0) (hcnt : g.n_mux_sensors > 0)
    (hclient : (env.reply tr.length).ret ≠ 0 ∨ g.en_debug ≠ 0) :
    main_loop_pass env g st tr
      = if (env.reply (_set_multiplexer env g MUX_ALL VL53L1X_TOF_DEFAULT_ADDR
            (tr ++ [Event.pipe_server_get_num_clients])).2.length).ret ≠ 0 then
          ({ st with main_running := 0 },
            (_set_multiplexer env g MUX_ALL VL53L1X_TOF_DEFAULT_ADDR
              (tr ++ [Event.pipe_server_get_num_clients])).2 ++
              [Event.reg16_write_bytes 0x8700 [0x40]])
        else
          main_publish env st
            (main_read_back env g g.enabled_sensors 0 st.main_running
              (List.replicate MAX_SENSORS 0)
              ((_set_multiplexer env g MUX_ALL VL53L1X_TOF_DEFAULT_ADDR
                (tr ++ [Event.pipe_server_get_num_clients])).2 ++
                [Event.reg16_write_bytes 0x8700 [0x40],
                 Event.usleep (g.TimingBudgetInMs * 1000)])) := by
  have hc : ¬((env.reply tr.length).ret = 0 ∧ g.en_debug = 0) := by tauto
  unfold main_loop_pass main_start_ranging main_start_nonmux main_start_muxed
  simp only [pipe_server_get_num_clients, hc, if_false, hnon, ne_eq, not_true_eq_false,
    gt_iff_lt, hcnt, if_true, start_ranging_eq, usleep]
  by_cases h : (env.reply (_set_multiplexer env g MUX_ALL VL53L1X_TOF_DEFAULT_ADDR
      (tr ++ [Event.pipe_server_get_num_clients])).2.length).ret = 0
  · simp [h]
  · simp [h]

/-- A pass over `n ≥ 1` multiplexed sensors and no unmultiplexed one, with a client connected
(or debug mode), every bus operation of the pass answered with success and every
`wait_for_data` finding its data, issues exactly `round_issued`: the client check, the select
of all channels, start ranging, the sleep of the timing budget, then for each sensor in
configured order the select of its port (which returns the bus to `i2c_mux_address`), the
polls of `wait_for_data` (fewer than 100 unsuccessful ones), the bulk read, clear interrupt,
stop ranging; then the clock reading and one batch of exactly `n` entries that all carry the
incremented 32-bit counter and one common timestamp. -/
theorem main_loop_pass_round_issued (env : Env) (g : Globals) (st : MainState) (tr : Trace)
    (hn : g.enabled_sensors ≠ [])
    (hmax : g.enabled_sensors.length ≤ MAX_SENSORS)
    (hmux : ∀ s ∈ g.enabled_sensors, s.is_on_mux ≠ 0)
    (hnon : g.has_nonmux_sensor = 0)
    (hcnt : g.n_mux_sensors = g.enabled_sensors.length)
    (hdata : st.data.length = g.enabled_sensors.length)
    (hclient : (env.reply tr.length).ret ≠ 0 ∨ g.en_debug ≠ 0)
    (hbus : ∀ k (h : k < (main_loop_pass env g st tr).2.length), tr.length ≤ k →
        ((main_loop_pass env g st tr).2[k]).succeeded (env.reply k) = true)
    (hready : (main_loop_pass env g st tr).1.main_running ≠ 0) :
    ∃ (polls : List Nat) (batch : List rangefinder_data_t) (timestamp_ns : Int),
      polls.length = g.enabled_sensors.length ∧ (∀ p ∈ polls, p < 100) ∧
      (main_loop_pass env g st tr).2 = tr ++ round_issued g polls batch ∧
      batch.length = g.enabled_sensors.length ∧
      ∀ e ∈ batch,
        e.sample_id = to_int32 (st.sample_id + 1) ∧ e.timestamp_ns = timestamp_ns := by
  have hpos : g.n_mux_sensors > 0 := by
    have : g.enabled_sensors.length > 0 := List.length_pos.mpr hn
    omega
  have hpass := main_loop_pass_muxed env g st tr hnon hpos hclient
  by_cases hstart : (env.reply (_set_multiplexer env g MUX_ALL VL53L1X_TOF_DEFAULT_ADDR
      (tr ++ [Event.pipe_server_get_num_clients])).2.length).ret = 0
  · simp only [hstart, ne_eq, not_true_eq_false, if_false] at hpass
    rw [hpass] at hbus hready ⊢
    rw [main_publish_running] at hready
    rw [main_publish_trace] at hbus ⊢
    have hbl : (main_publish env st
        (main_read_back env g g.enabled_sensors 0 st.main_running
          (List.replicate MAX_SENSORS 0)
          ((_set_multiplexer env g MUX_ALL VL53L1X_TOF_DEFAULT_ADDR
            (tr ++ [Event.pipe_server_get_num_clients])).2 ++
            [Event.reg16_write_bytes 0x8700 [0x40],
             Event.usleep (g.TimingBudgetInMs * 1000)]))).1.data.length
        = g.enabled_sensors.length := by
      simp only [main_publish, populate_length, main_read_back_length, List.length_replicate,
        hdata]
      omega
    have hbm := populate_mem
      ((_apps_time_monotonic_ns env (main_read_back env g g.enabled_sensors 0 st.main_running
          (List.replicate MAX_SENSORS 0)
          ((_set_multiplexer env g MUX_ALL VL53L1X_TOF_DEFAULT_ADDR
            (tr ++ [Event.pipe_server_get_num_clients])).2 ++
            [Event.reg16_write_bytes 0x8700 [0x40],
             Event.usleep (g.TimingBudgetInMs * 1000)])).2).1
        - Int.tdiv ((_apps_time_monotonic_ns env
            (main_read_back env g g.enabled_sensors 0 st.main_running
              (List.replicate MAX_SENSORS 0)
              ((_set_multiplexer env g MUX_ALL VL53L1X_TOF_DEFAULT_ADDR
                (tr ++ [Event.pipe_server_get_num_clients])).2 ++
                [Event.reg16_write_bytes 0x8700 [0x40],
                 Event.usleep (g.TimingBudgetInMs * 1000)])).2).1 - st.last_time_ns) 2)
      (to_int32 (st.sample_id + 1)) st.data
      (main_read_back env g g.enabled_sensors 0 st.main_running
          (List.replicate MAX_SENSORS 0)
          ((_set_multiplexer env g MUX_ALL VL53L1X_TOF_DEFAULT_ADDR
            (tr ++ [Event.pipe_server_get_num_clients])).2 ++
            [Event.reg16_write_bytes 0x8700 [0x40],
             Event.usleep (g.TimingBudgetInMs * 1000)])).1.2
    have hM := set_multiplexer_ok env g MUX_ALL VL53L1X_TOF_DEFAULT_ADDR _
      (tr ++ [Event.pipe_server_get_num_clients]) tr.length hbus
      ((((List.prefix_append _ _).trans (main_read_back_extends env g _ _ _ _ _)).trans
        (List.prefix_append _ _))) (by simp)
    obtain ⟨polls, hlen, hlt, htr⟩ := main_read_back_ok env g _ tr.length hbus
      g.enabled_sensors 0 st.main_running (List.replicate MAX_SENSORS 0) _ hmux
      (by rw [hM]; simp) (List.prefix_append _ _) hready
    refine ⟨polls, _, _, hlen, hlt, ?_, hbl, hbm⟩
    rw [htr, hM]
    simp [round_issued]
  · exfalso
    simp only [hstart, ne_eq, not_false_eq_true, if_true] at hpass
    rw [hpass] at hready
    exact hready rfl

/-! ## Two runs that differ in the answer to one bulk read -/

theorem prefix_getElem? {F X : Trace} (h : X <+: F) {x : Nat} (hx : x < X.length) :
    F[x]? = X[x]? := by
  obtain ⟨l, rfl⟩ := h
  exact List.getElem?_append_left hx

theorem bulk_read_at {F pre : Trace} (h : pre ++ [bulk_read] <+: F) :
    F[pre.length]? = some bulk_read := by
  rw [prefix_getElem? h (by simp)]
  simp

/-- Two environments that differ at most at the position of a bulk read of run `F` agree on
the answer to every other operation of `F`. -/
theorem agree_at (env1 env2 : Env) (F pre T : Trace) (e : Event)
    (hagree : ∀ x, x ≠ pre.length → env1.reply x = env2.reply x)
    (hpre : pre ++ [bulk_read] <+: F) (hT : T ++ [e] <+: F) (he : e ≠ bulk_read) :
    env1.reply T.length = env2.reply T.length := by
  apply hagree
  intro hlen
  have h1 := bulk_read_at hpre
  have h2 : F[T.length]? = some e := by
    rw [prefix_getElem? hT (by simp)]
    simp
  rw [hlen, h1] at h2
  exact he (Option.some.inj h2).symm

/-- A stretch of operations without a bulk read cannot contain the position of one. -/
theorem no_bulk_stretch {F pre T l : Trace} (hpre : pre ++ [bulk_read] <+: F)
    (hT : T ++ l <+: F) (hl : bulk_read ∉ l) (hle : T.length ≤ pre.length) :
    (T ++ l).length ≤ pre.length := by
  by_contra hcon
  have hlt : pre.length < (T ++ l).length := by omega
  have h1 := bulk_read_at hpre
  rw [prefix_getElem? hT hlt, List.getElem?_append_right hle] at h1
  exact hl (List.getElem?_mem h1)

theorem set_multiplexer_events (env : Env) (g : Globals) (mux_ch addr : Int) (T : Trace) :
    ∃ l, (_set_multiplexer env g mux_ch addr T).2 = T ++ l ∧ bulk_read ∉ l := by
  unfold _set_multiplexer voxl_i2c_set_device_address voxl_i2c_send_byte
  simp only
  split_ifs
  · exact ⟨[Event.set_device_address g.mux_address], rfl, by simp [bulk_read]⟩
  · exact ⟨[Event.set_device_address g.mux_address, Event.send_byte (mux_bitmask mux_ch)],
      by simp, by simp [bulk_read]⟩
  · exact ⟨[Event.set_device_address g.mux_address, Event.send_byte (mux_bitmask mux_ch),
      Event.set_device_address (addr % 256)], by simp, by simp [bulk_read]⟩
  · exact ⟨[Event.set_device_address g.mux_address, Event.send_byte (mux_bitmask mux_ch),
      Event.set_device_address (addr % 256)], by simp, by simp [bulk_read]⟩

theorem wait_loop_events (env : Env) :
    ∀ (n : Nat) (T : Trace),
      ∃ l, (vl53l1x_wait_loop env n T).2 = T ++ l ∧ bulk_read ∉ l := by
  intro n
  induction n with
  | zero => intro T; exact ⟨[], by simp [wait_loop_zero], by simp⟩
  | succ n ih =>
    intro T
    rw [wait_loop_succ]
    split_ifs
    · exact ⟨[Event.reg16_read_bytes 0x3100 1], rfl, by simp [bulk_read]⟩
    · exact ⟨[Event.reg16_read_bytes 0x3100 1], rfl, by simp [bulk_read]⟩
    · obtain ⟨l, hl, hn⟩ := ih (T ++ [Event.reg16_read_bytes 0x3100 1, Event.usleep 5000])
      refine ⟨[Event.reg16_read_bytes 0x3100 1, Event.usleep 5000] ++ l, ?_, ?_⟩
      · rw [hl]; simp
      · simp only [List.mem_append, not_or]
        exact ⟨by simp [bulk_read], hn⟩

theorem main_select_events (env : Env) (g : Globals) (s : rangefinder_config_t) (T : Trace) :
    ∃ l, main_select env g s T = T ++ l ∧ bulk_read ∉ l := by
  unfold main_select
  split_ifs
  · exact set_multiplexer_events _ _ _ _ _
  · exact set_multiplexer_events _ _ _ _ _
  · exact ⟨[], by simp, by simp⟩

/-- Selecting and waiting: the events up to the point where the result block is read. -/
theorem select_wait_events (env : Env) (g : Globals) (s : rangefinder_config_t) (T : Trace) :
    ∃ l, (vl53l1x_wait_for_data env (main_select env g s T)).2 = T ++ l ∧ bulk_read ∉ l := by
  obtain ⟨l1, h1, n1⟩ := main_select_events env g s T
  obtain ⟨l2, h2, n2⟩ := wait_loop_events env 100 (main_select env g s T)
  refine ⟨l1 ++ l2, ?_, ?_⟩
  · show (vl53l1x_wait_loop env 100 (main_select env g s T)).2 = _
    rw [h2, h1]; simp
  · simp [n1, n2]

theorem set_multiplexer_lockstep (env1 env2 : Env) (g : Globals) (mux_ch addr : Int)
    (F pre T : Trace)
    (hagree : ∀ x, x ≠ pre.length → env1.reply x = env2.reply x)
    (hpre : pre ++ [bulk_read] <+: F)
    (hp : (_set_multiplexer env1 g mux_ch addr T).2 <+: F) :
    _set_multiplexer env2 g mux_ch addr T = _set_multiplexer env1 g mux_ch addr T := by
  have h1 : env1.reply T.length = env2.reply T.length :=
    agree_at env1 env2 F pre T _ hagree hpre
      ((set_multiplexer_trace_first env1 g mux_ch addr T).trans hp) (by simp [bulk_read])
  unfold _set_multiplexer voxl_i2c_set_device_address voxl_i2c_send_byte at hp ⊢
  simp only [← h1, List.length_append, List.length_singleton] at hp ⊢
  by_cases c1 : (env1.reply T.length).ret = 0
  · simp only [c1, ne_eq, not_true_eq_false, if_false] at hp ⊢
    have h2 : env1.reply (T.length + 1) = env2.reply (T.length + 1) := by
      have hp2 : (T ++ [Event.set_device_address g.mux_address]) ++
          [Event.send_byte (mux_bitmask mux_ch)] <+: F := by
        refine List.IsPrefix.trans ?_ hp
        split_ifs <;> first | exact List.prefix_refl _ | exact List.prefix_append _ _
      simpa using agree_at env1 env2 F pre _ _ hagree hpre hp2 (by simp [bulk_read])
    simp only [← h2]
    by_cases c2 : (env1.reply (T.length + 1)).ret = 0
    · simp only [c2, not_true_eq_false, if_false] at hp ⊢
      have h3 : env1.reply (T.length + 1 + 1) = env2.reply (T.length + 1 + 1) := by
        have hp3 : ((T ++ [Event.set_device_address g.mux_address]) ++
            [Event.send_byte (mux_bitmask mux_ch)]) ++
            [Event.set_device_address (addr % 256)] <+: F := by
          refine List.IsPrefix.trans ?_ hp
          split_ifs <;> exact List.prefix_refl _
        simpa using agree_at env1 env2 F pre _ _ hagree hpre hp3 (by simp [bulk_read])
      simp only [← h3]
    · simp only [c2, not_false_eq_true, if_true]
  · simp only [c1, ne_eq, not_false_eq_true, if_true]

theorem wait_loop_lockstep (env1 env2 : Env) (F pre : Trace)
    (hagree : ∀ x, x ≠ pre.length → env1.reply x = env2.reply x)
    (hpre : pre ++ [bulk_read] <+: F) :
    ∀ (n : Nat) (T : Trace), (vl53l1x_wait_loop env1 n T).2 <+: F →
      vl53l1x_wait_loop env2 n T = vl53l1x_wait_loop env1 n T := by
  intro n
  induction n with
  | zero => intro T _; rfl
  | succ n ih =>
    intro T hp
    have h1 : env1.reply T.length = env2.reply T.length := by
      have hp1 : T ++ [Event.reg16_read_bytes 0x3100 1] <+: F := by
        refine List.IsPrefix.trans ?_ hp
        rw [wait_loop_succ]
        split_ifs
        · exact List.prefix_refl _
        · exact List.prefix_refl _
        · refine List.IsPrefix.trans ?_ (wait_loop_extends env1 n _)
          exact ⟨[Event.usleep 5000], by simp⟩
      exact agree_at env1 env2 F pre T _ hagree hpre hp1 (by simp [bulk_read])
    rw [wait_loop_succ] at hp
    rw [wait_loop_succ, wait_loop_succ, ← h1]
    split_ifs at hp ⊢ with c1 c2
    · rfl
    · rfl
    · exact ih _ hp

theorem main_select_lockstep (env1 env2 : Env) (g : Globals) (s : rangefinder_config_t)
    (F pre T : Trace)
    (hagree : ∀ x, x ≠ pre.length → env1.reply x = env2.reply x)
    (hpre : pre ++ [bulk_read] <+: F)
    (hp : main_select env1 g s T <+: F) :
    main_select env2 g s T = main_select env1 g s T := by
  unfold main_select at hp ⊢
  split_ifs at hp ⊢
  · rw [set_multiplexer_lockstep env1 env2 g _ _ F pre T hagree hpre hp]
  · rw [set_multiplexer_lockstep env1 env2 g _ _ F pre T hagree hpre hp]
  · rfl

theorem get_distance_agree (env1 env2 : Env) (T : Trace)
    (h : env1.reply T.length = env2.reply T.length) :
    vl53l1x_get_distance_mm env2 T = vl53l1x_get_distance_mm env1 T := by
  simp only [vl53l1x_get_distance_mm, vl53l1x_read_reg_bytes, voxl_i2c_reg16_read_bytes, h]

theorem count_bulk_read_visit_tail :
    List.count bulk_read [bulk_read, Event.reg16_write_bytes 0x8600 [0x01],
      Event.reg16_write_bytes 0x8700 [0x00]] = 1 := by decide

/-- The read-back loops of two runs whose environments differ only in the answer to the bulk
read at position `pre.length`, the `j`-th of the pass, stay in step: same trace, same
`main_running`, and `dist_mm` arrays that agree outside index `j`. -/
theorem main_read_back_lockstep (env1 env2 : Env) (g : Globals) (F pre : Trace) (j : Nat)
    (run : Int)
    (hagree : ∀ x, x ≠ pre.length → env1.reply x = env2.reply x)
    (hpre : pre ++ [bulk_read] <+: F) :
    ∀ (l : List rangefinder_config_t) (i : Nat) (dm1 dm2 : List Int) (T : Trace),
      (main_read_back env1 g l i run dm1 T).2 <+: F →
      (T.length ≤ pre.length → T.count bulk_read + j = pre.count bulk_read + i) →
      dm1.length = dm2.length →
      (∀ x, x ≠ j → dm1[x]? = dm2[x]?) →
      (main_read_back env2 g l i run dm2 T).2 = (main_read_back env1 g l i run dm1 T).2 ∧
      (main_read_back env2 g l i run dm2 T).1.1 = (main_read_back env1 g l i run dm1 T).1.1 ∧
      ∀ x, x ≠ j →
        (main_read_back env2 g l i run dm2 T).1.2[x]?
          = (main_read_back env1 g l i run dm1 T).1.2[x]? := by
  intro l
  induction l with
  | nil =>
    intro i dm1 dm2 T _ _ _ hdm
    exact ⟨rfl, rfl, fun x hx => (hdm x hx).symm⟩
  | cons s rest ih =>
    intro i dm1 dm2 T hp hinv hlen hdm
    rw [main_read_back_cons] at hp
    rw [main_read_back_cons, main_read_back_cons]
    obtain ⟨lw, hlw, hnb⟩ := select_wait_events env1 g s T
    have hc : lw.count bulk_read = 0 := List.count_eq_zero.mpr hnb
    have hwF : (vl53l1x_wait_for_data env1 (main_select env1 g s T)).2 <+: F := by
      refine List.IsPrefix.trans ?_ hp
      split_ifs
      · exact List.prefix_refl _
      · exact (List.prefix_append _ _).trans (main_read_back_extends env1 g _ _ _ _ _)
    have hsel : main_select env2 g s T = main_select env1 g s T :=
      main_select_lockstep env1 env2 g s F pre T hagree hpre
        ((wait_loop_extends env1 100 _).trans hwF)
    have hwait : vl53l1x_wait_for_data env2 (main_select env1 g s T)
        = vl53l1x_wait_for_data env1 (main_select env1 g s T) :=
      wait_loop_lockstep env1 env2 F pre hagree hpre 100 _ hwF
    rw [hsel, hwait]
    by_cases hw : (vl53l1x_wait_for_data env1 (main_select env1 g s T)).1 = 0
    · have hw' : ¬ (vl53l1x_wait_for_data env1 (main_select env1 g s T)).1 ≠ 0 :=
        fun h => h hw
      rw [if_neg hw'] at hp
      rw [if_neg hw', if_neg hw']
      apply ih (i + 1) _ _ _ hp
      · intro hle
        rw [hlw] at hle ⊢
        simp only [List.length_append] at hle
        have hinv' := hinv (by omega)
        rw [List.count_append, List.count_append, hc, count_bulk_read_visit_tail]
        omega
      · simp only [List.length_set, hlen]
      · intro x hx
        by_cases hxi : i = x
        · subst hxi
          have hne : (vl53l1x_wait_for_data env1 (main_select env1 g s T)).2.length
              ≠ pre.length := by
            intro heq
            have hpe : (vl53l1x_wait_for_data env1 (main_select env1 g s T)).2 = pre := by
              have h1 : (vl53l1x_wait_for_data env1 (main_select env1 g s T)).2 <+: pre :=
                List.prefix_of_prefix_length_le hwF
                  ((List.prefix_append _ _).trans hpre) (le_of_eq heq)
              exact h1.eq_of_length heq
            have hinv' := hinv (by rw [← heq, hlw]; simp only [List.length_append]; omega)
            rw [← hpe, hlw, List.count_append, hc] at hinv'
            exact hx (by omega)
          have hrep := hagree _ hne
          rw [get_distance_agree env1 env2 _ hrep]
          simp only [List.getElem?_set, hlen, if_true]
        · rw [List.getElem?_set_ne hxi, List.getElem?_set_ne hxi]
          exact hdm x hx
    · have hw' : (vl53l1x_wait_for_data env1 (main_select env1 g s T)).1 ≠ 0 := hw
      rw [if_pos hw', if_pos hw']
      exact ⟨rfl, rfl, fun x hx => (hdm x hx).symm⟩

theorem main_read_back_keeps (env : Env) (g : Globals) (run : Int) :
    ∀ (l : List rangefinder_config_t) (i : Nat) (dm : List Int) (T : Trace) (x : Nat),
      x < i → (main_read_back env g l i run dm T).1.2[x]? = dm[x]? := by
  intro l
  induction l with
  | nil => intro i dm T x _; rfl
  | cons s rest ih =>
    intro i dm T x hx
    rw [main_read_back_cons]
    split_ifs
    · rfl
    · rw [ih (i + 1) _ _ x (by omega)]
      exact List.getElem?_set_ne (by omega)

/-- The sensor whose result block is read at position `pre.length`, the `j`-th bulk read of
the pass, is sensor `j`, and `dist_mm[j]` ends as what the decoder made of that block. -/
theorem main_read_back_entry (env : Env) (g : Globals) (pre : Trace) (j : Nat) (run : Int) :
    ∀ (l : List rangefinder_config_t) (i : Nat) (dm : List Int) (T : Trace),
      pre ++ [bulk_read] <+: (main_read_back env g l i run dm T).2 →
      T.length ≤ pre.length →
      T.count bulk_read + j = pre.count bulk_read + i →
      i + l.length ≤ dm.length →
      i ≤ j ∧ j < i + l.length ∧
      (main_read_back env g l i run dm T).1.2[j]?
        = some (vl53l1x_get_distance_mm env pre).1.dist_mm := by
  intro l
  induction l with
  | nil =>
    intro i dm T hp hle _ _
    exfalso
    have := hp.length_le
    simp only [main_read_back, List.length_append, List.length_singleton] at this
    omega
  | cons s rest ih =>
    intro i dm T hp hle hinv hlen
    rw [main_read_back_cons] at hp ⊢
    obtain ⟨lw, hlw, hnb⟩ := select_wait_events env g s T
    have hc : lw.count bulk_read = 0 := List.count_eq_zero.mpr hnb
    simp only [List.length_cons] at hlen
    by_cases hw : (vl53l1x_wait_for_data env (main_select env g s T)).1 = 0
    · have hw' : ¬ (vl53l1x_wait_for_data env (main_select env g s T)).1 ≠ 0 :=
        fun h => h hw
      rw [if_neg hw'] at hp ⊢
      have hT3 := main_read_back_extends env g rest (i + 1) run
        (dm.set i (vl53l1x_get_distance_mm env
          (vl53l1x_wait_for_data env (main_select env g s T)).2).1.dist_mm)
        ((vl53l1x_wait_for_data env (main_select env g s T)).2 ++
          [bulk_read, Event.reg16_write_bytes 0x8600 [0x01],
            Event.reg16_write_bytes 0x8700 [0x00]])
      have hwle := no_bulk_stretch hp
        (by rw [← hlw]; exact (List.prefix_append _ _).trans hT3) hnb hle
      rw [← hlw] at hwle
      rcases Nat.lt_or_ge (vl53l1x_wait_for_data env (main_select env g s T)).2.length
          pre.length with hlt | hge
      · -- the block of this sensor is read before position `pre.length`
        have hle3 : ((vl53l1x_wait_for_data env (main_select env g s T)).2 ++
            [bulk_read, Event.reg16_write_bytes 0x8600 [0x01],
              Event.reg16_write_bytes 0x8700 [0x00]]).length ≤ pre.length := by
          have h2 : ((vl53l1x_wait_for_data env (main_select env g s T)).2 ++ [bulk_read]) ++
              [Event.reg16_write_bytes 0x8600 [0x01],
                Event.reg16_write_bytes 0x8700 [0x00]] <+:
              (main_read_back env g rest (i + 1) run
                (dm.set i (vl53l1x_get_distance_mm env
                  (vl53l1x_wait_for_data env (main_select env g s T)).2).1.dist_mm)
                ((vl53l1x_wait_for_data env (main_select env g s T)).2 ++
                  [bulk_read, Event.reg16_write_bytes 0x8600 [0x01],
                    Event.reg16_write_bytes 0x8700 [0x00]])).2 := by
            simpa only [List.append_assoc, List.singleton_append] using hT3
          have := no_bulk_stretch hp h2 (by decide)
            (by simp only [List.length_append, List.length_singleton]; omega)
          simpa only [List.append_assoc, List.singleton_append] using this
        obtain ⟨h1, h2, h3⟩ := ih (i + 1) _ _ hp hle3
          (by
            rw [hlw, List.count_append, List.count_append, hc, count_bulk_read_visit_tail]
            omega)
          (by rw [List.length_set]; omega)
        exact ⟨by omega, by simp only [List.length_cons]; omega, h3⟩
      · -- the block of this sensor is the one read at position `pre.length`
        have heq : (vl53l1x_wait_for_data env (main_select env g s T)).2.length = pre.length :=
          Nat.le_antisymm hwle hge
        have hpe : (vl53l1x_wait_for_data env (main_select env g s T)).2 = pre := by
          have h1 : (vl53l1x_wait_for_data env (main_select env g s T)).2 <+: pre :=
            List.prefix_of_prefix_length_le ((List.prefix_append _ _).trans hT3)
              ((List.prefix_append _ _).trans hp) (le_of_eq heq)
          exact h1.eq_of_length heq
        have hij : i = j := by
          rw [← hpe, hlw, List.count_append, hc] at hinv
          omega
        subst hij
        refine ⟨le_refl _, by simp only [List.length_cons]; omega, ?_⟩
        rw [main_read_back_keeps env g run rest (i + 1) _ _ i (by omega), hpe]
        rw [List.getElem?_set_self (by omega)]
    · exfalso
      have hw' : (vl53l1x_wait_for_data env (main_select env g s T)).1 ≠ 0 := hw
      rw [if_pos hw'] at hp
      rw [hlw] at hp
      have h1 := no_bulk_stretch hp (List.prefix_refl _) hnb hle
      have h2 := hp.length_le
      simp only [List.length_append, List.length_singleton] at h1 h2
      omega

theorem main_start_nonmux_events (env : Env) (g : Globals) (T : Trace) :
    ∃ l, (main_start_nonmux env g T).2 = T ++ l ∧ bulk_read ∉ l := by
  unfold main_start_nonmux
  obtain ⟨l1, h1, n1⟩ := set_multiplexer_events env g MUX_NONE VL53L1X_TOF_DEFAULT_ADDR T
  split_ifs
  · refine ⟨l1 ++ [Event.reg16_write_bytes 0x8700 [0x40]], ?_, ?_⟩
    · rw [start_ranging_eq, h1, List.append_assoc]
    · simp only [List.mem_append, not_or]; exact ⟨n1, by decide⟩
  · exact ⟨[Event.reg16_write_bytes 0x8700 [0x40]], rfl, by decide⟩
  · exact ⟨[], by simp, by simp⟩

theorem main_start_muxed_events (env : Env) (g : Globals) (T : Trace) :
    ∃ l, (main_start_muxed env g T).2 = T ++ l ∧ bulk_read ∉ l := by
  unfold main_start_muxed
  obtain ⟨l1, h1, n1⟩ := set_multiplexer_events env g MUX_ALL VL53L1X_TOF_DEFAULT_ADDR T
  split_ifs
  · refine ⟨l1 ++ [Event.reg16_write_bytes 0x8700 [0x40]], ?_, ?_⟩
    · rw [start_ranging_eq, h1, List.append_assoc]
    · simp only [List.mem_append, not_or]; exact ⟨n1, by decide⟩
  · exact ⟨[], by simp, by simp⟩

theorem main_start_ranging_trace (env : Env) (g : Globals) (T : Trace) :
    (main_start_ranging env g T).2
      = if (main_start_nonmux env g T).1 ≠ 0 then (main_start_nonmux env g T).2
        else (main_start_muxed env g (main_start_nonmux env g T).2).2 := by
  unfold main_start_ranging
  simp only
  split_ifs <;> rfl

theorem main_start_ranging_events (env : Env) (g : Globals) (T : Trace) :
    ∃ l, (main_start_ranging env g T).2 = T ++ l ∧ bulk_read ∉ l := by
  rw [main_start_ranging_trace]
  obtain ⟨l1, h1, n1⟩ := main_start_nonmux_events env g T
  obtain ⟨l2, h2, n2⟩ := main_start_muxed_events env g (main_start_nonmux env g T).2
  split_ifs
  · exact ⟨l1, h1, n1⟩
  · refine ⟨l1 ++ l2, ?_, ?_⟩
    · rw [h2, h1, List.append_assoc]
    · simp only [List.mem_append, not_or]; exact ⟨n1, n2⟩

theorem start_ranging_lockstep (env1 env2 : Env) (F pre T : Trace)
    (hagree : ∀ x, x ≠ pre.length → env1.reply x = env2.reply x)
    (hpre : pre ++ [bulk_read] <+: F)
    (hp : (vl53l1x_start_ranging env1 T).2 <+: F) :
    vl53l1x_start_ranging env2 T = vl53l1x_start_ranging env1 T := by
  rw [start_ranging_eq] at hp
  rw [start_ranging_eq, start_ranging_eq,
    agree_at env1 env2 F pre T _ hagree hpre hp (by decide)]

theorem main_start_nonmux_lockstep (env1 env2 : Env) (g : Globals) (F pre T : Trace)
    (hagree : ∀ x, x ≠ pre.length → env1.reply x = env2.reply x)
    (hpre : pre ++ [bulk_read] <+: F)
    (hp : (main_start_nonmux env1 g T).2 <+: F) :
    main_start_nonmux env2 g T = main_start_nonmux env1 g T := by
  unfold main_start_nonmux at hp ⊢
  split_ifs at hp ⊢
  · have hs := set_multiplexer_lockstep env1 env2 g MUX_NONE VL53L1X_TOF_DEFAULT_ADDR F pre T
      hagree hpre (by
        rw [start_ranging_eq] at hp
        exact (List.prefix_append _ _).trans hp)
    rw [hs]
    exact start_ranging_lockstep env1 env2 F pre _ hagree hpre hp
  · exact start_ranging_lockstep env1 env2 F pre _ hagree hpre hp
  · rfl

theorem main_start_muxed_lockstep (env1 env2 : Env) (g : Globals) (F pre T : Trace)
    (hagree : ∀ x, x ≠ pre.length → env1.reply x = env2.reply x)
    (hpre : pre ++ [bulk_read] <+: F)
    (hp : (main_start_muxed env1 g T).2 <+: F) :
    main_start_muxed env2 g T = main_start_muxed env1 g T := by
  unfold main_start_muxed at hp ⊢
  split_ifs at hp ⊢
  · have hs := set_multiplexer_lockstep env1 env2 g MUX_ALL VL53L1X_TOF_DEFAULT_ADDR F pre T
      hagree hpre (by
        rw [start_ranging_eq] at hp
        exact (List.prefix_append _ _).trans hp)
    rw [hs]
    exact start_ranging_lockstep env1 env2 F pre _ hagree hpre hp
  · rfl

theorem main_start_ranging_lockstep (env1 env2 : Env) (g : Globals) (F pre T : Trace)
    (hagree : ∀ x, x ≠ pre.length → env1.reply x = env2.reply x)
    (hpre : pre ++ [bulk_read] <+: F)
    (hp : (main_start_ranging env1 g T).2 <+: F) :
    main_start_ranging env2 g T = main_start_ranging env1 g T := by
  rw [main_start_ranging_trace] at hp
  obtain ⟨l2, h2, -⟩ := main_start_muxed_events env1 g (main_start_nonmux env1 g T).2
  have hn : main_start_nonmux env2 g T = main_start_nonmux env1 g T := by
    apply main_start_nonmux_lockstep env1 env2 g F pre T hagree hpre
    split_ifs at hp
    · exact hp
    · rw [h2] at hp
      exact (List.prefix_append _ _).trans hp
  unfold main_start_ranging
  simp only [hn]
  by_cases c1 : (main_start_nonmux env1 g T).1 = 0
  · have c1' : ¬ (main_start_nonmux env1 g T).1 ≠ 0 := fun h => h c1
    rw [if_neg c1'] at hp
    rw [if_neg c1', if_neg c1',
      main_start_muxed_lockstep env1 env2 g F pre _ hagree hpre hp]
  · have c1' : (main_start_nonmux env1 g T).1 ≠ 0 := c1
    rw [if_pos c1', if_pos c1']

theorem main_loop_pass_eq (env : Env) (g : Globals) (st : MainState) (tr : Trace) :
    main_loop_pass env g st tr
      = if (env.reply tr.length).ret = 0 ∧ g.en_debug = 0 then
          (st, tr ++ [Event.pipe_server_get_num_clients, Event.usleep 500000])
        else if (main_start_ranging env g (tr ++ [Event.pipe_server_get_num_clients])).1 ≠ 0
        then
          ({ st with main_running := 0 },
            (main_start_ranging env g (tr ++ [Event.pipe_server_get_num_clients])).2)
        else
          main_publish env st
            (main_read_back env g g.enabled_sensors 0 st.main_running
              (List.replicate MAX_SENSORS 0)
              ((main_start_ranging env g (tr ++ [Event.pipe_server_get_num_clients])).2 ++
                [Event.usleep (g.TimingBudgetInMs * 1000)])) := by
  unfold main_loop_pass
  simp only [pipe_server_get_num_clients, usleep, List.append_assoc, List.singleton_append]

theorem populate_getElem?_some (data : List rangefinder_data_t) (dm : List Int) (ts id : Int)
    (x : Nat) (d : rangefinder_data_t) (m : Int) (hd : data[x]? = some d)
    (hm : dm[x]? = some m) :
    (populate data dm ts id)[x]?
      = some { d with timestamp_ns := ts, sample_id := id, distance_m := (m : ℚ) / 1000 } := by
  unfold populate
  rw [List.getElem?_zipWith, hd, hm]

theorem populate_getElem?_congr (data : List rangefinder_data_t) (dm1 dm2 : List Int)
    (ts id : Int) (x : Nat) (h : dm1[x]? = dm2[x]?) :
    (populate data dm1 ts id)[x]? = (populate data dm2 ts id)[x]? := by
  unfold populate
  rw [List.getElem?_zipWith, List.getElem?_zipWith, h]

theorem vl53l1x_status_of_raw_3 (all_data : List Nat) (h : status_raw all_data = 3) :
    vl53l1x_status all_data = 5 := by
  unfold vl53l1x_status
  rw [h]
  decide

theorem get_distance_status_5 (env : Env) (T : Trace)
    (hfull : (env.reply T.length).ret = 16)
    (h5 : status_raw (env.reply T.length).data = 3) :
    (vl53l1x_get_distance_mm env T).1.dist_mm = -1 := by
  have hs := vl53l1x_status_of_raw_3 _ h5
  simp [vl53l1x_get_distance_mm, vl53l1x_read_reg_bytes, voxl_i2c_reg16_read_bytes, n_bytes,
    hfull, hs]

theorem apps_time_agree (env1 env2 : Env) (T : Trace)
    (h : env1.reply T.length = env2.reply T.length) :
    _apps_time_monotonic_ns env2 T = _apps_time_monotonic_ns env1 T := by
  simp only [_apps_time_monotonic_ns, h]

theorem main_publish_data (env : Env) (st : MainState) (r : (Int × List Int) × Trace) :
    (main_publish env st r).1.data
      = populate st.data r.1.2
          ((_apps_time_monotonic_ns env r.2).1
            - Int.tdiv ((_apps_time_monotonic_ns env r.2).1 - st.last_time_ns) 2)
          (to_int32 (st.sample_id + 1)) := rfl

/-- The read-back loop and the publication of two runs that differ only in the answer to the
bulk read at position `pre.length`, the `j`-th of the pass. -/
theorem read_back_publish_lockstep (env1 env2 : Env) (g : Globals) (st : MainState)
    (T pre : Trace) (j : Nat)
    (hmax : g.enabled_sensors.length ≤ MAX_SENSORS)
    (hdata : st.data.length = g.enabled_sensors.length)
    (hagree : ∀ x, x ≠ pre.length → env1.reply x = env2.reply x)
    (hpre : pre ++ [bulk_read] <+: (main_publish env1 st
      (main_read_back env1 g g.enabled_sensors 0 st.main_running
        (List.replicate MAX_SENSORS 0) T)).2)
    (hTle : T.length ≤ pre.length)
    (hinv : T.count bulk_read + j = pre.count bulk_read + 0)
    (hfull : (env2.reply pre.length).ret = 16)
    (h5 : status_raw (env2.reply pre.length).data = 3) :
    (main_read_back env2 g g.enabled_sensors 0 st.main_running
        (List.replicate MAX_SENSORS 0) T).2
      = (main_read_back env1 g g.enabled_sensors 0 st.main_running
        (List.replicate MAX_SENSORS 0) T).2 ∧
    j < g.enabled_sensors.length ∧
    (∃ e, (main_publish env2 st (main_read_back env2 g g.enabled_sensors 0 st.main_running
        (List.replicate MAX_SENSORS 0) T)).1.data[j]? = some e ∧
      e.distance_m = -1 / 1000 ∧ e.distance_m < 0) ∧
    ∀ x, x ≠ j →
      (main_publish env2 st (main_read_back env2 g g.enabled_sensors 0 st.main_running
        (List.replicate MAX_SENSORS 0) T)).1.data[x]?
      = (main_publish env1 st (main_read_back env1 g g.enabled_sensors 0 st.main_running
        (List.replicate MAX_SENSORS 0) T)).1.data[x]? := by
  rw [main_publish_trace] at hpre
  have hRF : (main_read_back env1 g g.enabled_sensors 0 st.main_running
      (List.replicate MAX_SENSORS 0) T).2 <+:
      (main_read_back env1 g g.enabled_sensors 0 st.main_running
        (List.replicate MAX_SENSORS 0) T).2 ++
      [Event.clock_gettime, Event.pipe_server_write (main_publish env1 st
        (main_read_back env1 g g.enabled_sensors 0 st.main_running
          (List.replicate MAX_SENSORS 0) T)).1.data] := List.prefix_append _ _
  obtain ⟨hR2, -, hdist⟩ := main_read_back_lockstep env1 env2 g _ pre j
    st.main_running hagree hpre g.enabled_sensors 0 (List.replicate MAX_SENSORS 0)
    (List.replicate MAX_SENSORS 0) T hRF (fun _ => hinv) rfl (fun _ _ => rfl)
  have hclock := agree_at env1 env2 _ pre
    (main_read_back env1 g g.enabled_sensors 0 st.main_running
      (List.replicate MAX_SENSORS 0) T).2 Event.clock_gettime hagree hpre
    ⟨[Event.pipe_server_write (main_publish env1 st
        (main_read_back env1 g g.enabled_sensors 0 st.main_running
          (List.replicate MAX_SENSORS 0) T)).1.data], by simp⟩ (by decide)
  have htime := apps_time_agree env1 env2 _ hclock
  have hpreR : pre ++ [bulk_read] <+: (main_read_back env1 g g.enabled_sensors 0
      st.main_running (List.replicate MAX_SENSORS 0) T).2 := by
    apply List.prefix_of_prefix_length_le hpre hRF
    by_contra hcon
    have h1 := no_bulk_stretch hpre (List.prefix_refl _) (by simp [bulk_read])
      (by simp only [List.length_append, List.length_singleton] at hcon; omega)
    have h2 := hpre.length_le
    simp only [List.length_append, List.length_singleton] at h1 h2
    omega
  obtain ⟨-, hjn, hentry⟩ := main_read_back_entry env2 g pre j
    st.main_running g.enabled_sensors 0 (List.replicate MAX_SENSORS 0) T
    (by rw [hR2]; exact hpreR) hTle hinv
    (by simp only [List.length_replicate]; omega)
  rw [get_distance_status_5 env2 _ hfull h5] at hentry
  simp only [Nat.zero_add] at hjn
  refine ⟨hR2, hjn, ?_, ?_⟩
  · have hd : j < st.data.length := by omega
    rw [main_publish_data,
      populate_getElem?_some _ _ _ _ _ _ _ (List.getElem?_eq_getElem hd) hentry]
    refine ⟨_, rfl, ?_, ?_⟩ <;> norm_num
  · intro x hx
    rw [main_publish_data, main_publish_data, hR2, htime]
    exact populate_getElem?_congr _ _ _ _ _ _ (hdist x hx)

theorem dropLast_two (R : Trace) (c w : Event) : (R ++ [c, w]).dropLast = R ++ [c] := by
  have h : R ++ [c, w] = (R ++ [c]) ++ [w] := by simp
  rw [h, List.dropLast_concat]

/-- C5: take any pass of the sampling loop in which a result block is read at position
`tr.length + A.length`, as the bulk read number `A.count bulk_read` of the pass (counting
from 0).  In a second run whose environment differs only in the answer to that bulk read, and
answers it with a full block of raw status 3 (normalized status 5, hardware failure), the
pass issues the same operations and writes a batch in which the entry of that sensor carries
the negative no-reading value `-1/1000` and every other entry is the same as in the first
run. -/
theorem C5_status_5_affects_only_its_own_entry (env1 env2 : Env) (g : Globals)
    (st : MainState) (tr A B : Trace)
    (hmax : g.enabled_sensors.length ≤ MAX_SENSORS)
    (hdata : st.data.length = g.enabled_sensors.length)
    (hF : (main_loop_pass env1 g st tr).2 = tr ++ A ++ bulk_read :: B)
    (hagree : ∀ x, x ≠ tr.length + A.length → env1.reply x = env2.reply x)
    (hfull : (env2.reply (tr.length + A.length)).ret = 16)
    (h5 : status_raw (env2.reply (tr.length + A.length)).data = 3) :
    vl53l1x_status (env2.reply (tr.length + A.length)).data = 5 ∧
    (main_loop_pass env2 g st tr).2.dropLast = (main_loop_pass env1 g st tr).2.dropLast ∧
    (main_loop_pass env1 g st tr).2.getLast?
      = some (Event.pipe_server_write (main_loop_pass env1 g st tr).1.data) ∧
    (main_loop_pass env2 g st tr).2.getLast?
      = some (Event.pipe_server_write (main_loop_pass env2 g st tr).1.data) ∧
    A.count bulk_read < g.enabled_sensors.length ∧
    (∃ e, (main_loop_pass env2 g st tr).1.data[A.count bulk_read]? = some e ∧
      e.distance_m = -1 / 1000 ∧ e.distance_m < 0) ∧
    ∀ x, x ≠ A.count bulk_read →
      (main_loop_pass env2 g st tr).1.data[x]? = (main_loop_pass env1 g st tr).1.data[x]? := by
  have hplen : (tr ++ A).length = tr.length + A.length := List.length_append _ _
  have hpre : (tr ++ A) ++ [bulk_read] <+: (main_loop_pass env1 g st tr).2 := by
    rw [hF]; exact ⟨B, by simp⟩
  have hagree' : ∀ x, x ≠ (tr ++ A).length → env1.reply x = env2.reply x := by
    rw [hplen]; exact hagree
  have hpl := hpre.length_le
  obtain ⟨ls, hls, hlsn⟩ := main_start_ranging_events env1 g
    (tr ++ [Event.pipe_server_get_num_clients])
  rw [main_loop_pass_eq env1] at hpre hpl ⊢
  rw [main_loop_pass_eq env2]
  -- the first run reaches the read-back loop
  by_cases c0 : (env1.reply tr.length).ret = 0 ∧ g.en_debug = 0
  · exfalso
    rw [if_pos c0] at hpre hpl
    have := no_bulk_stretch hpre (List.prefix_refl _) (by decide)
      (by rw [hplen]; omega)
    simp only [List.length_append, List.length_singleton] at this hpl
    omega
  rw [if_neg c0] at hpre hpl ⊢
  by_cases c1 : (main_start_ranging env1 g (tr ++ [Event.pipe_server_get_num_clients])).1 = 0
  swap
  · exfalso
    have c1' : (main_start_ranging env1 g (tr ++ [Event.pipe_server_get_num_clients])).1 ≠ 0 :=
      c1
    rw [if_pos c1'] at hpre hpl
    have hnb : bulk_read ∉ [Event.pipe_server_get_num_clients] ++ ls := by
      simp only [List.mem_append, not_or]; exact ⟨by decide, hlsn⟩
    have := no_bulk_stretch hpre
      (by simp only [hls, List.append_assoc]; exact List.prefix_refl _) hnb
      (by rw [hplen]; omega)
    simp only [hls, List.length_append, List.length_singleton] at this hpl
    omega
  have c1' : ¬ (main_start_ranging env1 g (tr ++ [Event.pipe_server_get_num_clients])).1 ≠ 0 :=
    fun h => h c1
  rw [if_neg c1'] at hpre hpl ⊢
  -- the parts of the first run are prefixes of its trace
  have hT2F : (main_start_ranging env1 g (tr ++ [Event.pipe_server_get_num_clients])).2 ++
      [Event.usleep (g.TimingBudgetInMs * 1000)] <+:
      (main_publish env1 st (main_read_back env1 g g.enabled_sensors 0 st.main_running
        (List.replicate MAX_SENSORS 0)
        ((main_start_ranging env1 g (tr ++ [Event.pipe_server_get_num_clients])).2 ++
          [Event.usleep (g.TimingBudgetInMs * 1000)]))).2 := by
    rw [main_publish_trace]
    exact (main_read_back_extends env1 g _ _ _ _ _).trans (List.prefix_append _ _)
  have hSF := (List.prefix_append _ _).trans hT2F
  have hT0F := (show tr ++ [Event.pipe_server_get_num_clients] <+:
      (main_start_ranging env1 g (tr ++ [Event.pipe_server_get_num_clients])).2 from by
        rw [hls]; exact List.prefix_append _ _).trans hSF
  -- the second run takes the same steps
  have hrep0 := agree_at env1 env2 _ _ tr _ hagree' hpre hT0F (by decide)
  have hS := main_start_ranging_lockstep env1 env2 g _ _ _ hagree' hpre hSF
  have c0' : ¬ ((env2.reply tr.length).ret = 0 ∧ g.en_debug = 0) := by rw [← hrep0]; exact c0
  rw [if_neg c0', hS, if_neg c1']
  have hT2 : (main_start_ranging env1 g (tr ++ [Event.pipe_server_get_num_clients])).2 ++
      [Event.usleep (g.TimingBudgetInMs * 1000)]
      = tr ++ ([Event.pipe_server_get_num_clients] ++ ls ++
          [Event.usleep (g.TimingBudgetInMs * 1000)]) := by
    rw [hls]; simp only [List.append_assoc]
  have hT2nb : bulk_read ∉ [Event.pipe_server_get_num_clients] ++ ls ++
      [Event.usleep (g.TimingBudgetInMs * 1000)] := by
    simp only [List.mem_append, not_or]; exact ⟨⟨by decide, hlsn⟩, by simp [bulk_read]⟩
  have hT2le : ((main_start_ranging env1 g (tr ++ [Event.pipe_server_get_num_clients])).2 ++
      [Event.usleep (g.TimingBudgetInMs * 1000)]).length ≤ (tr ++ A).length := by
    rw [hT2]
    exact no_bulk_stretch hpre (by rw [← hT2]; exact hT2F) hT2nb (by rw [hplen]; omega)
  have hinv : ((main_start_ranging env1 g (tr ++ [Event.pipe_server_get_num_clients])).2 ++
      [Event.usleep (g.TimingBudgetInMs * 1000)]).count bulk_read + A.count bulk_read
      = (tr ++ A).count bulk_read + 0 := by
    have e1 : (tr ++ ([Event.pipe_server_get_num_clients] ++ ls ++
        [Event.usleep (g.TimingBudgetInMs * 1000)])).count bulk_read
        = tr.count bulk_read := by
      rw [List.count_append, List.count_eq_zero.mpr hT2nb]; rfl
    have e2 : (tr ++ A).count bulk_read = tr.count bulk_read + A.count bulk_read :=
      List.count_append _ _ _
    rw [hT2, e1, e2]
    omega
  obtain ⟨hR2, hjn, hentry, hothers⟩ := read_back_publish_lockstep env1 env2 g st _ (tr ++ A)
    (A.count bulk_read) hmax hdata hagree' hpre hT2le hinv (by rw [hplen]; exact hfull)
    (by rw [hplen]; exact h5)
  refine ⟨vl53l1x_status_of_raw_3 _ h5, ?_, ?_, ?_, hjn, hentry, hothers⟩
  · rw [main_publish_trace, main_publish_trace, hR2, dropLast_two, dropLast_two]
  · rw [main_publish_trace]; simp
  · rw [main_publish_trace]; simp

theorem split_at_event (F : Trace) (k : Nat) (e : Event) (h : F[k]? = some e) :
    F = [] ++ F.take k ++ e :: F.drop (k + 1) := by
  obtain ⟨hk, he⟩ := List.getElem?_eq_some.mp h
  rw [List.nil_append, ← he, ← List.drop_eq_getElem_cons hk, List.take_append_drop]

theorem withReply_agree (env : Env) (k : Nat) (r : Reply) (x : Nat) (hx : x ≠ k) :
    env.reply x = (env.withReply k r).reply x := by
  simp [Env.withReply, hx]

theorem C5_status_5_witness :
    ((main_loop_pass env_four_sensors (globals_muxed four_sensors 0)
        (initial_state (globals_muxed four_sensors 0)) []).2.take 19).count bulk_read = 1 ∧
    (globals_muxed four_sensors 0).enabled_sensors.length ≤ MAX_SENSORS ∧
    (initial_state (globals_muxed four_sensors 0)).data.length
      = (globals_muxed four_sensors 0).enabled_sensors.length ∧
    (main_loop_pass env_four_sensors (globals_muxed four_sensors 0)
        (initial_state (globals_muxed four_sensors 0)) []).2
      = [] ++ (main_loop_pass env_four_sensors (globals_muxed four_sensors 0)
          (initial_state (globals_muxed four_sensors 0)) []).2.take 19
        ++ bulk_read :: (main_loop_pass env_four_sensors (globals_muxed four_sensors 0)
          (initial_state (globals_muxed four_sensors 0)) []).2.drop 20 ∧
    (∀ x, x ≠ ([] : Trace).length + ((main_loop_pass env_four_sensors
          (globals_muxed four_sensors 0)
          (initial_state (globals_muxed four_sensors 0)) []).2.take 19).length →
      env_four_sensors.reply x
        = (env_four_sensors.withReply 19 ⟨16, resultBlock 3 16 40 1100⟩).reply x) ∧
    ((env_four_sensors.withReply 19 ⟨16, resultBlock 3 16 40 1100⟩).reply
        (([] : Trace).length + ((main_loop_pass env_four_sensors
          (globals_muxed four_sensors 0)
          (initial_state (globals_muxed four_sensors 0)) []).2.take 19).length)).ret = 16 ∧
    status_raw ((env_four_sensors.withReply 19 ⟨16, resultBlock 3 16 40 1100⟩).reply
        (([] : Trace).length + ((main_loop_pass env_four_sensors
          (globals_muxed four_sensors 0)
          (initial_state (globals_muxed four_sensors 0)) []).2.take 19).length)).data = 3 ∧
    (vl53l1x_status ((env_four_sensors.withReply 19 ⟨16, resultBlock 3 16 40 1100⟩).reply
        (([] : Trace).length + ((main_loop_pass env_four_sensors
          (globals_muxed four_sensors 0)
          (initial_state (globals_muxed four_sensors 0)) []).2.take 19).length)).data = 5 ∧
    (main_loop_pass (env_four_sensors.withReply 19 ⟨16, resultBlock 3 16 40 1100⟩)
        (globals_muxed four_sensors 0)
        (initial_state (globals_muxed four_sensors 0)) []).2.dropLast
      = (main_loop_pass env_four_sensors (globals_muxed four_sensors 0)
        (initial_state (globals_muxed four_sensors 0)) []).2.dropLast ∧
    (main_loop_pass env_four_sensors (globals_muxed four_sensors 0)
        (initial_state (globals_muxed four_sensors 0)) []).2.getLast?
      = some (Event.pipe_server_write (main_loop_pass env_four_sensors
          (globals_muxed four_sensors 0)
          (initial_state (globals_muxed four_sensors 0)) []).1.data) ∧
    (main_loop_pass (env_four_sensors.withReply 19 ⟨16, resultBlock 3 16 40 1100⟩)
        (globals_muxed four_sensors 0)
        (initial_state (globals_muxed four_sensors 0)) []).2.getLast?
      = some (Event.pipe_server_write (main_loop_pass
          (env_four_sensors.withReply 19 ⟨16, resultBlock 3 16 40 1100⟩)
          (globals_muxed four_sensors 0)
          (initial_state (globals_muxed four_sensors 0)) []).1.data) ∧
    ((main_loop_pass env_four_sensors (globals_muxed four_sensors 0)
          (initial_state (globals_muxed four_sensors 0)) []).2.take 19).count bulk_read
      < (globals_muxed four_sensors 0).enabled_sensors.length ∧
    (∃ e, (main_loop_pass (env_four_sensors.withReply 19 ⟨16, resultBlock 3 16 40 1100⟩)
        (globals_muxed four_sensors 0)
        (initial_state (globals_muxed four_sensors 0)) []).1.data[
          ((main_loop_pass env_four_sensors (globals_muxed four_sensors 0)
            (initial_state (globals_muxed four_sensors 0)) []).2.take 19).count bulk_read]?
        = some e ∧
      e.distance_m = -1 / 1000 ∧ e.distance_m < 0) ∧
    ∀ x, x ≠ ((main_loop_pass env_four_sensors (globals_muxed four_sensors 0)
          (initial_state (globals_muxed four_sensors 0)) []).2.take 19).count bulk_read →
      (main_loop_pass (env_four_sensors.withReply 19 ⟨16, resultBlock 3 16 40 1100⟩)
        (globals_muxed four_sensors 0)
        (initial_state (globals_muxed four_sensors 0)) []).1.data[x]?
      = (main_loop_pass env_four_sensors (globals_muxed four_sensors 0)
        (initial_state (globals_muxed four_sensors 0)) []).1.data[x]?) :=
  ⟨by decide, by decide, by decide, split_at_event _ 19 bulk_read (by decide),
   fun x hx => withReply_agree _ 19 _ x (by
     have hl : ([] : Trace).length + ((main_loop_pass env_four_sensors
         (globals_muxed four_sensors 0)
         (initial_state (globals_muxed four_sensors 0)) []).2.take 19).length = 19 := by decide
     rw [hl] at hx; exact hx),
   by decide, by decide,
   C5_status_5_affects_only_its_own_entry env_four_sensors
     (env_four_sensors.withReply 19 ⟨16, resultBlock 3 16 40 1100⟩)
     (globals_muxed four_sensors 0) (initial_state (globals_muxed four_sensors 0)) []
     ((main_loop_pass env_four_sensors (globals_muxed four_sensors 0)
        (initial_state (globals_muxed four_sensors 0)) []).2.take 19)
     ((main_loop_pass env_four_sensors (globals_muxed four_sensors 0)
        (initial_state (globals_muxed four_sensors 0)) []).2.drop 20)
     (by decide) (by decide) (split_at_event _ 19 bulk_read (by decide))
     (fun x hx => withReply_agree _ 19 _ x (by
       have hl : ([] : Trace).length + ((main_loop_pass env_four_sensors
           (globals_muxed four_sensors 0)
           (initial_state (globals_muxed four_sensors 0)) []).2.take 19).length = 19 := by
         decide
       rw [hl] at hx; exact hx))
     (by decide) (by decide)⟩

/-! ## Transport errors during configuration -/

theorem vl53l1x_write_reg_int_trace (env : Env) (reg d : Nat) (tr : Trace) :
    (vl53l1x_write_reg_int env reg d tr).2
      = tr ++ [Event.reg16_write_bytes (_reverse_lsb_msb_16 reg)
          [((d % 4294967296) >>> 24) &&& 0xFF, ((d % 4294967296) >>> 16) &&& 0xFF,
           ((d % 4294967296) >>> 8) &&& 0xFF, ((d % 4294967296) >>> 0) &&& 0xFF]] := rfl

theorem vl53l1x_read_reg_word_trace (env : Env) (reg d : Nat) (tr : Trace) :
    (vl53l1x_read_reg_word env reg d tr).2
      = tr ++ [Event.reg16_read_bytes (_reverse_lsb_msb_16 reg) 2] := rfl

/-- The value `vl53l1x_read_reg_word` leaves depends on the environment only through the
answer to the read. -/
theorem vl53l1x_read_reg_word_agree (env1 env2 : Env) (reg d : Nat) (tr : Trace)
    (h : env2.reply tr.length = env1.reply tr.length) :
    (vl53l1x_read_reg_word env2 reg d tr).1 = (vl53l1x_read_reg_word env1 reg d tr).1 := by
  simp only [vl53l1x_read_reg_word, voxl_i2c_reg16_read_bytes, h]

/-- `vl53l1x_init` depends on the environment only through the answers to its two reads. -/
theorem vl53l1x_init_agree (env1 env2 : Env) (fov_deg : ℚ) (b : Int) (tr : Trace)
    (hid : env2.reply tr.length = env1.reply tr.length)
    (hosc : env2.reply (tr.length + 102) = env1.reply (tr.length + 102))
    (hind : env2.indeterminate = env1.indeterminate) :
    vl53l1x_init env2 fov_deg b tr = vl53l1x_init env1 fov_deg b tr := by
  have hw : vl53l1x_check_whoami env2 0 tr = vl53l1x_check_whoami env1 0 tr := by
    rw [vl53l1x_check_whoami_eq, vl53l1x_check_whoami_eq, hid]
  have hw2 : (vl53l1x_check_whoami env1 0 tr).2 = tr ++ [Event.reg16_read_bytes 0x0F01 2] := by
    rw [vl53l1x_check_whoami_eq]
  have hl : ∀ t, load_defaults_loop env2 256 0x2D t = load_defaults_loop env1 256 0x2D t := by
    intro t
    rw [load_defaults_loop_eq env2 256 0x2D t (by decide) (by decide),
      load_defaults_loop_eq env1 256 0x2D t (by decide) (by decide)]
  unfold vl53l1x_init
  simp only [hw, hw2, hl, vl53l1x_write_reg_byte_trace,
    vl53l1x_write_reg_word_trace, vl53l1x_write_reg_int_trace, vl53l1x_read_reg_word_trace, hind]
  by_cases hz : (vl53l1x_check_whoami env1 0 tr).1 ≠ 0
  · rw [if_pos hz, if_pos hz]
  · rw [if_neg hz, if_neg hz]
    generalize (if b = 20 then some (0x001E, 0x0022)
      else if b = 33 then some (0x0060, 0x006E)
      else if b = 50 then some (0x00AD, 0x00C6)
      else if b = 100 then some (0x01CC, 0x01EA)
      else if b = 200 then some (0x02D9, 0x02F8)
      else if b = 500 then some (0x048F, 0x04A4)
      else (none : Option (Nat × Nat))) = bud
    cases bud with
    | none => rfl
    | some p =>
      obtain ⟨A, B⟩ := p
      simp only
      rw [vl53l1x_read_reg_word_agree env1 env2 _ _ _ ?_]
      simp only [List.length_append, List.length_singleton,
        load_defaults_loop_eq env1 256 0x2D _ (by decide) (by decide), List.length_map,
        List.length_range']
      exact hosc

theorem supported_budget_row (b : Int) (hb : b ∈ [(20 : Int), 33, 50, 100, 200, 500]) :
    ∃ A B, (b, A, B) ∈ [((20 : Int), 0x001E, 0x0022), (33, 0x0060, 0x006E),
      (50, 0x00AD, 0x00C6), (100, 0x01CC, 0x01EA), (200, 0x02D9, 0x02F8),
      (500, 0x048F, 0x04A4)] := by
  simp only [List.mem_cons, List.mem_singleton, List.not_mem_nil, or_false] at hb
  rcases hb with rfl | rfl | rfl | rfl | rfl | rfl
  · exact ⟨0x001E, 0x0022, by simp⟩
  · exact ⟨0x0060, 0x006E, by simp⟩
  · exact ⟨0x00AD, 0x00C6, by simp⟩
  · exact ⟨0x01CC, 0x01EA, by simp⟩
  · exact ⟨0x02D9, 0x02F8, by simp⟩
  · exact ⟨0x048F, 0x04A4, by simp⟩

/-- With a passing identity check and a supported budget `vl53l1x_init` returns 0 after 102
register writes, whatever the transport answers to them. -/
theorem vl53l1x_init_all_writes (env : Env) (fov_deg : ℚ) (b : Int) (tr : Trace)
    (h1 : (env.reply tr.length).ret = 2)
    (h2 : field16 (env.reply tr.length).data 0 = 0xEACC)
    (hb : b ∈ [(20 : Int), 33, 50, 100, 200, 500]) :
    (vl53l1x_init env fov_deg b tr).1 = 0 ∧
    (((vl53l1x_init env fov_deg b tr).2.drop tr.length).filter Event.isRegWrite).length
      = 102 := by
  obtain ⟨A, B, hr⟩ := supported_budget_row b hb
  obtain ⟨roi, clk, h⟩ := vl53l1x_init_accepts env fov_deg b A B tr h1 h2 hr
  rw [h]
  refine ⟨rfl, ?_⟩
  simp only [List.drop_left, List.cons_append, List.filter_cons, List.filter_append,
    List.filter_eq_self.mpr init_prologue_all_writes, Event.isRegWrite, List.filter_nil,
    List.length_append, List.length_cons, List.length_nil]
  simp [init_prologue_length]

/-- C11 (as stated, refuted): the transport answers every register write of `vl53l1x_init`
with an error; the first default-table write (call 1, register `0x2D`) already fails, and
`init` still issues all 102 register writes and returns 0. -/
theorem C11_counterexample_failed_writes_ignored :
    (vl53l1x_init env_writes_fail 27 33 []).2[1]? = some (Event.reg16_write_bytes 0x2D00 [0x00]) ∧
    (env_writes_fail.reply 1).ret = -1 ∧
    (vl53l1x_init env_writes_fail 27 33 []).1 = 0 ∧
    ((vl53l1x_init env_writes_fail 27 33 []).2.filter Event.isRegWrite).length = 102 := by
  have h := vl53l1x_init_all_writes env_writes_fail 27 33 [] (by decide) (by decide) (by decide)
  obtain ⟨roi, clk, he⟩ := vl53l1x_init_accepts env_writes_fail 27 33 0x0060 0x006E []
    (by decide) (by decide) (by decide)
  refine ⟨?_, by decide, h.1, h.2⟩
  rw [he]
  rfl

/-- C11 (amended): `vl53l1x_init` does not look at the result of its register writes.  Two
environments that give the same answers to its two reads (the identity register, call 0 of
`init`, and the oscillator calibration register, call 102) lead to the same return value and
the same bus operations, whatever they answer to the writes; with a passing identity check
and a supported budget that return value is 0 and all 102 register writes are issued. -/
theorem C11_write_errors_are_not_propagated (env1 env2 : Env) (fov_deg : ℚ) (b : Int)
    (tr : Trace)
    (hid : env2.reply tr.length = env1.reply tr.length)
    (hosc : env2.reply (tr.length + 102) = env1.reply (tr.length + 102))
    (hind : env2.indeterminate = env1.indeterminate) :
    vl53l1x_init env2 fov_deg b tr = vl53l1x_init env1 fov_deg b tr ∧
    ((env1.reply tr.length).ret = 2 → field16 (env1.reply tr.length).data 0 = 0xEACC →
      b ∈ [(20 : Int), 33, 50, 100, 200, 500] →
      (vl53l1x_init env2 fov_deg b tr).1 = 0 ∧
      (((vl53l1x_init env2 fov_deg b tr).2.drop tr.length).filter Event.isRegWrite).length
        = 102) := by
  have he := vl53l1x_init_agree env1 env2 fov_deg b tr hid hosc hind
  refine ⟨he, fun h1 h2 hb => ?_⟩
  rw [he]
  exact vl53l1x_init_all_writes env1 fov_deg b tr h1 h2 hb

theorem C11_write_errors_witness :
    env_writes_fail.reply ([] : Trace).length = env_writes_succeed.reply ([] : Trace).length ∧
    env_writes_fail.reply (([] : Trace).length + 102)
      = env_writes_succeed.reply (([] : Trace).length + 102) ∧
    env_writes_fail.indeterminate = env_writes_succeed.indeterminate ∧
    (env_writes_fail.reply 1).ret = -1 ∧
    vl53l1x_init env_writes_fail 27 33 [] = vl53l1x_init env_writes_succeed 27 33 [] :=
  ⟨by decide, by decide, by decide, by decide,
   (C11_write_errors_are_not_propagated env_writes_succeed env_writes_fail 27 33 []
     (by decide) (by decide) (by decide)).1⟩

/-! ## The status table -/

/-- C12: the raw status code is below 32; for a code below 24 the normalized status is the
entry of the 24-entry table at that index (the index is inside the table) and for a code of 24
or more it is 255; the table is the same in both drivers; every code 0..31 occurs. -/
theorem C12_status_normalization (all_data : List Nat) :
    status_raw all_data < 32 ∧
    vl53l1x_status_rtn.length = 24 ∧
    sf20c_status_rtn = vl53l1x_status_rtn ∧
    (status_raw all_data < 24 →
      [255, 255, 255, 5, 2, 4, 1, 7, 3, 0, 255, 255, 9, 13, 255, 255, 255, 255, 10, 6, 255, 255,
        11, 12][status_raw all_data]? = some (vl53l1x_status all_data) ∧
      vl53l1x_status_rtn[status_raw all_data]? = some (vl53l1x_status all_data) ∧
      sf20c_status_rtn[status_raw all_data]? = some (sf20c_status all_data)) ∧
    (24 ≤ status_raw all_data → vl53l1x_status all_data = 255 ∧ sf20c_status all_data = 255) ∧
    (∀ r, r < 32 → status_raw (resultBlock r 0 0 0) = r) := by
  refine ⟨?_, rfl, rfl, ?_, ?_, by decide⟩
  · have : status_raw all_data ≤ 0x1F := Nat.and_le_right
    omega
  · intro h
    unfold vl53l1x_status sf20c_status
    rw [if_pos h, if_pos h]
    generalize status_raw all_data = r at h
    interval_cases r <;> exact ⟨rfl, rfl, rfl⟩
  · intro h
    have h' : ¬ status_raw all_data < 24 := by omega
    unfold vl53l1x_status sf20c_status
    rw [if_neg h', if_neg h']
    exact ⟨rfl, rfl⟩

/-! ## The field-of-view selection -/

theorem fov_select_values (x : ℚ) :
    vl53l1x_fov_select x = (27, 16) ∨ vl53l1x_fov_select x = (25.25, 14) ∨
    vl53l1x_fov_select x = (23.5, 12) ∨ vl53l1x_fov_select x = (21.75, 10) ∨
    vl53l1x_fov_select x = (20, 8) ∨ vl53l1x_fov_select x = (17.5, 6) ∨
    vl53l1x_fov_select x = (15, 4) := by
  unfold vl53l1x_fov_select
  split_ifs <;> norm_num

/-- The selected field of view together with the interval of requested values it serves. -/
theorem fov_select_cases (x : ℚ) :
    ((vl53l1x_fov_select x).1 = 27 ∧ 26.125 ≤ x) ∨
    ((vl53l1x_fov_select x).1 = 25.25 ∧ 24.375 ≤ x ∧ x < 26.125) ∨
    ((vl53l1x_fov_select x).1 = 23.5 ∧ 22.625 ≤ x ∧ x < 24.375) ∨
    ((vl53l1x_fov_select x).1 = 21.75 ∧ 20.875 ≤ x ∧ x < 22.625) ∨
    ((vl53l1x_fov_select x).1 = 20 ∧ 18.75 ≤ x ∧ x < 20.875) ∨
    ((vl53l1x_fov_select x).1 = 17.5 ∧ 16.25 ≤ x ∧ x < 18.75) ∨
    ((vl53l1x_fov_select x).1 = 15 ∧ x < 16.25) := by
  unfold vl53l1x_fov_select
  split_ifs with h1 h2 h3 h4 h5 h6
  · exact Or.inl ⟨by norm_num, h1⟩
  · exact Or.inr (Or.inl ⟨rfl, h2, not_le.mp h1⟩)
  · exact Or.inr (Or.inr (Or.inl ⟨rfl, h3, not_le.mp h2⟩))
  · exact Or.inr (Or.inr (Or.inr (Or.inl ⟨rfl, h4, not_le.mp h3⟩)))
  · exact Or.inr (Or.inr (Or.inr (Or.inr (Or.inl ⟨by norm_num, h5, not_le.mp h4⟩))))
  · exact Or.inr (Or.inr (Or.inr (Or.inr (Or.inr (Or.inl ⟨rfl, h6, not_le.mp h5⟩)))))
  · exact Or.inr (Or.inr (Or.inr (Or.inr (Or.inr (Or.inr ⟨by norm_num, not_le.mp h6⟩)))))

/-- A value `q` at or above `s` is at least as close to `x` as `s` is when `x` is at or above
their midpoint. -/
theorem nearest_from_below (q s x : ℚ) (h1 : s ≤ q) (h2 : q + s ≤ 2 * x) :
    |q - x| ≤ |s - x| ∧ (|s - x| = |q - x| → s ≤ q) := by
  refine ⟨?_, fun _ => h1⟩
  rcases abs_cases (q - x) with ⟨e1, c1⟩ | ⟨e1, c1⟩ <;>
    rcases abs_cases (s - x) with ⟨e2, c2⟩ | ⟨e2, c2⟩ <;> rw [e1, e2] <;> linarith

/-- A value `q` below `s` is closer to `x` than `s` is when `x` is below their
midpoint. -/
theorem nearest_from_above (q s x : ℚ) (h1 : q < s) (h2 : 2 * x < q + s) :
    |q - x| ≤ |s - x| ∧ (|s - x| = |q - x| → s ≤ q) := by
  have hlt : |q - x| < |s - x| := by
    rcases abs_cases (q - x) with ⟨e1, c1⟩ | ⟨e1, c1⟩ <;>
      rcases abs_cases (s - x) with ⟨e2, c2⟩ | ⟨e2, c2⟩ <;> rw [e1, e2] <;> linarith
  exact ⟨le_of_lt hlt, fun he => absurd he (ne_of_gt hlt)⟩

theorem sf20c_fov_select_eq (x : ℚ) : sf20c_fov_select x = vl53l1x_fov_select x := rfl

/-- C13: the selection of `init` returns one of seven pairs, chosen by the first breakpoint
that the requested value reaches (26.125, 24.375, 22.625, 20.875, 18.75, 16.25, else the last
pair), and in the six breakpoint cases the returned value is at least that breakpoint; the two
drivers select alike. -/
theorem C13_fov_quantization (x : ℚ) :
    sf20c_fov_select x = vl53l1x_fov_select x ∧
    vl53l1x_fov_select x ∈
      [((27 : ℚ), 16), (25.25, 14), (23.5, 12), (21.75, 10), (20.0, 8), (17.5, 6), (15.0, 4)] ∧
    (26.125 ≤ x → vl53l1x_fov_select x = (27, 16) ∧ 26.125 ≤ (vl53l1x_fov_select x).1) ∧
    (24.375 ≤ x → x < 26.125 →
      vl53l1x_fov_select x = (25.25, 14) ∧ 24.375 ≤ (vl53l1x_fov_select x).1) ∧
    (22.625 ≤ x → x < 24.375 →
      vl53l1x_fov_select x = (23.5, 12) ∧ 22.625 ≤ (vl53l1x_fov_select x).1) ∧
    (20.875 ≤ x → x < 22.625 →
      vl53l1x_fov_select x = (21.75, 10) ∧ 20.875 ≤ (vl53l1x_fov_select x).1) ∧
    (18.75 ≤ x → x < 20.875 →
      vl53l1x_fov_select x = (20, 8) ∧ 18.75 ≤ (vl53l1x_fov_select x).1) ∧
    (16.25 ≤ x → x < 18.75 →
      vl53l1x_fov_select x = (17.5, 6) ∧ 16.25 ≤ (vl53l1x_fov_select x).1) ∧
    (x < 16.25 → vl53l1x_fov_select x = (15, 4)) := by
  refine ⟨rfl, ?_, ?_, ?_, ?_, ?_, ?_, ?_, ?_⟩
  · unfold vl53l1x_fov_select
    split_ifs <;> norm_num
  · intro h1
    have e : vl53l1x_fov_select x = (27, 16) := by
      unfold vl53l1x_fov_select
      rw [if_pos h1]; norm_num
    rw [e]; exact ⟨rfl, by norm_num⟩
  · intro h1 h2
    have e : vl53l1x_fov_select x = (25.25, 14) := by
      unfold vl53l1x_fov_select
      rw [if_neg (not_le.mpr h2), if_pos h1]
    rw [e]; exact ⟨rfl, by norm_num⟩
  · intro h1 h2
    have e : vl53l1x_fov_select x = (23.5, 12) := by
      unfold vl53l1x_fov_select
      rw [if_neg (by linarith), if_neg (not_le.mpr h2), if_pos h1]
    rw [e]; exact ⟨rfl, by norm_num⟩
  · intro h1 h2
    have e : vl53l1x_fov_select x = (21.75, 10) := by
      unfold vl53l1x_fov_select
      rw [if_neg (by linarith), if_neg (by linarith), if_neg (not_le.mpr h2), if_pos h1]
    rw [e]; exact ⟨rfl, by norm_num⟩
  · intro h1 h2
    have e : vl53l1x_fov_select x = (20, 8) := by
      unfold vl53l1x_fov_select
      rw [if_neg (by linarith), if_neg (by linarith), if_neg (by linarith),
        if_neg (not_le.mpr h2), if_pos h1]; norm_num
    rw [e]; exact ⟨rfl, by norm_num⟩
  · intro h1 h2
    have e : vl53l1x_fov_select x = (17.5, 6) := by
      unfold vl53l1x_fov_select
      rw [if_neg (by linarith), if_neg (by linarith), if_neg (by linarith), if_neg (by linarith),
        if_neg (not_le.mpr h2), if_pos h1]
    rw [e]; exact ⟨rfl, by norm_num⟩
  · intro h2
    unfold vl53l1x_fov_select
    rw [if_neg (by linarith), if_neg (by linarith), if_neg (by linarith), if_neg (by linarith),
      if_neg (by linarith), if_neg (not_le.mpr h2)]; norm_num

/-- C14: the selected field of view is a nearest supported value: no supported value is
closer to the requested one, and a supported value just as close is not larger. -/
theorem C14_fov_snaps_to_nearest (x s : ℚ)
    (hs : s ∈ [(15 : ℚ), 17.5, 20, 21.75, 23.5, 25.25, 27]) :
    |(vl53l1x_fov_select x).1 - x| ≤ |s - x| ∧
    (|s - x| = |(vl53l1x_fov_select x).1 - x| → s ≤ (vl53l1x_fov_select x).1) ∧
    |(sf20c_fov_select x).1 - x| ≤ |s - x| ∧
    (|s - x| = |(sf20c_fov_select x).1 - x| → s ≤ (sf20c_fov_select x).1) := by
  rw [sf20c_fov_select_eq]
  have key : |(vl53l1x_fov_select x).1 - x| ≤ |s - x| ∧
      (|s - x| = |(vl53l1x_fov_select x).1 - x| → s ≤ (vl53l1x_fov_select x).1) := by
    simp only [List.mem_cons, List.mem_singleton, List.not_mem_nil, or_false] at hs
    rcases fov_select_cases x with ⟨hq, hx1⟩ | ⟨hq, hx1, hx2⟩ | ⟨hq, hx1, hx2⟩ |
        ⟨hq, hx1, hx2⟩ | ⟨hq, hx1, hx2⟩ | ⟨hq, hx1, hx2⟩ | ⟨hq, hx2⟩ <;>
      rw [hq] <;>
      rcases hs with hs | hs | hs | hs | hs | hs | hs <;>
      rw [hs] <;>
      first
        | exact ⟨le_refl _, fun _ => le_refl _⟩
        | exact nearest_from_below _ _ x (by norm_num) (by linarith)
        | exact nearest_from_above _ _ x (by norm_num) (by linarith)
  exact ⟨key.1, key.2, key.1, key.2⟩

theorem C14_fov_snaps_witness :
    (21.75 : ℚ) ∈ [(15 : ℚ), 17.5, 20, 21.75, 23.5, 25.25, 27] ∧
    (|(vl53l1x_fov_select 20.5).1 - 20.5| ≤ |(21.75 : ℚ) - 20.5| ∧
    (|(21.75 : ℚ) - 20.5| = |(vl53l1x_fov_select 20.5).1 - 20.5| →
      (21.75 : ℚ) ≤ (vl53l1x_fov_select 20.5).1) ∧
    |(sf20c_fov_select 20.5).1 - 20.5| ≤ |(21.75 : ℚ) - 20.5| ∧
    (|(21.75 : ℚ) - 20.5| = |(sf20c_fov_select 20.5).1 - 20.5| →
      (21.75 : ℚ) ≤ (sf20c_fov_select 20.5).1)) :=
  ⟨by simp, C14_fov_snaps_to_nearest 20.5 21.75 (by simp)⟩

/-- C15: selecting again from the selected field of view returns the same field of view and
the same pad count, in both drivers. -/
theorem C15_fov_quantization_idempotent (x : ℚ) :
    vl53l1x_fov_select (vl53l1x_fov_select x).1 = vl53l1x_fov_select x ∧
    sf20c_fov_select (sf20c_fov_select x).1 = sf20c_fov_select x := by
  have key : vl53l1x_fov_select (vl53l1x_fov_select x).1 = vl53l1x_fov_select x := by
    have h := fov_select_values x
    rcases h with h | h | h | h | h | h | h <;> rw [h] <;> norm_num [vl53l1x_fov_select]
  exact ⟨key, key⟩

/-! ## The sigma register -/

theorem sigma_mm_eq (all_data : List Nat) :
    sigma_mm all_data = sigma_register all_data / 4 := by
  have h := field16_eq all_data 10
  unfold sigma_mm sigma_register
  have e : VL53L1_RESULT__SIGMA_SD0 - base = 10 := by decide
  rw [e, h]

/-- C16: when the block is read in full and passes the tests of the decoder (status 0 or 2,
signal at least 2, and for the sf20c a range of at most 8000), the reported `sd` is the
big-endian 16-bit value of bytes 10 and 11 divided by 4, the two low bits dropped: with `raw`
that value, `sd = raw / 4 = raw >>> 2`, `4 * sd ≤ raw < 4 * sd + 4` and `0 ≤ sd ≤ 16383`, in
both drivers. -/
theorem C16_sigma_is_register_div_4 (env : Env) (tr : Trace)
    (hfull : (env.reply tr.length).ret = 16)
    (hstatus : vl53l1x_status (env.reply tr.length).data = 0 ∨
      vl53l1x_status (env.reply tr.length).data = 2)
    (hsignal : 2 ≤ signal (env.reply tr.length).data) :
    ((vl53l1x_get_distance_mm env tr).1.sd
        = (sigma_register (env.reply tr.length).data / 4 : Nat) ∧
      (vl53l1x_get_distance_mm env tr).1.sd
        = (sigma_register (env.reply tr.length).data >>> 2 : Nat) ∧
      4 * (vl53l1x_get_distance_mm env tr).1.sd ≤ sigma_register (env.reply tr.length).data ∧
      (sigma_register (env.reply tr.length).data : Int)
        < 4 * (vl53l1x_get_distance_mm env tr).1.sd + 4 ∧
      0 ≤ (vl53l1x_get_distance_mm env tr).1.sd ∧
      (vl53l1x_get_distance_mm env tr).1.sd ≤ 16383) ∧
    (dist_mm_raw (env.reply tr.length).data ≤ 8000 →
      (sf20c_get_distance_mm env tr).1.sd
        = (sigma_register (env.reply tr.length).data / 4 : Nat) ∧
      (sf20c_get_distance_mm env tr).1.sd
        = (sigma_register (env.reply tr.length).data >>> 2 : Nat) ∧
      4 * (sf20c_get_distance_mm env tr).1.sd ≤ sigma_register (env.reply tr.length).data ∧
      (sigma_register (env.reply tr.length).data : Int)
        < 4 * (sf20c_get_distance_mm env tr).1.sd + 4 ∧
      0 ≤ (sf20c_get_distance_mm env tr).1.sd ∧
      (sf20c_get_distance_mm env tr).1.sd ≤ 16383) := by
  have hs : sf20c_status (env.reply tr.length).data
      = vl53l1x_status (env.reply tr.length).data := rfl
  have h2 : ¬ signal (env.reply tr.length).data < VL53L1X_LOWEST_ACCEPTABLE_SIGNAL := by
    unfold VL53L1X_LOWEST_ACCEPTABLE_SIGNAL; omega
  have hv : (vl53l1x_get_distance_mm env tr).1.sd = (sigma_mm (env.reply tr.length).data : Int) := by
    have h1 : ¬ (vl53l1x_status (env.reply tr.length).data ≠ 0 ∧
        vl53l1x_status (env.reply tr.length).data ≠ 2) := by tauto
    simp only [vl53l1x_get_distance_mm, vl53l1x_read_reg_bytes, voxl_i2c_reg16_read_bytes,
      n_bytes, hfull, Nat.cast_ofNat, ne_eq, not_true_eq_false, if_false, h1, h2]
  have hb1 := byteAt_lt (env.reply tr.length).data 10
  have hb2 := byteAt_lt (env.reply tr.length).data 11
  have hr : sigma_register (env.reply tr.length).data < 65536 := by
    unfold sigma_register; omega
  refine ⟨?_, ?_⟩
  · rw [hv, sigma_mm_eq, Nat.shiftRight_eq_div_pow]
    refine ⟨rfl, rfl, ?_, ?_, ?_, ?_⟩ <;> omega
  · intro hd
    have h1 : ¬ (sf20c_status (env.reply tr.length).data ≠ 0 ∧
        sf20c_status (env.reply tr.length).data ≠ 2) := by rw [hs]; tauto
    have h3 : ¬ dist_mm_raw (env.reply tr.length).data > 8000 := by omega
    have hf : (sf20c_get_distance_mm env tr).1.sd
        = (sigma_mm (env.reply tr.length).data : Int) := by
      simp only [sf20c_get_distance_mm, sf20c_read_reg_bytes, voxl_i2c_reg16_read_bytes,
        n_bytes, hfull, Nat.cast_ofNat, ne_eq, not_true_eq_false, if_false, h1, h2, h3]
    rw [hf, sigma_mm_eq, Nat.shiftRight_eq_div_pow]
    refine ⟨rfl, rfl, ?_, ?_, ?_, ?_⟩ <;> omega

theorem C16_sigma_witness :
    (env_sigma_43.reply ([] : Trace).length).ret = 16 ∧
    (vl53l1x_status (env_sigma_43.reply ([] : Trace).length).data = 0 ∨
      vl53l1x_status (env_sigma_43.reply ([] : Trace).length).data = 2) ∧
    2 ≤ signal (env_sigma_43.reply ([] : Trace).length).data ∧
    sigma_register (env_sigma_43.reply ([] : Trace).length).data = 43 ∧
    (vl53l1x_get_distance_mm env_sigma_43 []).1.sd
      = (sigma_register (env_sigma_43.reply ([] : Trace).length).data / 4 : Nat) ∧
    (vl53l1x_get_distance_mm env_sigma_43 []).1.sd = 10 :=
  ⟨by decide, by decide, by decide, by decide,
   (C16_sigma_is_register_div_4 env_sigma_43 [] (by decide) (by decide) (by decide)).1.1,
   by decide⟩

/-! ## The channel bitmask -/

/-- C17: the byte `_set_multiplexer` sends is `1 << p`, the single bit `p`, for a port `p` in
0..7, `0xFF` for `MUX_ALL` and every channel above 7, `0x00` for `MUX_NONE` and every channel
below 0; it is below 256; it is sent after the multiplexer has been addressed, and no other
byte is sent. -/
theorem C17_mux_bitmask (env : Env) (g : Globals) (mux_ch addr : Int) (tr : Trace) :
    (0 ≤ mux_ch → mux_ch ≤ 7 →
      mux_bitmask mux_ch = 1 <<< mux_ch.toNat ∧
      ∀ k, (mux_bitmask mux_ch).testBit k = decide (k = mux_ch.toNat)) ∧
    (7 < mux_ch → mux_bitmask mux_ch = 0xFF) ∧
    (mux_ch < 0 → mux_bitmask mux_ch = 0x00) ∧
    mux_bitmask MUX_ALL = 0xFF ∧
    mux_bitmask MUX_NONE = 0x00 ∧
    mux_bitmask mux_ch < 256 ∧
    ((env.reply tr.length).ret = 0 →
      (_set_multiplexer env g mux_ch addr tr).2[tr.length + 1]?
        = some (Event.send_byte (mux_bitmask mux_ch))) ∧
    (∀ b, Event.send_byte b ∈ (_set_multiplexer env g mux_ch addr tr).2.drop tr.length →
      b = mux_bitmask mux_ch) := by
  refine ⟨?_, ?_, ?_, by decide, by decide, ?_, ?_, ?_⟩
  · intro h0 h7
    have h1 : ¬ mux_ch > 7 := by omega
    have h2 : ¬ mux_ch < 0 := by omega
    have h3 : mux_ch.toNat ≤ 7 := by omega
    have e : mux_bitmask mux_ch = 1 <<< mux_ch.toNat := by
      unfold mux_bitmask
      rw [if_neg h1, if_neg h2]
      generalize mux_ch.toNat = p at h3
      interval_cases p <;> rfl
    refine ⟨e, ?_⟩
    intro k
    rw [e, Nat.one_shiftLeft, Nat.testBit_two_pow]
    by_cases hk : k = mux_ch.toNat
    · simp [hk]
    · have hk' : ¬ mux_ch.toNat = k := fun h => hk h.symm
      simp [hk, hk']
  · intro h
    unfold mux_bitmask
    rw [if_pos h]
  · intro h
    have h1 : ¬ mux_ch > 7 := by omega
    unfold mux_bitmask
    rw [if_neg h1, if_pos h]
  · unfold mux_bitmask
    split_ifs
    · decide
    · decide
    · exact Nat.mod_lt _ (by decide)
  · intro h
    have hex : ∃ rest, (_set_multiplexer env g mux_ch addr tr).2
        = tr ++ (Event.set_device_address g.mux_address ::
            Event.send_byte (mux_bitmask mux_ch) :: rest) := by
      unfold _set_multiplexer voxl_i2c_set_device_address voxl_i2c_send_byte
      simp only [h, ne_eq, not_true_eq_false, if_false]
      split_ifs
      · exact ⟨[Event.set_device_address (addr % 256)], by simp⟩
      · exact ⟨[Event.set_device_address (addr % 256)], by simp⟩
      · exact ⟨[], by simp⟩
    obtain ⟨rest, he⟩ := hex
    rw [he, List.getElem?_append_right (by omega)]
    simp
  · intro b hb
    unfold _set_multiplexer voxl_i2c_set_device_address voxl_i2c_send_byte at hb
    simp only at hb
    split_ifs at hb <;> simp at hb <;> exact hb

/-! ## Waiting for data -/

theorem sf20c_wait_loop_eq (env : Env) :
    ∀ (n : Nat) (tr : Trace), sf20c_wait_loop env n tr = vl53l1x_wait_loop env n tr := by
  intro n
  induction n with
  | zero => intro tr; rfl
  | succ n ih =>
    intro tr
    rw [sf20c_wait_loop, vl53l1x_wait_loop, ih]
    rfl

/-- The loop finds the data at poll `k` when that poll reads the bit set and the polls before
it read it clear. -/
theorem wait_loop_found (env : Env) :
    ∀ (n : Nat) (tr : Trace) (k : Nat), k < n →
      (env.reply (tr.length + 2 * k)).pollReady = true →
      (∀ j, j < k → (env.reply (tr.length + 2 * j)).pollClear = true) →
      vl53l1x_wait_loop env n tr = (0, tr ++ wait_events k) := by
  intro n
  induction n with
  | zero => intro tr k hk; omega
  | succ n ih =>
    intro tr k hk hr hc
    rw [wait_loop_succ]
    cases k with
    | zero =>
      simp only [Reply.pollReady, Nat.mul_zero, Nat.add_zero, Bool.and_eq_true, beq_iff_eq,
        bne_iff_ne] at hr
      rw [if_neg (not_not.mpr hr.1), if_pos hr.2]
      rfl
    | succ k =>
      have h0 := hc 0 (Nat.succ_pos k)
      simp only [Reply.pollClear, Nat.mul_zero, Nat.add_zero, Bool.and_eq_true, beq_iff_eq]
        at h0
      rw [if_neg (not_not.mpr h0.1), if_neg (not_not.mpr h0.2)]
      have hlen : (tr ++ [Event.reg16_read_bytes 0x3100 1, Event.usleep 5000]).length
          = tr.length + 2 := by simp
      rw [ih _ k (by omega)
        (by rw [hlen]; rw [show tr.length + 2 + 2 * k = tr.length + 2 * (k + 1) by omega]; exact hr)
        (by
          intro j hj
          rw [hlen, show tr.length + 2 + 2 * j = tr.length + 2 * (j + 1) by omega]
          exact hc (j + 1) (by omega))]
      simp [wait_events]

/-- The loop gives up after `n` polls that all read the bit clear, having slept after each. -/
theorem wait_loop_timeout (env : Env) :
    ∀ (n : Nat) (tr : Trace),
      (∀ j, j < n → (env.reply (tr.length + 2 * j)).pollClear = true) →
      vl53l1x_wait_loop env n tr = (-1, tr ++ timeout_events n) := by
  intro n
  induction n with
  | zero => intro tr _; simp [wait_loop_zero, timeout_events]
  | succ n ih =>
    intro tr hc
    rw [wait_loop_succ]
    have h0 := hc 0 (Nat.succ_pos n)
    simp only [Reply.pollClear, Nat.mul_zero, Nat.add_zero, Bool.and_eq_true, beq_iff_eq] at h0
    rw [if_neg (not_not.mpr h0.1), if_neg (not_not.mpr h0.2)]
    have hlen : (tr ++ [Event.reg16_read_bytes 0x3100 1, Event.usleep 5000]).length
        = tr.length + 2 := by simp
    rw [ih _ (by
      intro j hj
      rw [hlen, show tr.length + 2 + 2 * j = tr.length + 2 * (j + 1) by omega]
      exact hc (j + 1) (by omega))]
    simp [timeout_events]

/-- When the loop returns 0, some poll read the bit set after polls that read it clear. -/
theorem wait_loop_zero_only (env : Env) :
    ∀ (n : Nat) (tr : Trace), (vl53l1x_wait_loop env n tr).1 = 0 →
      ∃ k, k < n ∧ (env.reply (tr.length + 2 * k)).pollReady = true ∧
        ∀ j, j < k → (env.reply (tr.length + 2 * j)).pollClear = true := by
  intro n
  induction n with
  | zero =>
    intro tr h
    rw [wait_loop_zero] at h
    simp at h
  | succ n ih =>
    intro tr h
    rw [wait_loop_succ] at h
    split_ifs at h with h1 h2
    · simp at h
    · refine ⟨0, Nat.succ_pos n, ?_, fun j hj => absurd hj (Nat.not_lt_zero j)⟩
      simp only [Reply.pollReady, Nat.mul_zero, Nat.add_zero, Bool.and_eq_true, beq_iff_eq,
        bne_iff_ne]
      exact ⟨not_not.mp h1, h2⟩
    · obtain ⟨k, hk, hr, hc⟩ := ih _ h
      have hlen : (tr ++ [Event.reg16_read_bytes 0x3100 1, Event.usleep 5000]).length
          = tr.length + 2 := by simp
      refine ⟨k + 1, by omega, ?_, ?_⟩
      · rw [hlen, show tr.length + 2 + 2 * k = tr.length + 2 * (k + 1) by omega] at hr
        exact hr
      · intro j hj
        cases j with
        | zero =>
          simp only [Reply.pollClear, Nat.mul_zero, Nat.add_zero, Bool.and_eq_true, beq_iff_eq]
          exact ⟨not_not.mp h1, not_not.mp h2⟩
        | succ j =>
          have := hc j (by omega)
          rw [hlen, show tr.length + 2 + 2 * j = tr.length + 2 * (j + 1) by omega] at this
          exact this

theorem wait_loop_ret (env : Env) :
    ∀ (n : Nat) (tr : Trace),
      (vl53l1x_wait_loop env n tr).1 = 0 ∨ (vl53l1x_wait_loop env n tr).1 = -1 := by
  intro n
  induction n with
  | zero => intro tr; exact Or.inr rfl
  | succ n ih =>
    intro tr
    rw [wait_loop_succ]
    split_ifs
    · exact Or.inr rfl
    · exact Or.inl rfl
    · exact ih _

theorem timeout_events_totals (n : Nat) :
    (timeout_events n).count (Event.reg16_read_bytes 0x3100 1) = n ∧
    (timeout_events n).count (Event.usleep 5000) = n ∧
    (timeout_events n).length = 2 * n ∧
    slept_us (timeout_events n) = n * 5000 := by
  induction n with
  | zero => exact ⟨rfl, rfl, rfl, by simp [timeout_events, slept_us]⟩
  | succ n ih =>
    obtain ⟨h1, h2, h3, h4⟩ := ih
    refine ⟨?_, ?_, ?_, ?_⟩
    · simp [timeout_events, List.count_cons, h1]
    · simp [timeout_events, List.count_cons, h2]
    · simp [timeout_events, h3]; omega
    · simp only [timeout_events, slept_us, h4]
      push_cast
      ring

/-- C18: `wait_for_data` polls the status register at most `N` times, `N = 100` in the
vl53l1x driver and `N = 20` in the sf20c driver, poll `k` being call `2 * k` of the wait.  It
returns 0 exactly when some poll `k < N` reads the low bit set after polls that all read it
clear, and then that poll is its last operation; when `N` polls read the bit clear it
returns -1 after exactly `N` polls, each followed by a sleep of 5000 us: 500 ms and 100 ms in
all. -/
theorem C18_wait_for_data_bounded (env : Env) (tr : Trace) :
    (((vl53l1x_wait_for_data env tr).1 = 0 ↔
        ∃ k, k < 100 ∧ (env.reply (tr.length + 2 * k)).pollReady = true ∧
          ∀ j, j < k → (env.reply (tr.length + 2 * j)).pollClear = true) ∧
      (∀ k, k < 100 → (env.reply (tr.length + 2 * k)).pollReady = true →
        (∀ j, j < k → (env.reply (tr.length + 2 * j)).pollClear = true) →
        vl53l1x_wait_for_data env tr = (0, tr ++ wait_events k)) ∧
      ((∀ j, j < 100 → (env.reply (tr.length + 2 * j)).pollClear = true) →
        vl53l1x_wait_for_data env tr = (-1, tr ++ timeout_events 100)) ∧
      ((vl53l1x_wait_for_data env tr).1 = 0 ∨ (vl53l1x_wait_for_data env tr).1 = -1)) ∧
    (((sf20c_wait_for_data env tr).1 = 0 ↔
        ∃ k, k < 20 ∧ (env.reply (tr.length + 2 * k)).pollReady = true ∧
          ∀ j, j < k → (env.reply (tr.length + 2 * j)).pollClear = true) ∧
      (∀ k, k < 20 → (env.reply (tr.length + 2 * k)).pollReady = true →
        (∀ j, j < k → (env.reply (tr.length + 2 * j)).pollClear = true) →
        sf20c_wait_for_data env tr = (0, tr ++ wait_events k)) ∧
      ((∀ j, j < 20 → (env.reply (tr.length + 2 * j)).pollClear = true) →
        sf20c_wait_for_data env tr = (-1, tr ++ timeout_events 20)) ∧
      ((sf20c_wait_for_data env tr).1 = 0 ∨ (sf20c_wait_for_data env tr).1 = -1)) ∧
    ((timeout_events 100).count (Event.reg16_read_bytes (_reverse_lsb_msb_16 0x0031) 1) = 100 ∧
      (timeout_events 100).count (Event.usleep 5000) = 100 ∧
      (timeout_events 100).length = 200 ∧
      slept_us (timeout_events 100) = 100 * 5000) ∧
    ((timeout_events 20).count (Event.reg16_read_bytes (_reverse_lsb_msb_16 0x0031) 1) = 20 ∧
      (timeout_events 20).count (Event.usleep 5000) = 20 ∧
      (timeout_events 20).length = 40 ∧
      slept_us (timeout_events 20) = 20 * 5000) := by
  refine ⟨⟨⟨?_, ?_⟩, ?_, ?_, ?_⟩, ⟨⟨?_, ?_⟩, ?_, ?_, ?_⟩, ?_, ?_⟩
  · exact wait_loop_zero_only env 100 tr
  · rintro ⟨k, hk, hr, hc⟩
    show (vl53l1x_wait_loop env 100 tr).1 = 0
    rw [wait_loop_found env 100 tr k hk hr hc]
  · exact fun k hk hr hc => wait_loop_found env 100 tr k hk hr hc
  · exact wait_loop_timeout env 100 tr
  · exact wait_loop_ret env 100 tr
  · intro h
    apply wait_loop_zero_only env 20 tr
    rw [← sf20c_wait_loop_eq]
    exact h
  · rintro ⟨k, hk, hr, hc⟩
    show (sf20c_wait_loop env 20 tr).1 = 0
    rw [sf20c_wait_loop_eq, wait_loop_found env 20 tr k hk hr hc]
  · intro k hk hr hc
    show sf20c_wait_loop env 20 tr = _
    rw [sf20c_wait_loop_eq]
    exact wait_loop_found env 20 tr k hk hr hc
  · intro hc
    show sf20c_wait_loop env 20 tr = _
    rw [sf20c_wait_loop_eq]
    exact wait_loop_timeout env 20 tr hc
  · show (sf20c_wait_loop env 20 tr).1 = 0 ∨ (sf20c_wait_loop env 20 tr).1 = -1
    rw [sf20c_wait_loop_eq]
    exact wait_loop_ret env 20 tr
  · have e : _reverse_lsb_msb_16 0x0031 = 0x3100 := by decide
    rw [e]
    exact timeout_events_totals 100
  · have e : _reverse_lsb_msb_16 0x0031 = 0x3100 := by decide
    rw [e]
    exact timeout_events_totals 20

/-! ## The timestamp of a round -/

theorem tdiv_two_bounds (a : Int) (h : 0 ≤ a) : 2 * Int.tdiv a 2 ≤ a ∧ a ≤ 2 * Int.tdiv a 2 + 1 := by
  rw [Int.tdiv_eq_ediv h (by decide)]
  omega

/-- C19: the end of a pass reads the clock (`t`), stamps every record of the batch with
`t - (t - l) / 2`, where `l` is the time remembered from the previous published pass and the
division truncates, writes the batch and remembers `t`.  For `l ≤ t` the stamp lies between
`l` and `t` and twice the stamp exceeds `t + l` by 0 or 1; when `0 ≤ l` and `t < 2^63` every
intermediate value is inside the range of `int64_t`. -/
theorem C19_timestamp_is_midpoint (env : Env) (st : MainState) (r : (Int × List Int) × Trace)
    (h : st.last_time_ns ≤ (_apps_time_monotonic_ns env r.2).1) :
    (main_publish env st r).2
      = r.2 ++ [Event.clock_gettime, Event.pipe_server_write (main_publish env st r).1.data] ∧
    (main_publish env st r).1.last_time_ns = (_apps_time_monotonic_ns env r.2).1 ∧
    (∀ d ∈ (main_publish env st r).1.data,
      d.timestamp_ns = (_apps_time_monotonic_ns env r.2).1
        - Int.tdiv ((_apps_time_monotonic_ns env r.2).1 - st.last_time_ns) 2 ∧
      st.last_time_ns ≤ d.timestamp_ns ∧
      d.timestamp_ns ≤ (_apps_time_monotonic_ns env r.2).1 ∧
      0 ≤ 2 * d.timestamp_ns - ((_apps_time_monotonic_ns env r.2).1 + st.last_time_ns) ∧
      2 * d.timestamp_ns - ((_apps_time_monotonic_ns env r.2).1 + st.last_time_ns) ≤ 1) ∧
    (0 ≤ st.last_time_ns → (_apps_time_monotonic_ns env r.2).1 < 2 ^ 63 →
      0 ≤ (_apps_time_monotonic_ns env r.2).1 - st.last_time_ns ∧
      (_apps_time_monotonic_ns env r.2).1 - st.last_time_ns < 2 ^ 63 ∧
      0 ≤ Int.tdiv ((_apps_time_monotonic_ns env r.2).1 - st.last_time_ns) 2 ∧
      Int.tdiv ((_apps_time_monotonic_ns env r.2).1 - st.last_time_ns) 2 < 2 ^ 63) := by
  have hb := tdiv_two_bounds ((_apps_time_monotonic_ns env r.2).1 - st.last_time_ns) (by omega)
  refine ⟨main_publish_trace env st r, rfl, ?_, ?_⟩
  · intro d hd
    rw [main_publish_data] at hd
    have hts := (populate_mem _ _ _ _ d hd).2
    rw [hts]
    refine ⟨rfl, ?_, ?_, ?_, ?_⟩ <;> omega
  · intro h0 h63
    refine ⟨?_, ?_, ?_, ?_⟩ <;> omega

theorem C19_timestamp_witness :
    (initial_state (globals_muxed four_sensors 0)).last_time_ns
      ≤ (_apps_time_monotonic_ns env_clock_1001 []).1 ∧
    (_apps_time_monotonic_ns env_clock_1001 []).1 = 1001 ∧
    (∀ d ∈ (main_publish env_clock_1001 (initial_state (globals_muxed four_sensors 0))
        ((1, [0, 0, 0, 0]), [])).1.data,
      d.timestamp_ns = 501) := by
  refine ⟨by decide, by decide, ?_⟩
  intro d hd
  have h := (C19_timestamp_is_midpoint env_clock_1001
    (initial_state (globals_muxed four_sensors 0)) ((1, [0, 0, 0, 0]), []) (by decide)).2.2.1 d hd
  rw [h.1]
  decide

/-! ## Timestamps over successive rounds -/

theorem clock_readings_append (env : Env) :
    ∀ (a done b : Trace),
      clock_readings env done (a ++ b)
        = clock_readings env done a ++ clock_readings env (done ++ a) b := by
  intro a
  induction a with
  | nil => intro done b; simp [clock_readings]
  | cons e a ih =>
    intro done b
    cases e <;> simp [clock_readings, ih]

theorem clock_readings_quiet (env : Env) :
    ∀ (l done : Trace), (∀ e ∈ l, e.isQuiet = true) → clock_readings env done l = [] := by
  intro l
  induction l with
  | nil => intro done _; rfl
  | cons e l ih =>
    intro done h
    have he := h e (List.mem_cons_self _ _)
    have hl := ih (done ++ [e]) (fun x hx => h x (List.mem_cons_of_mem _ hx))
    cases e <;> simp_all [clock_readings, Event.isQuiet]

theorem batches_append (a b : Trace) : batches (a ++ b) = batches a ++ batches b := by
  induction a with
  | nil => rfl
  | cons e a ih => cases e <;> simp [batches, ih]

theorem batches_quiet : ∀ (l : Trace), (∀ e ∈ l, e.isQuiet = true) → batches l = [] := by
  intro l
  induction l with
  | nil => intro _; rfl
  | cons e l ih =>
    intro h
    have he := h e (List.mem_cons_self _ _)
    have hl := ih (fun x hx => h x (List.mem_cons_of_mem _ hx))
    cases e <;> simp_all [batches, Event.isQuiet]

theorem set_multiplexer_quiet (env : Env) (g : Globals) (mux_ch addr : Int) (T : Trace) :
    ∃ l, (_set_multiplexer env g mux_ch addr T).2 = T ++ l ∧ ∀ e ∈ l, e.isQuiet = true := by
  unfold _set_multiplexer voxl_i2c_set_device_address voxl_i2c_send_byte
  simp only
  split_ifs
  · exact ⟨[Event.set_device_address g.mux_address], rfl, by simp [Event.isQuiet]⟩
  · exact ⟨[Event.set_device_address g.mux_address, Event.send_byte (mux_bitmask mux_ch)],
      by simp, by simp [Event.isQuiet]⟩
  · exact ⟨[Event.set_device_address g.mux_address, Event.send_byte (mux_bitmask mux_ch),
      Event.set_device_address (addr % 256)], by simp, by simp [Event.isQuiet]⟩
  · exact ⟨[Event.set_device_address g.mux_address, Event.send_byte (mux_bitmask mux_ch),
      Event.set_device_address (addr % 256)], by simp, by simp [Event.isQuiet]⟩

theorem wait_loop_quiet (env : Env) :
    ∀ (n : Nat) (T : Trace),
      ∃ l, (vl53l1x_wait_loop env n T).2 = T ++ l ∧ ∀ e ∈ l, e.isQuiet = true := by
  intro n
  induction n with
  | zero => intro T; exact ⟨[], by simp [wait_loop_zero], by simp⟩
  | succ n ih =>
    intro T
    rw [wait_loop_succ]
    split_ifs
    · exact ⟨[Event.reg16_read_bytes 0x3100 1], rfl, by simp [Event.isQuiet]⟩
    · exact ⟨[Event.reg16_read_bytes 0x3100 1], rfl, by simp [Event.isQuiet]⟩
    · obtain ⟨l, hl, hq⟩ := ih (T ++ [Event.reg16_read_bytes 0x3100 1, Event.usleep 5000])
      refine ⟨[Event.reg16_read_bytes 0x3100 1, Event.usleep 5000] ++ l, ?_, ?_⟩
      · rw [hl]; simp
      · intro e he
        rcases List.mem_append.mp he with h | h
        · simp only [List.mem_cons, List.mem_singleton, List.not_mem_nil, or_false] at h
          rcases h with rfl | rfl <;> rfl
        · exact hq e h

theorem main_select_quiet (env : Env) (g : Globals) (s : rangefinder_config_t) (T : Trace) :
    ∃ l, main_select env g s T = T ++ l ∧ ∀ e ∈ l, e.isQuiet = true := by
  unfold main_select
  split_ifs
  · exact set_multiplexer_quiet _ _ _ _ _
  · exact set_multiplexer_quiet _ _ _ _ _
  · exact ⟨[], by simp, by simp⟩

theorem main_read_back_quiet (env : Env) (g : Globals) :
    ∀ (l : List rangefinder_config_t) (i : Nat) (run : Int) (dm : List Int) (T : Trace),
      ∃ x, (main_read_back env g l i run dm T).2 = T ++ x ∧ ∀ e ∈ x, e.isQuiet = true := by
  intro l
  induction l with
  | nil => intro i run dm T; exact ⟨[], by simp [main_read_back], by simp⟩
  | cons s rest ih =>
    intro i run dm T
    rw [main_read_back_cons]
    obtain ⟨l1, h1, q1⟩ := main_select_quiet env g s T
    obtain ⟨l2, h2, q2⟩ := wait_loop_quiet env 100 (main_select env g s T)
    have hw : (vl53l1x_wait_for_data env (main_select env g s T)).2 = T ++ (l1 ++ l2) := by
      show (vl53l1x_wait_loop env 100 (main_select env g s T)).2 = _
      rw [h2, h1, List.append_assoc]
    have q12 : ∀ e ∈ l1 ++ l2, e.isQuiet = true := by
      intro e he
      rcases List.mem_append.mp he with h | h
      · exact q1 e h
      · exact q2 e h
    split_ifs
    · exact ⟨l1 ++ l2, hw, q12⟩
    · obtain ⟨l3, h3, q3⟩ := ih (i + 1) run
        (dm.set i (vl53l1x_get_distance_mm env
          (vl53l1x_wait_for_data env (main_select env g s T)).2).1.dist_mm)
        ((vl53l1x_wait_for_data env (main_select env g s T)).2 ++
          [bulk_read, Event.reg16_write_bytes 0x8600 [0x01],
           Event.reg16_write_bytes 0x8700 [0x00]])
      refine ⟨(l1 ++ l2) ++ [bulk_read, Event.reg16_write_bytes 0x8600 [0x01],
        Event.reg16_write_bytes 0x8700 [0x00]] ++ l3, ?_, ?_⟩
      · rw [h3, hw]; simp
      · intro e he
        rcases List.mem_append.mp he with h | h
        · rcases List.mem_append.mp h with h | h
          · exact q12 e h
          · simp only [List.mem_cons, List.mem_singleton, List.not_mem_nil, or_false] at h
            rcases h with rfl | rfl | rfl <;> rfl
        · exact q3 e h

theorem main_start_ranging_quiet (env : Env) (g : Globals) (T : Trace) :
    ∃ l, (main_start_ranging env g T).2 = T ++ l ∧ ∀ e ∈ l, e.isQuiet = true := by
  have hn : ∀ T', ∃ l, (main_start_nonmux env g T').2 = T' ++ l ∧ ∀ e ∈ l, e.isQuiet = true := by
    intro T'
    unfold main_start_nonmux
    obtain ⟨l1, h1, q1⟩ := set_multiplexer_quiet env g MUX_NONE VL53L1X_TOF_DEFAULT_ADDR T'
    split_ifs
    · refine ⟨l1 ++ [Event.reg16_write_bytes 0x8700 [0x40]], ?_, ?_⟩
      · rw [start_ranging_eq, h1, List.append_assoc]
      · intro e he
        rcases List.mem_append.mp he with h | h
        · exact q1 e h
        · rw [List.mem_singleton.mp h]; rfl
    · exact ⟨[Event.reg16_write_bytes 0x8700 [0x40]], rfl,
        fun e he => by rw [List.mem_singleton.mp he]; rfl⟩
    · exact ⟨[], by simp, by simp⟩
  have hm : ∀ T', ∃ l, (main_start_muxed env g T').2 = T' ++ l ∧ ∀ e ∈ l, e.isQuiet = true := by
    intro T'
    unfold main_start_muxed
    obtain ⟨l1, h1, q1⟩ := set_multiplexer_quiet env g MUX_ALL VL53L1X_TOF_DEFAULT_ADDR T'
    split_ifs
    · refine ⟨l1 ++ [Event.reg16_write_bytes 0x8700 [0x40]], ?_, ?_⟩
      · rw [start_ranging_eq, h1, List.append_assoc]
      · intro e he
        rcases List.mem_append.mp he with h | h
        · exact q1 e h
        · rw [List.mem_singleton.mp h]; rfl
    · exact ⟨[], by simp, by simp⟩
  rw [main_start_ranging_trace]
  obtain ⟨l1, h1, q1⟩ := hn T
  obtain ⟨l2, h2, q2⟩ := hm (main_start_nonmux env g T).2
  split_ifs
  · exact ⟨l1, h1, q1⟩
  · refine ⟨l1 ++ l2, ?_, ?_⟩
    · rw [h2, h1, List.append_assoc]
    · intro e he
      rcases List.mem_append.mp he with h | h
      · exact q1 e h
      · exact q2 e h

/-- A pass either leaves the remembered time alone and issues quiet operations only, or ends
with one clock reading `t` and one batch stamped `t - (t - l) / 2`, and remembers `t`. -/
theorem main_loop_pass_shape (env : Env) (g : Globals) (st : MainState) (tr : Trace) :
    ∃ l, (∀ e ∈ l, e.isQuiet = true) ∧
      (((main_loop_pass env g st tr).2 = tr ++ l ∧
          (main_loop_pass env g st tr).1.last_time_ns = st.last_time_ns) ∨
        ((main_loop_pass env g st tr).2
            = tr ++ l ++ [Event.clock_gettime,
                Event.pipe_server_write (main_loop_pass env g st tr).1.data] ∧
          (main_loop_pass env g st tr).1.last_time_ns
            = (_apps_time_monotonic_ns env (tr ++ l)).1 ∧
          ∀ d ∈ (main_loop_pass env g st tr).1.data,
            d.timestamp_ns = (_apps_time_monotonic_ns env (tr ++ l)).1
              - Int.tdiv ((_apps_time_monotonic_ns env (tr ++ l)).1 - st.last_time_ns) 2)) := by
  rw [main_loop_pass_eq]
  obtain ⟨l1, h1, q1⟩ := main_start_ranging_quiet env g (tr ++ [Event.pipe_server_get_num_clients])
  split_ifs with hc hs
  · exact ⟨[Event.pipe_server_get_num_clients, Event.usleep 500000],
      by simp [Event.isQuiet], Or.inl ⟨rfl, rfl⟩⟩
  · refine ⟨Event.pipe_server_get_num_clients :: l1, ?_, Or.inl ⟨?_, rfl⟩⟩
    · intro e he
      rcases List.mem_cons.mp he with rfl | h
      · rfl
      · exact q1 e h
    · rw [h1]; simp
  · obtain ⟨l2, h2, q2⟩ := main_read_back_quiet env g g.enabled_sensors 0 st.main_running
      (List.replicate MAX_SENSORS 0)
      ((main_start_ranging env g (tr ++ [Event.pipe_server_get_num_clients])).2 ++
        [Event.usleep (g.TimingBudgetInMs * 1000)])
    have h2' : (main_read_back env g g.enabled_sensors 0 st.main_running
        (List.replicate MAX_SENSORS 0)
        ((main_start_ranging env g (tr ++ [Event.pipe_server_get_num_clients])).2 ++
          [Event.usleep (g.TimingBudgetInMs * 1000)])).2
        = tr ++ (Event.pipe_server_get_num_clients :: l1 ++
            Event.usleep (g.TimingBudgetInMs * 1000) :: l2) := by
      rw [h2, h1]; simp
    refine ⟨Event.pipe_server_get_num_clients :: l1 ++
      Event.usleep (g.TimingBudgetInMs * 1000) :: l2, ?_, Or.inr ⟨?_, ?_, ?_⟩⟩
    · intro e he
      rcases List.mem_append.mp he with h | h
      · rcases List.mem_cons.mp h with rfl | h
        · rfl
        · exact q1 e h
      · rcases List.mem_cons.mp h with rfl | h
        · rfl
        · exact q2 e h
    · rw [main_publish_trace, h2']
    · show (_apps_time_monotonic_ns env _).1 = _
      rw [h2']
    · intro d hd
      rw [main_publish_data] at hd
      have := (populate_mem _ _ _ _ d hd).2
      rw [this, h2']

theorem main_loop_grows (env : Env) (g : Globals) :
    ∀ (fuel : Nat) (st : MainState) (tr : Trace),
      ∃ X, (main_loop env g fuel st tr).2 = tr ++ X := by
  intro fuel
  induction fuel with
  | zero => intro st tr; exact ⟨[], by simp [main_loop]⟩
  | succ n ih =>
    intro st tr
    rw [main_loop]
    split_ifs
    · exact ⟨[], by simp⟩
    · obtain ⟨l, _, hl⟩ := main_loop_pass_shape env g st tr
      obtain ⟨X, hX⟩ := ih (main_loop_pass env g st tr).1 (main_loop_pass env g st tr).2
      rcases hl with ⟨h, _⟩ | ⟨h, _, _⟩
      · exact ⟨l ++ X, by simp only [hX]; rw [h, List.append_assoc]⟩
      · exact ⟨l ++ [Event.clock_gettime,
          Event.pipe_server_write (main_loop_pass env g st tr).1.data] ++ X,
          by simp only [hX]; rw [h]; simp⟩

/-- The timestamps written by the loop under non-decreasing clock readings: the batches are
in non-decreasing order and none is stamped before the time remembered at the start. -/
theorem main_loop_stamps (env : Env) (g : Globals) :
    ∀ (fuel : Nat) (st : MainState) (tr : Trace),
      List.Pairwise (fun a b : Int => a ≤ b)
        (st.last_time_ns ::
          clock_readings env tr ((main_loop env g fuel st tr).2.drop tr.length)) →
      List.Pairwise (fun b1 b2 : List rangefinder_data_t =>
          ∀ d1 ∈ b1, ∀ d2 ∈ b2, d1.timestamp_ns ≤ d2.timestamp_ns)
        (batches ((main_loop env g fuel st tr).2.drop tr.length)) ∧
      ∀ b ∈ batches ((main_loop env g fuel st tr).2.drop tr.length), ∀ d ∈ b,
        st.last_time_ns ≤ d.timestamp_ns := by
  intro fuel
  induction fuel with
  | zero =>
    intro st tr _
    simp [main_loop, batches]
  | succ n ih =>
    intro st tr hmono
    rw [main_loop] at hmono ⊢
    split_ifs at hmono ⊢ with hstop
    · simp [batches]
    · obtain ⟨l, hq, hl⟩ := main_loop_pass_shape env g st tr
      obtain ⟨X, hX⟩ := main_loop_grows env g n (main_loop_pass env g st tr).1
        (main_loop_pass env g st tr).2
      have ih' := ih (main_loop_pass env g st tr).1 (main_loop_pass env g st tr).2
      simp only [hX, List.drop_left] at ih' hmono ⊢
      rcases hl with ⟨h, hlast⟩ | ⟨h, hlast, hts⟩
      · rw [h, hlast] at ih'
        rw [h] at hmono ⊢
        rw [List.append_assoc, List.drop_left, clock_readings_append,
          clock_readings_quiet env l tr hq, List.nil_append] at hmono
        rw [List.append_assoc, List.drop_left, batches_append, batches_quiet l hq,
          List.nil_append]
        exact ih' hmono
      · rw [h, hlast] at ih'
        rw [h] at hmono ⊢
        have e1 : tr ++ l ++ [Event.clock_gettime,
            Event.pipe_server_write (main_loop_pass env g st tr).1.data] ++ X
            = tr ++ (l ++ ([Event.clock_gettime] ++
                ([Event.pipe_server_write (main_loop_pass env g st tr).1.data] ++ X))) := by
          simp
        rw [e1, List.drop_left, clock_readings_append, clock_readings_quiet env l tr hq,
          List.nil_append] at hmono
        rw [e1, List.drop_left, batches_append, batches_quiet l hq, List.nil_append]
        have e2 : clock_readings env (tr ++ l) ([Event.clock_gettime] ++
            ([Event.pipe_server_write (main_loop_pass env g st tr).1.data] ++ X))
            = (_apps_time_monotonic_ns env (tr ++ l)).1 ::
                clock_readings env (tr ++ l ++ [Event.clock_gettime,
                  Event.pipe_server_write (main_loop_pass env g st tr).1.data]) X := by
          simp [clock_readings]
        have e3 : batches ([Event.clock_gettime] ++
            ([Event.pipe_server_write (main_loop_pass env g st tr).1.data] ++ X))
            = (main_loop_pass env g st tr).1.data :: batches X := by
          simp [batches]
        rw [e2] at hmono
        rw [e3]
        rw [List.pairwise_cons] at hmono
        obtain ⟨hfirst, hrest⟩ := hmono
        have hlt : st.last_time_ns ≤ (_apps_time_monotonic_ns env (tr ++ l)).1 :=
          hfirst _ (List.mem_cons_self _ _)
        obtain ⟨ihp, ihb⟩ := ih' hrest
        have hb := tdiv_two_bounds ((_apps_time_monotonic_ns env (tr ++ l)).1 - st.last_time_ns)
          (by omega)
        refine ⟨List.pairwise_cons.mpr ⟨?_, ihp⟩, ?_⟩
        · intro b hbm d1 hd1 d2 hd2
          have h1 := hts d1 hd1
          have h2 := ihb b hbm d2 hd2
          omega
        · intro b hbm d hd
          rcases List.mem_cons.mp hbm with rfl | hbm
          · have h1 := hts d hd
            omega
          · have h2 := ihb b hbm d hd
            omega

/-- C20: in a run of the sampling loop in which the readings of the monotonic clock, from
the one remembered before the loop on, are non-decreasing, the batches are stamped in
non-decreasing order: every record of a batch carries a timestamp that is at most the
timestamp of every record of every later batch. -/
theorem C20_timestamps_nondecreasing (env : Env) (g : Globals) (fuel : Nat) (st : MainState)
    (tr : Trace)
    (hclock : List.Pairwise (fun a b : Int => a ≤ b)
      (st.last_time_ns ::
        clock_readings env tr ((main_loop env g fuel st tr).2.drop tr.length))) :
    List.Pairwise (fun b1 b2 : List rangefinder_data_t =>
        ∀ d1 ∈ b1, ∀ d2 ∈ b2, d1.timestamp_ns ≤ d2.timestamp_ns)
      (batches ((main_loop env g fuel st tr).2.drop tr.length)) :=
  (main_loop_stamps env g fuel st tr hclock).1

set_option maxRecDepth 20000 in
theorem C20_timestamps_witness :
    List.Pairwise (fun a b : Int => a ≤ b)
      ((initial_state (globals_muxed [sensor_on_port 0 27] 1)).last_time_ns ::
        clock_readings env_two_rounds []
          ((main_loop env_two_rounds (globals_muxed [sensor_on_port 0 27] 1) 2
            (initial_state (globals_muxed [sensor_on_port 0 27] 1)) []).2.drop
              ([] : Trace).length)) ∧
    (batches (main_loop env_two_rounds (globals_muxed [sensor_on_port 0 27] 1) 2
        (initial_state (globals_muxed [sensor_on_port 0 27] 1)) []).2).map
        (List.map rangefinder_data_t.timestamp_ns) = [[2500000500], [7000001000]] ∧
    List.Pairwise (fun b1 b2 : List rangefinder_data_t =>
        ∀ d1 ∈ b1, ∀ d2 ∈ b2, d1.timestamp_ns ≤ d2.timestamp_ns)
      (batches ((main_loop env_two_rounds (globals_muxed [sensor_on_port 0 27] 1) 2
        (initial_state (globals_muxed [sensor_on_port 0 27] 1)) []).2.drop
          ([] : Trace).length)) :=
  ⟨by decide, by with_unfolding_all decide,
   C20_timestamps_nondecreasing env_two_rounds (globals_muxed [sensor_on_port 0 27] 1) 2
     (initial_state (globals_muxed [sensor_on_port 0 27] 1)) [] (by decide)⟩

/-! ## What a pass does to the loop state -/

/-- A pass either issues quiet operations only and leaves the counter and the records alone,
or ends with one clock reading and one batch: the records refilled from a `dist_mm` array of
`MAX_SENSORS` entries, stamped with the incremented 32-bit counter, which becomes the new
counter. -/
theorem main_loop_pass_cases (env : Env) (g : Globals) (st : MainState) (tr : Trace) :
    ∃ l, (∀ e ∈ l, e.isQuiet = true) ∧
      (((main_loop_pass env g st tr).2 = tr ++ l ∧
          (main_loop_pass env g st tr).1.sample_id = st.sample_id ∧
          (main_loop_pass env g st tr).1.data = st.data) ∨
        ((main_loop_pass env g st tr).2
            = tr ++ l ++ [Event.clock_gettime,
                Event.pipe_server_write (main_loop_pass env g st tr).1.data] ∧
          (main_loop_pass env g st tr).1.sample_id = to_int32 (st.sample_id + 1) ∧
          ∃ (dm : List Int) (ts : Int), dm.length = MAX_SENSORS ∧
            (main_loop_pass env g st tr).1.data
              = populate st.data dm ts (to_int32 (st.sample_id + 1)))) := by
  rw [main_loop_pass_eq]
  obtain ⟨l1, h1, q1⟩ := main_start_ranging_quiet env g (tr ++ [Event.pipe_server_get_num_clients])
  split_ifs with hc hs
  · exact ⟨[Event.pipe_server_get_num_clients, Event.usleep 500000],
      by simp [Event.isQuiet], Or.inl ⟨rfl, rfl, rfl⟩⟩
  · refine ⟨Event.pipe_server_get_num_clients :: l1, ?_, Or.inl ⟨?_, rfl, rfl⟩⟩
    · intro e he
      rcases List.mem_cons.mp he with rfl | h
      · rfl
      · exact q1 e h
    · rw [h1]; simp
  · obtain ⟨l2, h2, q2⟩ := main_read_back_quiet env g g.enabled_sensors 0 st.main_running
      (List.replicate MAX_SENSORS 0)
      ((main_start_ranging env g (tr ++ [Event.pipe_server_get_num_clients])).2 ++
        [Event.usleep (g.TimingBudgetInMs * 1000)])
    have h2' : (main_read_back env g g.enabled_sensors 0 st.main_running
        (List.replicate MAX_SENSORS 0)
        ((main_start_ranging env g (tr ++ [Event.pipe_server_get_num_clients])).2 ++
          [Event.usleep (g.TimingBudgetInMs * 1000)])).2
        = tr ++ (Event.pipe_server_get_num_clients :: l1 ++
            Event.usleep (g.TimingBudgetInMs * 1000) :: l2) := by
      rw [h2, h1]; simp
    refine ⟨Event.pipe_server_get_num_clients :: l1 ++
      Event.usleep (g.TimingBudgetInMs * 1000) :: l2, ?_, Or.inr ⟨?_, rfl, _, _, ?_,
        main_publish_data env st _⟩⟩
    · intro e he
      rcases List.mem_append.mp he with h | h
      · rcases List.mem_cons.mp h with rfl | h
        · rfl
        · exact q1 e h
      · rcases List.mem_cons.mp h with rfl | h
        · rfl
        · exact q2 e h
    · rw [main_publish_trace, h2']
    · rw [main_read_back_length]
      simp

/-! ## The operations before the loop -/

theorem init_prologue_quiet : ∀ e ∈ init_prologue, e.isQuiet = true := by decide

theorem vl53l1x_init_quiet (env : Env) (fov_deg : ℚ) (b : Int) (tr : Trace) :
    ∃ l, (vl53l1x_init env fov_deg b tr).2 = tr ++ l ∧ ∀ e ∈ l, e.isQuiet = true := by
  by_cases hid : (env.reply tr.length).ret = 2 ∧ field16 (env.reply tr.length).data 0 = 0xEACC
  · by_cases hb : b ∈ [(20 : Int), 33, 50, 100, 200, 500]
    · obtain ⟨A, B, hr⟩ := supported_budget_row b hb
      obtain ⟨roi, clk, h⟩ := vl53l1x_init_accepts env fov_deg b A B tr hid.1 hid.2 hr
      refine ⟨_, by rw [h], ?_⟩
      intro e he
      rcases List.mem_cons.mp he with rfl | he
      · rfl
      · rcases List.mem_append.mp he with he | he
        · exact init_prologue_quiet e he
        · simp only [List.mem_cons, List.mem_singleton, List.not_mem_nil, or_false] at he
          rcases he with rfl | rfl | rfl | rfl | rfl | rfl <;> rfl
    · refine ⟨_, by rw [vl53l1x_init_rejects env fov_deg b tr hid.1 hid.2 hb], ?_⟩
      intro e he
      rcases List.mem_cons.mp he with rfl | he
      · rfl
      · exact init_prologue_quiet e he
  · have hw : (vl53l1x_check_whoami env 0 tr).1 ≠ 0 := by
      rw [vl53l1x_check_whoami_eq]
      by_cases h1 : (env.reply tr.length).ret = 2
      · have h2 : field16 (env.reply tr.length).data 0 ≠ 0xEACC := fun h => hid ⟨h1, h⟩
        simp [h1, h2]
      · simp [h1]
    have ht : (vl53l1x_check_whoami env 0 tr).2 = tr ++ [Event.reg16_read_bytes 0x0F01 2] := by
      rw [vl53l1x_check_whoami_eq]
    refine ⟨[Event.reg16_read_bytes 0x0F01 2], ?_, by simp [Event.isQuiet]⟩
    unfold vl53l1x_init
    simp only [hw, ne_eq, not_false_eq_true, if_true, ht]

theorem main_init_loop_quiet (env : Env) (g : Globals) :
    ∀ (l : List rangefinder_config_t) (tr : Trace),
      ∃ x, (main_init_loop env g l tr).2 = tr ++ x ∧ ∀ e ∈ x, e.isQuiet = true := by
  intro l
  induction l with
  | nil => intro tr; exact ⟨[], by simp [main_init_loop], by simp⟩
  | cons s rest ih =>
    intro tr
    have hm : ∃ x, (if s.is_on_mux = 0 then
          if g.n_mux_sensors > 0 then _set_multiplexer env g MUX_NONE VL53L1X_TOF_DEFAULT_ADDR tr
          else (0, tr)
        else _set_multiplexer env g s.i2c_mux_port VL53L1X_TOF_DEFAULT_ADDR tr).2 = tr ++ x ∧
        ∀ e ∈ x, e.isQuiet = true := by
      split_ifs
      · exact set_multiplexer_quiet _ _ _ _ _
      · exact ⟨[], by simp, by simp⟩
      · exact set_multiplexer_quiet _ _ _ _ _
    obtain ⟨x1, h1, q1⟩ := hm
    rw [main_init_loop]
    simp only
    generalize (if s.is_on_mux = 0 then
        if g.n_mux_sensors > 0 then _set_multiplexer env g MUX_NONE VL53L1X_TOF_DEFAULT_ADDR tr
        else (0, tr)
      else _set_multiplexer env g s.i2c_mux_port VL53L1X_TOF_DEFAULT_ADDR tr) = m at h1 ⊢
    obtain ⟨x2, h2, q2⟩ := vl53l1x_init_quiet env s.fov_deg g.TimingBudgetInMs m.2
    obtain ⟨x3, h3, q3⟩ := ih (vl53l1x_init env s.fov_deg g.TimingBudgetInMs m.2).2
    by_cases c1 : m.1 ≠ 0
    · rw [if_pos c1]
      exact ⟨x1, h1, q1⟩
    · rw [if_neg c1]
      by_cases c2 : (vl53l1x_init env s.fov_deg g.TimingBudgetInMs m.2).1 ≠ 0
      · rw [if_pos c2]
        refine ⟨x1 ++ x2, ?_, ?_⟩
        · show (vl53l1x_init env s.fov_deg g.TimingBudgetInMs m.2).2 = _
          rw [h2, h1, List.append_assoc]
        · intro e he
          rcases List.mem_append.mp he with h | h
          · exact q1 e h
          · exact q2 e h
      · rw [if_neg c2]
        refine ⟨x1 ++ x2 ++ x3, ?_, ?_⟩
        · rw [h3, h2, h1]; simp
        · intro e he
          rcases List.mem_append.mp he with h | h
          · rcases List.mem_append.mp h with h | h
            · exact q1 e h
            · exact q2 e h
          · exact q3 e h

/-- The batches `main` writes are the batches its sampling loop writes, entered in
`loop_entry_state`; when the start-up fails there are none. -/
theorem main_batches (env : Env) (g : Globals) (fuel : Nat) :
    batches (main env g fuel).2 = [] ∨
    ∃ (T0 : Trace) (lt : Int),
      batches (main env g fuel).2
        = batches ((main_loop env g fuel (loop_entry_state g lt) T0).2.drop T0.length) := by
  obtain ⟨x, hx, qx⟩ := main_init_loop_quiet env g g.enabled_sensors
    (usleep 10000 (voxl_i2c_init env VL53L1X_TOF_DEFAULT_ADDR []).2)
  have b1 : batches (main_init_loop env g g.enabled_sensors
      (usleep 10000 (voxl_i2c_init env VL53L1X_TOF_DEFAULT_ADDR []).2)).2 = [] := by
    rw [hx, batches_append, batches_quiet x qx]
    rfl
  unfold main
  simp only
  generalize main_init_loop env g g.enabled_sensors
    (usleep 10000 (voxl_i2c_init env VL53L1X_TOF_DEFAULT_ADDR []).2) = ini at b1 ⊢
  by_cases c1 : (voxl_i2c_init env VL53L1X_TOF_DEFAULT_ADDR []).1 ≠ 0
  · rw [if_pos c1]
    exact Or.inl rfl
  · rw [if_neg c1]
    by_cases c2 : ini.1 ≠ 0
    · rw [if_pos c2]
      left
      show batches (ini.2 ++ _) = []
      rw [batches_append, b1]
      rfl
    · rw [if_neg c2]
      by_cases c3 : (pipe_server_create env ini.2).1 ≠ 0
      · rw [if_pos c3]
        left
        show batches (ini.2 ++ [Event.pipe_server_create] ++ _) = []
        rw [batches_append, batches_append, b1]
        rfl
      · rw [if_neg c3]
        right
        refine ⟨(_apps_time_monotonic_ns env (pipe_server_create env ini.2).2).2,
          (_apps_time_monotonic_ns env (pipe_server_create env ini.2).2).1, ?_⟩
        have b0 : batches (_apps_time_monotonic_ns env (pipe_server_create env ini.2).2).2
            = [] := by
          show batches (ini.2 ++ [Event.pipe_server_create] ++ [Event.clock_gettime]) = []
          rw [batches_append, batches_append, b1]
          rfl
        obtain ⟨X, hX⟩ := main_loop_grows env g fuel
          (loop_entry_state g (_apps_time_monotonic_ns env (pipe_server_create env ini.2).2).1)
          (_apps_time_monotonic_ns env (pipe_server_create env ini.2).2).2
        have e0 : ∀ lt : Int, MainState.mk 1 lt 0 (g.enabled_sensors.map (prefill g))
            = loop_entry_state g lt := fun _ => rfl
        simp only [e0]
        rw [hX, List.drop_left]
        split_ifs
        · show batches (_ ++ X) = batches X
          rw [batches_append, b0, List.nil_append]
        · show batches (_ ++ X ++ _) = batches X
          rw [batches_append, batches_append, b0, List.nil_append]
          simp [batches]

/-! ## The round of four multiplexed sensors -/

set_option maxRecDepth 20000 in
/-- C6: the specification's scenario, four multiplexed sensors on ports 0-3, each at its own
address `0x29` behind the multiplexer at `0x70`, timing budget 33 ms, a client connected and
every bus operation succeeding (sensor 0 ready at its second poll, the others at once).  The
pass issues `round_issued`: the client check, the select of all channels, start ranging, the
sleep of 33 ms, then for each sensor in configured order a select of its port, the polls of
`wait_for_data`, the bulk read, clear interrupt and stop ranging, then the clock reading and
one batch of four entries that share `sample_id` 1 and one timestamp.  But the select of a
visit returns the bus to `i2c_mux_address` (`main.c` lines 355-356) where the selects of lines
263, 328, 338 and 359 and the specification's select return it to the sensor's address: the
visit of sensor 0 starts with set `0x70`, send `0x01`, set `0x70` and not with set `0x70`,
send `0x01`, set `0x29`, and the pass is not `round_events` for any poll counts and batch. -/
theorem C6_visit_select_returns_to_multiplexer :
    read_config_file four_sensors 0 33 0 = some (globals_muxed four_sensors 0) ∧
    (∀ s ∈ (globals_muxed four_sensors 0).enabled_sensors,
      s.is_on_mux ≠ 0 ∧ s.i2c_address = 0x29 ∧ s.i2c_mux_address = 0x70) ∧
    (∀ k (h : k < (main_loop_pass env_four_sensors (globals_muxed four_sensors 0)
          (initial_state (globals_muxed four_sensors 0)) []).2.length),
        ((main_loop_pass env_four_sensors (globals_muxed four_sensors 0)
          (initial_state (globals_muxed four_sensors 0)) []).2[k]).succeeded
            (env_four_sensors.reply k) = true) ∧
    (main_loop_pass env_four_sensors (globals_muxed four_sensors 0)
        (initial_state (globals_muxed four_sensors 0)) []).2
      = round_issued (globals_muxed four_sensors 0) [1, 0, 0, 0]
          (main_loop_pass env_four_sensors (globals_muxed four_sensors 0)
            (initial_state (globals_muxed four_sensors 0)) []).1.data ∧
    (main_loop_pass env_four_sensors (globals_muxed four_sensors 0)
        (initial_state (globals_muxed four_sensors 0)) []).1.data.map
          (fun d => (d.sample_id, d.timestamp_ns))
      = [(1, 2500000500), (1, 2500000500), (1, 2500000500), (1, 2500000500)] ∧
    visit_issued (globals_muxed four_sensors 0) (sensor_on_port 0 27) 1
      = [Event.set_device_address 0x70, Event.send_byte 0x01, Event.set_device_address 0x70,
         Event.reg16_read_bytes 0x3100 1, Event.usleep 5000, Event.reg16_read_bytes 0x3100 1,
         Event.reg16_read_bytes 0x8800 16, Event.reg16_write_bytes 0x8600 [0x01],
         Event.reg16_write_bytes 0x8700 [0x00]] ∧
    visit_events (globals_muxed four_sensors 0) (sensor_on_port 0 27) 1
      = [Event.set_device_address 0x70, Event.send_byte 0x01, Event.set_device_address 0x29,
         Event.reg16_read_bytes 0x3100 1, Event.usleep 5000, Event.reg16_read_bytes 0x3100 1,
         Event.reg16_read_bytes 0x8800 16, Event.reg16_write_bytes 0x8600 [0x01],
         Event.reg16_write_bytes 0x8700 [0x00]] ∧
    ∀ (polls : List Nat) (batch : List rangefinder_data_t),
      (main_loop_pass env_four_sensors (globals_muxed four_sensors 0)
        (initial_state (globals_muxed four_sensors 0)) []).2
      ≠ round_events (globals_muxed four_sensors 0) polls batch := by
  have hp : main_loop_pass env_four_sensors (globals_muxed four_sensors 0)
        (initial_state (globals_muxed four_sensors 0)) []
      = main_publish env_four_sensors (initial_state (globals_muxed four_sensors 0))
          (main_read_back env_four_sensors (globals_muxed four_sensors 0)
            (globals_muxed four_sensors 0).enabled_sensors 0
            (initial_state (globals_muxed four_sensors 0)).main_running
            (List.replicate MAX_SENSORS 0)
            ((main_start_ranging env_four_sensors (globals_muxed four_sensors 0)
              ([] ++ [Event.pipe_server_get_num_clients])).2 ++
              [Event.usleep ((globals_muxed four_sensors 0).TimingBudgetInMs * 1000)])) := by
    rw [main_loop_pass_eq, if_neg (by decide), if_neg (by decide)]
  have hR : (main_read_back env_four_sensors (globals_muxed four_sensors 0)
        (globals_muxed four_sensors 0).enabled_sensors 0
        (initial_state (globals_muxed four_sensors 0)).main_running
        (List.replicate MAX_SENSORS 0)
        ((main_start_ranging env_four_sensors (globals_muxed four_sensors 0)
          ([] ++ [Event.pipe_server_get_num_clients])).2 ++
          [Event.usleep ((globals_muxed four_sensors 0).TimingBudgetInMs * 1000)])).2
      = (round_issued (globals_muxed four_sensors 0) [1, 0, 0, 0] []).dropLast.dropLast := by
    decide
  have e6 : (main_loop_pass env_four_sensors (globals_muxed four_sensors 0)
      (initial_state (globals_muxed four_sensors 0)) []).2[6]?
      = some (Event.set_device_address 0x70) := by decide
  have e8 : (main_loop_pass env_four_sensors (globals_muxed four_sensors 0)
      (initial_state (globals_muxed four_sensors 0)) []).2[8]?
      = some (Event.set_device_address 0x70) := by decide
  refine ⟨by with_unfolding_all decide, by decide, by decide, ?_, by decide, by decide,
    by decide, ?_⟩
  · rw [hp, main_publish_trace, hR]
    rfl
  · intro polls batch h
    rw [h] at e6 e8
    cases polls with
    | nil =>
      have e : (round_events (globals_muxed four_sensors 0) [] batch)[6]?
          = some Event.clock_gettime := by
        simp [round_events, visits_events, select_events]
      rw [e] at e6
      simp at e6
    | cons p ps =>
      have e : (round_events (globals_muxed four_sensors 0) (p :: ps) batch)[8]?
          = some (Event.set_device_address 0x29) := by
        simp [round_events, visits_events, visit_events, select_events, globals_muxed,
          four_sensors, sensor_on_port]
      rw [e] at e8
      simp at e8

/-! ## The sample counter -/

theorem populate_static :
    ∀ (data : List rangefinder_data_t) (dm : List Int) (ts id : Int),
      data.length ≤ dm.length →
      (populate data dm ts id).map rangefinder_data_t.static
        = data.map rangefinder_data_t.static := by
  intro data
  induction data with
  | nil => intro dm ts id _; simp [populate]
  | cons d ds ih =>
    intro dm ts id h
    cases dm with
    | nil => simp at h
    | cons m ms =>
      have := ih ms ts id (by simpa using h)
      simp only [populate, List.zipWith_cons_cons, List.map_cons] at this ⊢
      rw [this]
      rfl

/-- Every batch the loop writes has the static part of the records the loop started with, in
the same order. -/
theorem main_loop_static (env : Env) (g : Globals) :
    ∀ (fuel : Nat) (st : MainState) (tr : Trace), st.data.length ≤ MAX_SENSORS →
      ∀ b ∈ batches ((main_loop env g fuel st tr).2.drop tr.length),
        b.map rangefinder_data_t.static = st.data.map rangefinder_data_t.static := by
  intro fuel
  induction fuel with
  | zero =>
    intro st tr _ b hb
    simp [main_loop, batches] at hb
  | succ n ih =>
    intro st tr hlen b hb
    rw [main_loop] at hb
    split_ifs at hb with hstop
    · simp [batches] at hb
    · obtain ⟨l, hq, hl⟩ := main_loop_pass_cases env g st tr
      obtain ⟨X, hX⟩ := main_loop_grows env g n (main_loop_pass env g st tr).1
        (main_loop_pass env g st tr).2
      have ih' := ih (main_loop_pass env g st tr).1 (main_loop_pass env g st tr).2
      generalize main_loop env g n (main_loop_pass env g st tr).1
        (main_loop_pass env g st tr).2 = F at hX ih' hb
      simp only [hX, List.drop_left] at ih' hb
      rcases hl with ⟨h, _, hdata⟩ | ⟨h, _, dm, ts, hdm, hdata⟩
      · rw [hdata] at ih'
        rw [h, List.append_assoc, List.drop_left, batches_append, batches_quiet l hq,
          List.nil_append] at hb
        exact ih' hlen b hb
      · have hs : (main_loop_pass env g st tr).1.data.map rangefinder_data_t.static
            = st.data.map rangefinder_data_t.static := by
          rw [hdata]
          exact populate_static _ _ _ _ (by rw [hdm]; exact hlen)
        have hlen2 : (main_loop_pass env g st tr).1.data.length ≤ MAX_SENSORS := by
          have := congrArg List.length hs
          simp only [List.length_map] at this
          rw [this]
          exact hlen
        have e1 : tr ++ l ++ [Event.clock_gettime,
            Event.pipe_server_write (main_loop_pass env g st tr).1.data] ++ X
            = tr ++ (l ++ ([Event.clock_gettime] ++
                ([Event.pipe_server_write (main_loop_pass env g st tr).1.data] ++ X))) := by
          simp
        have e3 : batches ([Event.clock_gettime] ++
            ([Event.pipe_server_write (main_loop_pass env g st tr).1.data] ++ X))
            = (main_loop_pass env g st tr).1.data :: batches X := by
          simp [batches]
        rw [h, e1, List.drop_left, batches_append, batches_quiet l hq, List.nil_append, e3] at hb
        rcases List.mem_cons.mp hb with rfl | hb
        · exact hs
        · rw [ih' hlen2 b hb, hs]

/-- C22: with at most `MAX_SENSORS` enabled sensors, every batch `main` writes has one entry
per enabled sensor, in the configured order, and apart from `timestamp_ns`, `sample_id` and
`distance_m` each entry is the record filled before the loop: entry `i` carries the
`sensor_id`, `uncertainty_m`, `fov_deg`, `range_max_m`, `location_wrt_body`,
`direction_wrt_body` and `type` of `enabled_sensors[i]`. -/
theorem C22_static_metadata_unchanged (env : Env) (g : Globals) (fuel : Nat)
    (hmax : g.enabled_sensors.length ≤ MAX_SENSORS) :
    ∀ b ∈ batches (main env g fuel).2,
      b.length = g.enabled_sensors.length ∧
      b.map rangefinder_data_t.static = g.enabled_sensors.map (prefill g) ∧
      ∀ (i : Nat) (d : rangefinder_data_t), b[i]? = some d →
        ∃ s, g.enabled_sensors[i]? = some s ∧
          d.sensor_id = s.sensor_id ∧ d.uncertainty_m = s.uncertainty_m ∧
          d.fov_deg = s.fov_deg ∧ d.range_max_m = s.range_max_m ∧
          d.location_wrt_body = s.location_wrt_body ∧
          d.direction_wrt_body = s.direction_wrt_body ∧ d.type = s.type ∧
          d.magic_number = g.RANGEFINDER_MAGIC_NUMBER ∧ d.reserved = 0 := by
  intro b hb
  have hs : b.map rangefinder_data_t.static = g.enabled_sensors.map (prefill g) := by
    rcases main_batches env g fuel with h | ⟨T0, lt, h⟩
    · rw [h] at hb
      simp at hb
    · rw [h] at hb
      have := main_loop_static env g fuel (loop_entry_state g lt) T0
        (by simpa [loop_entry_state] using hmax) b hb
      rw [this]
      simp only [loop_entry_state, List.map_map]
      rfl
  refine ⟨by simpa using congrArg List.length hs, hs, ?_⟩
  intro i d hd
  have h1 : (b.map rangefinder_data_t.static)[i]? = some d.static := by
    rw [List.getElem?_map, hd]
    rfl
  rw [hs, List.getElem?_map] at h1
  cases hsi : g.enabled_sensors[i]? with
  | none => rw [hsi] at h1; simp at h1
  | some s =>
    rw [hsi] at h1
    simp only [Option.map_some', Option.some.injEq] at h1
    refine ⟨s, rfl, ?_, ?_, ?_, ?_, ?_, ?_, ?_, ?_, ?_⟩
    · exact (congrArg rangefinder_data_t.sensor_id h1).symm
    · exact (congrArg rangefinder_data_t.uncertainty_m h1).symm
    · exact (congrArg rangefinder_data_t.fov_deg h1).symm
    · exact (congrArg rangefinder_data_t.range_max_m h1).symm
    · exact (congrArg rangefinder_data_t.location_wrt_body h1).symm
    · exact (congrArg rangefinder_data_t.direction_wrt_body h1).symm
    · exact (congrArg rangefinder_data_t.type h1).symm
    · exact (congrArg rangefinder_data_t.magic_number h1).symm
    · exact (congrArg rangefinder_data_t.reserved h1).symm

set_option maxRecDepth 20000 in
theorem C22_static_metadata_witness :
    (globals_muxed [sensor_on_port 0 27] 1).enabled_sensors.length ≤ MAX_SENSORS ∧
    (batches (main env_one_sensor_run (globals_muxed [sensor_on_port 0 27] 1) 2).2).map
        (List.map rangefinder_data_t.sample_id) = [[1], [2]] ∧
    ∀ b ∈ batches (main env_one_sensor_run (globals_muxed [sensor_on_port 0 27] 1) 2).2,
      b.map rangefinder_data_t.static
        = (globals_muxed [sensor_on_port 0 27] 1).enabled_sensors.map
            (prefill (globals_muxed [sensor_on_port 0 27] 1)) :=
  ⟨by decide, by with_unfolding_all decide,
   fun b hb => (C22_static_metadata_unchanged env_one_sensor_run
     (globals_muxed [sensor_on_port 0 27] 1) 2 (by decide) b hb).2.1⟩

/-! ## A run that does not end -/

/-- C23: each of the three read functions, in both drivers, calls the transport once and
returns 0 exactly when the transport reports the requested number of bytes (`n`, 1 and 2);
for every other reported count it returns -1. -/
theorem C23_short_read_is_an_error (env : Env) (reg n d : Nat) (tr : Trace) :
    ((vl53l1x_read_reg_bytes env reg n tr).2
        = tr ++ [Event.reg16_read_bytes (_reverse_lsb_msb_16 reg) n] ∧
      ((vl53l1x_read_reg_bytes env reg n tr).1.1 = 0 ↔ (env.reply tr.length).ret = n) ∧
      ((env.reply tr.length).ret ≠ n → (vl53l1x_read_reg_bytes env reg n tr).1.1 = -1)) ∧
    ((vl53l1x_read_reg_byte env reg tr).2
        = tr ++ [Event.reg16_read_bytes (_reverse_lsb_msb_16 reg) 1] ∧
      ((vl53l1x_read_reg_byte env reg tr).1.1 = 0 ↔ (env.reply tr.length).ret = 1) ∧
      ((env.reply tr.length).ret ≠ 1 → (vl53l1x_read_reg_byte env reg tr).1.1 = -1)) ∧
    ((vl53l1x_read_reg_word env reg d tr).2
        = tr ++ [Event.reg16_read_bytes (_reverse_lsb_msb_16 reg) 2] ∧
      ((vl53l1x_read_reg_word env reg d tr).1.1 = 0 ↔ (env.reply tr.length).ret = 2) ∧
      ((env.reply tr.length).ret ≠ 2 → (vl53l1x_read_reg_word env reg d tr).1.1 = -1)) ∧
    ((sf20c_read_reg_bytes env reg n tr).2
        = tr ++ [Event.reg16_read_bytes (_reverse_lsb_msb_16 reg) n] ∧
      ((sf20c_read_reg_bytes env reg n tr).1.1 = 0 ↔ (env.reply tr.length).ret = n) ∧
      ((env.reply tr.length).ret ≠ n → (sf20c_read_reg_bytes env reg n tr).1.1 = -1)) ∧
    ((sf20c_read_reg_byte env reg tr).2
        = tr ++ [Event.reg16_read_bytes (_reverse_lsb_msb_16 reg) 1] ∧
      ((sf20c_read_reg_byte env reg tr).1.1 = 0 ↔ (env.reply tr.length).ret = 1) ∧
      ((env.reply tr.length).ret ≠ 1 → (sf20c_read_reg_byte env reg tr).1.1 = -1)) ∧
    ((sf20c_read_reg_word env reg d tr).2
        = tr ++ [Event.reg16_read_bytes (_reverse_lsb_msb_16 reg) 2] ∧
      ((sf20c_read_reg_word env reg d tr).1.1 = 0 ↔ (env.reply tr.length).ret = 2) ∧
      ((env.reply tr.length).ret ≠ 2 → (sf20c_read_reg_word env reg d tr).1.1 = -1)) := by
  refine ⟨⟨rfl, ?_, ?_⟩, ⟨rfl, ?_, ?_⟩, ⟨rfl, ?_, ?_⟩, ⟨rfl, ?_, ?_⟩, ⟨rfl, ?_, ?_⟩,
    ⟨rfl, ?_, ?_⟩⟩ <;>
  simp only [vl53l1x_read_reg_bytes, vl53l1x_read_reg_byte, vl53l1x_read_reg_word,
    sf20c_read_reg_bytes, sf20c_read_reg_byte, sf20c_read_reg_word,
    voxl_i2c_reg16_read_bytes] <;>
  split_ifs <;> simp_all

/-! ## The multiplexer -/

theorem bus_target_append_of_some (a : Int) :
    ∀ (tr l : Trace), bus_target l = some a → bus_target (tr ++ l) = some a := by
  intro tr
  induction tr with
  | nil => intro l h; exact h
  | cons e tr ih =>
    intro l h
    have := ih l h
    show (match bus_target (tr ++ l) with
      | some a => some a
      | none => e.address) = some a
    rw [this]

/-- C25: when the three bus calls are answered 0, `_set_multiplexer` returns 0 after exactly
three operations: address the multiplexer, send the channel bitmask, address `addr` (a
`uint8_t`); the bus is then set to `addr`. -/
theorem C25_set_multiplexer_sequence (env : Env) (g : Globals) (mux_ch addr : Int)
    (tr : Trace)
    (h0 : (env.reply tr.length).ret = 0)
    (h1 : (env.reply (tr.length + 1)).ret = 0)
    (h2 : (env.reply (tr.length + 2)).ret = 0) :
    _set_multiplexer env g mux_ch addr tr
      = (0, tr ++ [Event.set_device_address g.mux_address,
          Event.send_byte (mux_bitmask mux_ch), Event.set_device_address (addr % 256)]) ∧
    bus_target (_set_multiplexer env g mux_ch addr tr).2 = some (addr % 256) ∧
    (0 ≤ addr → addr < 256 → addr % 256 = addr) := by
  have e : _set_multiplexer env g mux_ch addr tr
      = (0, tr ++ [Event.set_device_address g.mux_address,
          Event.send_byte (mux_bitmask mux_ch), Event.set_device_address (addr % 256)]) := by
    unfold _set_multiplexer voxl_i2c_set_device_address voxl_i2c_send_byte
    simp [h0, h1, h2]
  refine ⟨e, ?_, fun ha hb => Int.emod_eq_of_lt ha hb⟩
  rw [e]
  exact bus_target_append_of_some _ _ _ rfl

theorem C25_set_multiplexer_witness :
    (env_all_zero.reply ([] : Trace).length).ret = 0 ∧
    (env_all_zero.reply (([] : Trace).length + 1)).ret = 0 ∧
    (env_all_zero.reply (([] : Trace).length + 2)).ret = 0 ∧
    _set_multiplexer env_all_zero (globals_muxed four_sensors 0) 2 0x29 []
      = (0, [] ++ [Event.set_device_address (globals_muxed four_sensors 0).mux_address,
          Event.send_byte (mux_bitmask 2), Event.set_device_address (0x29 % 256)]) :=
  ⟨by decide, by decide, by decide,
   (C25_set_multiplexer_sequence env_all_zero (globals_muxed four_sensors 0) 2 0x29 []
     (by decide) (by decide) (by decide)).1⟩

/-- C28: `_set_multiplexer` stops at the first bus call that fails.  If addressing the
multiplexer fails it returns -1 and no bitmask is sent; if sending the bitmask fails it
returns -1 without the third call, the bus still set to the multiplexer address.  The
sampling loop does not look at the result: after the select of a multiplexed sensor, failed or
not, `vl53l1x_wait_for_data` polls the status register, and after the select of all channels
the start write is issued. -/
theorem C28_set_multiplexer_partial_failure (env : Env) (g : Globals) (mux_ch addr : Int)
    (s : rangefinder_config_t) (tr : Trace) :
    ((env.reply tr.length).ret ≠ 0 →
      _set_multiplexer env g mux_ch addr tr
        = (-1, tr ++ [Event.set_device_address g.mux_address])) ∧
    ((env.reply tr.length).ret = 0 → (env.reply (tr.length + 1)).ret ≠ 0 →
      _set_multiplexer env g mux_ch addr tr
        = (-1, tr ++ [Event.set_device_address g.mux_address,
            Event.send_byte (mux_bitmask mux_ch)]) ∧
      bus_target (_set_multiplexer env g mux_ch addr tr).2 = some g.mux_address) ∧
    (s.is_on_mux ≠ 0 →
      main_select env g s tr
        = (_set_multiplexer env g s.i2c_mux_port s.i2c_mux_address tr).2 ∧
      ∃ rest, (vl53l1x_wait_for_data env (main_select env g s tr)).2
        = (_set_multiplexer env g s.i2c_mux_port s.i2c_mux_address tr).2 ++
            Event.reg16_read_bytes 0x3100 1 :: rest) ∧
    (g.n_mux_sensors > 0 →
      (main_start_muxed env g tr).2
        = (_set_multiplexer env g MUX_ALL VL53L1X_TOF_DEFAULT_ADDR tr).2 ++
            [Event.reg16_write_bytes 0x8700 [0x40]]) := by
  refine ⟨?_, ?_, ?_, ?_⟩
  · intro h0
    unfold _set_multiplexer voxl_i2c_set_device_address
    simp [h0]
  · intro h0 h1
    have e : _set_multiplexer env g mux_ch addr tr
        = (-1, tr ++ [Event.set_device_address g.mux_address,
            Event.send_byte (mux_bitmask mux_ch)]) := by
      unfold _set_multiplexer voxl_i2c_set_device_address voxl_i2c_send_byte
      simp [h0, h1]
    refine ⟨e, ?_⟩
    rw [e]
    exact bus_target_append_of_some _ _ _ rfl
  · intro hs
    have e : main_select env g s tr
        = (_set_multiplexer env g s.i2c_mux_port s.i2c_mux_address tr).2 := by
      simp [main_select, hs]
    refine ⟨e, ?_⟩
    rw [e]
    show ∃ rest, (vl53l1x_wait_loop env 100 _).2 = _
    rw [wait_loop_succ]
    split_ifs
    · exact ⟨[], rfl⟩
    · exact ⟨[], rfl⟩
    · obtain ⟨X, hX⟩ := wait_loop_extends env 99
        ((_set_multiplexer env g s.i2c_mux_port s.i2c_mux_address tr).2 ++
          [Event.reg16_read_bytes 0x3100 1, Event.usleep 5000])
      exact ⟨Event.usleep 5000 :: X, by rw [← hX]; simp⟩
  · intro hn
    unfold main_start_muxed
    rw [if_pos hn, start_ranging_eq]

set_option maxRecDepth 20000 in
/-- C24: a sensor on multiplexer port 0 with its own address `0x29` behind the multiplexer at
`0x70`.  The select of the read-back loop passes `i2c_mux_address` as the address to return
to, so its third operation sets the bus to `0x70` again, and the poll, the bulk read, the
clear and the stop of the visit follow with the bus set to the multiplexer; the select before
the start of ranging returns the bus to `0x29`. -/
theorem C24_read_back_select_leaves_bus_on_multiplexer :
    (sensor_on_port 0 27).i2c_address = VL53L1X_TOF_DEFAULT_ADDR ∧
    VL53L1X_TOF_DEFAULT_ADDR = 0x29 ∧
    (globals_muxed [sensor_on_port 0 27] 1).mux_address = 0x70 ∧
    main_select env_all_zero (globals_muxed [sensor_on_port 0 27] 1) (sensor_on_port 0 27) []
      = [Event.set_device_address 0x70, Event.send_byte 0x01, Event.set_device_address 0x70] ∧
    bus_target (main_select env_all_zero (globals_muxed [sensor_on_port 0 27] 1)
      (sensor_on_port 0 27) []) = some 0x70 ∧
    bus_target (_set_multiplexer env_all_zero (globals_muxed [sensor_on_port 0 27] 1) MUX_ALL
      VL53L1X_TOF_DEFAULT_ADDR []).2 = some 0x29 ∧
    (main_read_back env_two_rounds (globals_muxed [sensor_on_port 0 27] 1)
        (globals_muxed [sensor_on_port 0 27] 1).enabled_sensors 0 1
        (List.replicate MAX_SENSORS 0)
        (usleep ((globals_muxed [sensor_on_port 0 27] 1).TimingBudgetInMs * 1000)
          (main_start_ranging env_two_rounds (globals_muxed [sensor_on_port 0 27] 1)
            (pipe_server_get_num_clients env_two_rounds []).2).2)).2
      = [Event.pipe_server_get_num_clients,
         Event.set_device_address 0x70, Event.send_byte 0xFF, Event.set_device_address 0x29,
         Event.reg16_write_bytes 0x8700 [0x40], Event.usleep 33000,
         Event.set_device_address 0x70, Event.send_byte 0x01, Event.set_device_address 0x70,
         Event.reg16_read_bytes 0x3100 1, Event.reg16_read_bytes 0x8800 16,
         Event.reg16_write_bytes 0x8600 [0x01], Event.reg16_write_bytes 0x8700 [0x00]] ∧
    bus_target (main_read_back env_two_rounds (globals_muxed [sensor_on_port 0 27] 1)
        (globals_muxed [sensor_on_port 0 27] 1).enabled_sensors 0 1
        (List.replicate MAX_SENSORS 0)
        (usleep ((globals_muxed [sensor_on_port 0 27] 1).TimingBudgetInMs * 1000)
          (main_start_ranging env_two_rounds (globals_muxed [sensor_on_port 0 27] 1)
            (pipe_server_get_num_clients env_two_rounds []).2).2)).2 = some 0x70 := by
  refine ⟨by decide, by decide, by decide, by decide, by decide, by decide, by decide,
    by decide⟩

/-! ## The wire format of the register codec -/

theorem and_0xFF (x : Nat) : x &&& 0xFF = x % 256 := Nat.and_pow_two_sub_one_eq_mod x 8

theorem reverse_lsb_msb_16_eq (reg : Nat) (h : reg < 65536) :
    _reverse_lsb_msb_16 reg = (reg % 256) * 256 + reg / 256 := by
  have h1 : reg % 65536 = reg := Nat.mod_eq_of_lt h
  have h4 : (reg % 256) <<< 8 = 2 ^ 8 * (reg % 256) := by rw [Nat.shiftLeft_eq, Nat.mul_comm]
  unfold _reverse_lsb_msb_16
  rw [h1, Nat.shiftRight_eq_div_pow, and_0xFF, h4, Nat.or_comm,
    ← Nat.mul_add_lt_is_or (by omega)]
  omega

theorem reverse_lsb_msb_16_swap (reg : Nat) (h : reg < 65536) :
    _reverse_lsb_msb_16 reg = ((reg &&& 0xFF) <<< 8) ||| (reg >>> 8) := by
  have h1 : reg % 65536 = reg := Nat.mod_eq_of_lt h
  unfold _reverse_lsb_msb_16
  rw [h1, Nat.or_comm]

/-- C26: for a 16-bit register address the three write functions hand the transport the
address with its two bytes swapped and a payload of 1, 2 or 4 bytes, most significant byte
first; `read_reg_word` given the two bytes that `write_reg_word` sends for a 16-bit value
returns that value; the two drivers encode alike. -/
theorem C26_wire_format (env : Env) (reg b w d : Nat) (tr : Trace)
    (hreg : reg < 65536) (hb : b < 256) (hw : w < 65536) (hd : d < 4294967296) :
    _reverse_lsb_msb_16 reg = (((reg &&& 0xFF) <<< 8) ||| (reg >>> 8)) ∧
    _reverse_lsb_msb_16 reg = (reg % 256) * 256 + reg / 256 ∧
    vl53l1x_write_reg_byte env reg b tr
      = ((env.reply tr.length).ret,
          tr ++ [Event.reg16_write_bytes (_reverse_lsb_msb_16 reg) [b]]) ∧
    vl53l1x_write_reg_word env reg w tr
      = ((env.reply tr.length).ret,
          tr ++ [Event.reg16_write_bytes (_reverse_lsb_msb_16 reg) [w / 256, w % 256]]) ∧
    vl53l1x_write_reg_int env reg d tr
      = ((env.reply tr.length).ret,
          tr ++ [Event.reg16_write_bytes (_reverse_lsb_msb_16 reg)
            [d / 16777216, d / 65536 % 256, d / 256 % 256, d % 256]]) ∧
    (w / 256 < 256 ∧ (w / 256) * 256 + w % 256 = w) ∧
    (d / 16777216 < 256 ∧
      (d / 16777216) * 16777216 + (d / 65536 % 256) * 65536 + (d / 256 % 256) * 256 + d % 256
        = d) ∧
    (∀ (env2 : Env) (tr2 : Trace) (old : Nat),
      (env2.reply tr2.length).ret = 2 → (env2.reply tr2.length).data = [w / 256, w % 256] →
      (vl53l1x_read_reg_word env2 reg old tr2).1 = (0, w) ∧
      (sf20c_read_reg_word env2 reg old tr2).1 = (0, w)) ∧
    sf20c_write_reg_byte env reg b tr = vl53l1x_write_reg_byte env reg b tr ∧
    sf20c_write_reg_word env reg w tr = vl53l1x_write_reg_word env reg w tr ∧
    sf20c_write_reg_int env reg d tr = vl53l1x_write_reg_int env reg d tr := by
  refine ⟨reverse_lsb_msb_16_swap reg hreg, reverse_lsb_msb_16_eq reg hreg, ?_, ?_, ?_,
    ⟨by omega, by omega⟩, ⟨by omega, by omega⟩, ?_, rfl, rfl, rfl⟩
  · simp only [vl53l1x_write_reg_byte, voxl_i2c_reg16_write_bytes, Nat.mod_eq_of_lt hb]
  · have e1 : (w % 65536) >>> 8 % 256 = w / 256 := by
      rw [Nat.shiftRight_eq_div_pow]; omega
    have e2 : (w % 65536) &&& 0x00FF = w % 256 := by
      rw [and_0xFF]; omega
    simp only [vl53l1x_write_reg_word, voxl_i2c_reg16_write_bytes, e1, e2]
  · have e0 : d % 4294967296 = d := Nat.mod_eq_of_lt hd
    have e1 : (d >>> 24) &&& 0xFF = d / 16777216 := by
      rw [and_0xFF, Nat.shiftRight_eq_div_pow]; omega
    have e2 : (d >>> 16) &&& 0xFF = d / 65536 % 256 := by
      rw [and_0xFF, Nat.shiftRight_eq_div_pow]
    have e3 : (d >>> 8) &&& 0xFF = d / 256 % 256 := by
      rw [and_0xFF, Nat.shiftRight_eq_div_pow]
    have e4 : (d >>> 0) &&& 0xFF = d % 256 := by
      rw [and_0xFF, Nat.shiftRight_eq_div_pow]; simp
    simp only [vl53l1x_write_reg_int, voxl_i2c_reg16_write_bytes, e0, e1, e2, e3, e4]
  · intro env2 tr2 old hret hdata
    have hv : ((byteAt [w / 256, w % 256] 0 <<< 8) + byteAt [w / 256, w % 256] 1) % 65536
        = w := by
      have b0 : byteAt [w / 256, w % 256] 0 = w / 256 := by
        simp only [byteAt, List.getD_cons_zero]; omega
      have b1 : byteAt [w / 256, w % 256] 1 = w % 256 := by
        simp only [byteAt, List.getD_cons_succ, List.getD_cons_zero]; omega
      rw [b0, b1, Nat.shiftLeft_eq]
      omega
    simp only [vl53l1x_read_reg_word, sf20c_read_reg_word, voxl_i2c_reg16_read_bytes, hret,
      hdata, ne_eq, not_true_eq_false, if_false, hv, and_self]

theorem C26_wire_format_witness :
    (0x010F : Nat) < 65536 ∧ (0x40 : Nat) < 256 ∧ (0x0F0D : Nat) < 65536 ∧
    (38700 : Nat) < 4294967296 ∧
    _reverse_lsb_msb_16 0x010F = 0x0F01 ∧
    vl53l1x_write_reg_word env_all_zero 0x010F 0x0F0D []
      = ((env_all_zero.reply ([] : Trace).length).ret,
          [] ++ [Event.reg16_write_bytes (_reverse_lsb_msb_16 0x010F)
            [0x0F0D / 256, 0x0F0D % 256]]) :=
  ⟨by decide, by decide, by decide, by decide, by decide,
   (C26_wire_format env_all_zero 0x010F 0x40 0x0F0D 38700 [] (by decide) (by decide)
     (by decide) (by decide)).2.2.2.1⟩

/-! ## A round in which a sensor times out -/

theorem decoded_readings_append (env : Env) :
    ∀ (a done b : Trace),
      decoded_readings env done (a ++ b)
        = decoded_readings env done a ++ decoded_readings env (done ++ a) b := by
  intro a
  induction a with
  | nil => intro done b; simp [decoded_readings]
  | cons e a ih =>
    intro done b
    have := ih (done ++ [e]) b
    simp only [List.append_assoc, List.singleton_append] at this
    simp only [List.cons_append, decoded_readings]
    split_ifs <;> simp [this]

theorem decoded_readings_none (env : Env) :
    ∀ (l done : Trace), bulk_read ∉ l → decoded_readings env done l = [] := by
  intro l
  induction l with
  | nil => intro done _; rfl
  | cons e l ih =>
    intro done h
    simp only [List.mem_cons, not_or] at h
    have he : ¬ e = bulk_read := fun h' => h.1 h'.symm
    simp only [decoded_readings, if_neg he]
    exact ih _ h.2

/-- The read-back loop over `pre ++ rest` continues over `rest` from where the loop over
`pre` ends, when no wait of `pre` failed. -/
theorem main_read_back_append (env : Env) (g : Globals) (rest : List rangefinder_config_t)
    (run : Int) :
    ∀ (pre : List rangefinder_config_t) (i : Nat) (dm : List Int) (T : Trace),
      (main_read_back env g pre i run dm T).1.1 ≠ 0 →
      main_read_back env g (pre ++ rest) i run dm T
        = main_read_back env g rest (i + pre.length) run
            (main_read_back env g pre i run dm T).1.2
            (main_read_back env g pre i run dm T).2 := by
  intro pre
  induction pre with
  | nil => intro i dm T _; rfl
  | cons s pre ih =>
    intro i dm T h
    rw [main_read_back_cons] at h
    rw [List.cons_append, main_read_back_cons, main_read_back_cons]
    by_cases hw : (vl53l1x_wait_for_data env (main_select env g s T)).1 ≠ 0
    · rw [if_pos hw] at h
      exact absurd rfl h
    · rw [if_neg hw] at h
      rw [if_neg hw, if_neg hw, ih _ _ _ h]
      have e : i + 1 + pre.length = i + (s :: pre).length := by
        simp only [List.length_cons]; omega
      rw [e]

/-- The readings decoded in a visit and after it: the select and the polls decode nothing,
the bulk read decodes one value, the clear and the stop nothing. -/
theorem decoded_readings_visit (env : Env) (T lw Y : Trace) (h : bulk_read ∉ lw) :
    decoded_readings env T (lw ++ [bulk_read, Event.reg16_write_bytes 0x8600 [0x01],
        Event.reg16_write_bytes 0x8700 [0x00]] ++ Y)
      = (vl53l1x_get_distance_mm env (T ++ lw)).1.dist_mm ::
          decoded_readings env (T ++ lw ++ [bulk_read, Event.reg16_write_bytes 0x8600 [0x01],
            Event.reg16_write_bytes 0x8700 [0x00]]) Y := by
  rw [List.append_assoc, decoded_readings_append, decoded_readings_none env lw T h,
    List.nil_append, decoded_readings_append]
  have e1 : decoded_readings env (T ++ lw) [bulk_read, Event.reg16_write_bytes 0x8600 [0x01],
      Event.reg16_write_bytes 0x8700 [0x00]]
      = [(vl53l1x_get_distance_mm env (T ++ lw)).1.dist_mm] := by
    have n1 : ¬ Event.reg16_write_bytes 0x8600 [0x01] = bulk_read := by decide
    have n2 : ¬ Event.reg16_write_bytes 0x8700 [0x00] = bulk_read := by decide
    simp only [decoded_readings, if_true, if_neg n1, if_neg n2]
  rw [e1]
  rfl

/-- When no wait of the read-back loop failed, every sensor was read once: the readings
decoded fill `dist_mm` from index `i` on, and the entries after them are untouched. -/
theorem main_read_back_done (env : Env) (g : Globals) (run : Int) :
    ∀ (pre : List rangefinder_config_t) (i : Nat) (dm : List Int) (T : Trace),
      (main_read_back env g pre i run dm T).1.1 ≠ 0 → i + pre.length ≤ dm.length →
      (decoded_readings env T ((main_read_back env g pre i run dm T).2.drop T.length)).length
        = pre.length ∧
      (∀ (k : Nat) (m : Int),
        (decoded_readings env T ((main_read_back env g pre i run dm T).2.drop T.length))[k]?
          = some m →
        (main_read_back env g pre i run dm T).1.2[i + k]? = some m) ∧
      (∀ x, i + pre.length ≤ x → (main_read_back env g pre i run dm T).1.2[x]? = dm[x]?) := by
  intro pre
  induction pre with
  | nil =>
    intro i dm T _ _
    simp [main_read_back, decoded_readings]
  | cons s pre ih =>
    intro i dm T h hlen
    rw [main_read_back_cons] at h ⊢
    by_cases hw : (vl53l1x_wait_for_data env (main_select env g s T)).1 ≠ 0
    · rw [if_pos hw] at h
      exact absurd rfl h
    · rw [if_neg hw] at h ⊢
      obtain ⟨lw, hlw, hnb⟩ := select_wait_events env g s T
      simp only [hlw] at h ⊢
      simp only [List.length_cons] at hlen
      have hkeep := main_read_back_keeps env g run pre (i + 1)
        (dm.set i (vl53l1x_get_distance_mm env (T ++ lw)).1.dist_mm)
        (T ++ lw ++ [bulk_read, Event.reg16_write_bytes 0x8600 [0x01],
           Event.reg16_write_bytes 0x8700 [0x00]]) i (by omega)
      obtain ⟨ih1, ih2, ih3⟩ := ih (i + 1)
        (dm.set i (vl53l1x_get_distance_mm env (T ++ lw)).1.dist_mm)
        (T ++ lw ++ [bulk_read, Event.reg16_write_bytes 0x8600 [0x01],
           Event.reg16_write_bytes 0x8700 [0x00]]) h (by simp; omega)
      obtain ⟨Y, hY⟩ := main_read_back_extends env g pre (i + 1) run
        (dm.set i (vl53l1x_get_distance_mm env (T ++ lw)).1.dist_mm)
        (T ++ lw ++ [bulk_read, Event.reg16_write_bytes 0x8600 [0x01],
           Event.reg16_write_bytes 0x8700 [0x00]])
      generalize main_read_back env g pre (i + 1) run
        (dm.set i (vl53l1x_get_distance_mm env (T ++ lw)).1.dist_mm)
        (T ++ lw ++ [bulk_read, Event.reg16_write_bytes 0x8600 [0x01],
           Event.reg16_write_bytes 0x8700 [0x00]]) = R at hkeep ih1 ih2 ih3 hY ⊢
      rw [← hY, List.drop_left] at ih1 ih2
      have hdrop : R.2.drop T.length
          = lw ++ [bulk_read, Event.reg16_write_bytes 0x8600 [0x01],
              Event.reg16_write_bytes 0x8700 [0x00]] ++ Y := by
        rw [← hY]
        simp
      rw [hdrop, decoded_readings_visit env T lw Y hnb]
      refine ⟨by simp only [List.length_cons, ih1], ?_, ?_⟩
      · intro k m hk
        cases k with
        | zero =>
          simp only [List.getElem?_cons_zero, Option.some.injEq] at hk
          rw [Nat.add_zero, hkeep, ← hk]
          exact List.getElem?_set_self (by omega)
        | succ k =>
          simp only [List.getElem?_cons_succ] at hk
          have := ih2 k m hk
          rw [show i + (k + 1) = i + 1 + k by omega]
          exact this
      · intro x hx
        simp only [List.length_cons] at hx
        rw [ih3 x (by omega)]
        exact List.getElem?_set_ne (by omega)

theorem main_loop_stopped (env : Env) (g : Globals) (fuel : Nat) (st : MainState) (tr : Trace)
    (h : st.main_running = 0) : main_loop env g fuel st tr = (st, tr) := by
  cases fuel with
  | zero => rfl
  | succ n =>
    rw [main_loop, if_pos (Or.inl h)]
    obtain ⟨a, b, c, d⟩ := st
    simp only at h
    rw [h]

/-- C27: a pass in which the sensors `pre` are read and the wait for the next sensor `s`
fails (`enabled_sensors = pre ++ s :: post`, `j = pre.length`).  The pass turns
`main_running` off and still ends by reading the clock and writing the batch; the batch has
one entry per sensor; entry `i < j` carries the reading decoded at the `i`-th bulk read of
the pass, entry `j` and every later entry carry `distance_m = 0`; the loop then stops without
another operation. -/
theorem C27_timeout_round_writes_zero_distances (env : Env) (g : Globals) (st : MainState)
    (tr : Trace) (pre post : List rangefinder_config_t) (s : rangefinder_config_t)
    (hsplit : g.enabled_sensors = pre ++ s :: post)
    (hmax : g.enabled_sensors.length ≤ MAX_SENSORS)
    (hdata : st.data.length = g.enabled_sensors.length)
    (hclient : ¬ ((pipe_server_get_num_clients env tr).1 = 0 ∧ g.en_debug = 0))
    (hstart : (main_start_ranging env g (pipe_server_get_num_clients env tr).2).1 = 0)
    (hpre : (main_read_back env g pre 0 st.main_running (List.replicate MAX_SENSORS 0)
      (read_back_start env g tr)).1.1 ≠ 0)
    (hfail : (vl53l1x_wait_for_data env (main_select env g s
      (main_read_back env g pre 0 st.main_running (List.replicate MAX_SENSORS 0)
        (read_back_start env g tr)).2)).1 ≠ 0) :
    (main_loop_pass env g st tr).1.main_running = 0 ∧
    (main_loop_pass env g st tr).2
      = (vl53l1x_wait_for_data env (main_select env g s
          (main_read_back env g pre 0 st.main_running (List.replicate MAX_SENSORS 0)
            (read_back_start env g tr)).2)).2 ++
        [Event.clock_gettime, Event.pipe_server_write (main_loop_pass env g st tr).1.data] ∧
    (main_loop_pass env g st tr).1.data.length = g.enabled_sensors.length ∧
    (decoded_readings env (read_back_start env g tr)
      ((main_read_back env g pre 0 st.main_running (List.replicate MAX_SENSORS 0)
        (read_back_start env g tr)).2.drop (read_back_start env g tr).length)).length
      = pre.length ∧
    (∀ (i : Nat) (d : rangefinder_data_t), (main_loop_pass env g st tr).1.data[i]? = some d →
      i < pre.length →
      ∃ m : Int, (decoded_readings env (read_back_start env g tr)
          ((main_read_back env g pre 0 st.main_running (List.replicate MAX_SENSORS 0)
            (read_back_start env g tr)).2.drop (read_back_start env g tr).length))[i]? = some m ∧
        d.distance_m = (m : ℚ) / 1000) ∧
    (∀ (i : Nat) (d : rangefinder_data_t), (main_loop_pass env g st tr).1.data[i]? = some d →
      pre.length ≤ i → d.distance_m = 0) ∧
    (∀ fuel, main_loop env g fuel (main_loop_pass env g st tr).1 (main_loop_pass env g st tr).2
      = ((main_loop_pass env g st tr).1, (main_loop_pass env g st tr).2)) := by
  have hn : pre.length + (post.length + 1) ≤ MAX_SENSORS := by
    have := hmax
    rw [hsplit] at this
    simpa using this
  have hp : main_loop_pass env g st tr
      = main_publish env st (main_read_back env g g.enabled_sensors 0 st.main_running
          (List.replicate MAX_SENSORS 0) (read_back_start env g tr)) := by
    unfold main_loop_pass
    simp only
    rw [if_neg hclient, if_neg (not_not.mpr hstart)]
    rfl
  have hr : main_read_back env g g.enabled_sensors 0 st.main_running
      (List.replicate MAX_SENSORS 0) (read_back_start env g tr)
      = ((0, (main_read_back env g pre 0 st.main_running (List.replicate MAX_SENSORS 0)
            (read_back_start env g tr)).1.2),
          (vl53l1x_wait_for_data env (main_select env g s
            (main_read_back env g pre 0 st.main_running (List.replicate MAX_SENSORS 0)
              (read_back_start env g tr)).2)).2) := by
    rw [hsplit, main_read_back_append env g (s :: post) st.main_running pre 0 _ _ hpre,
      main_read_back_cons, if_pos hfail]
  obtain ⟨d1, d2, d3⟩ := main_read_back_done env g st.main_running pre 0
    (List.replicate MAX_SENSORS 0) (read_back_start env g tr) hpre
    (by simp only [List.length_replicate]; omega)
  have hlenR : (main_read_back env g pre 0 st.main_running (List.replicate MAX_SENSORS 0)
      (read_back_start env g tr)).1.2.length = MAX_SENSORS := by
    rw [main_read_back_length]
    simp
  have hrun : (main_loop_pass env g st tr).1.main_running = 0 := by
    rw [hp, main_publish_running, hr]
  have hd : (main_loop_pass env g st tr).1.data
      = populate st.data (main_read_back env g pre 0 st.main_running
          (List.replicate MAX_SENSORS 0) (read_back_start env g tr)).1.2
          ((_apps_time_monotonic_ns env (main_read_back env g g.enabled_sensors 0
              st.main_running (List.replicate MAX_SENSORS 0) (read_back_start env g tr)).2).1
            - Int.tdiv ((_apps_time_monotonic_ns env (main_read_back env g g.enabled_sensors 0
              st.main_running (List.replicate MAX_SENSORS 0)
              (read_back_start env g tr)).2).1 - st.last_time_ns) 2)
          (to_int32 (st.sample_id + 1)) := by
    rw [hp, main_publish_data]
    congr 1
    rw [hr]
  have hentry : ∀ (i : Nat) (d : rangefinder_data_t),
      (main_loop_pass env g st tr).1.data[i]? = some d →
      ∃ m : Int, (main_read_back env g pre 0 st.main_running (List.replicate MAX_SENSORS 0)
        (read_back_start env g tr)).1.2[i]? = some m ∧ d.distance_m = (m : ℚ) / 1000 := by
    intro i d hi
    rw [hd] at hi
    unfold populate at hi
    rw [List.getElem?_zipWith] at hi
    cases h1 : st.data[i]? with
    | none => rw [h1] at hi; simp at hi
    | some d0 =>
      cases h2 : (main_read_back env g pre 0 st.main_running (List.replicate MAX_SENSORS 0)
          (read_back_start env g tr)).1.2[i]? with
      | none => rw [h1, h2] at hi; simp at hi
      | some m =>
        rw [h1, h2] at hi
        simp only [Option.some.injEq] at hi
        exact ⟨m, rfl, by rw [← hi]⟩
  refine ⟨hrun, ?_, ?_, d1, ?_, ?_, ?_⟩
  · rw [hp, main_publish_trace, hr]
  · rw [hd, populate_length, hlenR, hdata]
    exact Nat.min_eq_left hmax
  · intro i d hi hlt
    obtain ⟨m, hm, hdm⟩ := hentry i d hi
    have hex : ∃ m', (decoded_readings env (read_back_start env g tr)
        ((main_read_back env g pre 0 st.main_running (List.replicate MAX_SENSORS 0)
          (read_back_start env g tr)).2.drop (read_back_start env g tr).length))[i]?
        = some m' := by
      have hlt' : i < (decoded_readings env (read_back_start env g tr)
          ((main_read_back env g pre 0 st.main_running (List.replicate MAX_SENSORS 0)
            (read_back_start env g tr)).2.drop (read_back_start env g tr).length)).length := by
        rw [d1]; exact hlt
      exact ⟨_, List.getElem?_eq_getElem hlt'⟩
    obtain ⟨m', hm'⟩ := hex
    have := d2 i m' hm'
    rw [Nat.zero_add, hm] at this
    exact ⟨m', hm', by rw [hdm, Option.some.inj this]⟩
  · intro i d hi hge
    obtain ⟨m, hm, hdm⟩ := hentry i d hi
    rw [d3 i (by omega)] at hm
    have hm0 : m = 0 := by
      have hmem := List.getElem?_mem hm
      exact List.eq_of_mem_replicate hmem
    rw [hdm, hm0]
    simp
  · intro fuel
    exact main_loop_stopped env g fuel _ _ hrun

set_option maxRecDepth 20000 in
theorem C27_timeout_round_witness :
    (globals_muxed two_sensors 1).enabled_sensors
      = [sensor_on_port 0 27] ++ sensor_on_port 1 27 :: [] ∧
    (globals_muxed two_sensors 1).enabled_sensors.length ≤ MAX_SENSORS ∧
    (initial_state (globals_muxed two_sensors 1)).data.length
      = (globals_muxed two_sensors 1).enabled_sensors.length ∧
    ¬ ((pipe_server_get_num_clients env_second_sensor_times_out []).1 = 0 ∧
        (globals_muxed two_sensors 1).en_debug = 0) ∧
    (main_start_ranging env_second_sensor_times_out (globals_muxed two_sensors 1)
      (pipe_server_get_num_clients env_second_sensor_times_out []).2).1 = 0 ∧
    (main_read_back env_second_sensor_times_out (globals_muxed two_sensors 1)
      [sensor_on_port 0 27] 0 (initial_state (globals_muxed two_sensors 1)).main_running
      (List.replicate MAX_SENSORS 0)
      (read_back_start env_second_sensor_times_out (globals_muxed two_sensors 1) [])).1.1 ≠ 0 ∧
    (vl53l1x_wait_for_data env_second_sensor_times_out
      (main_select env_second_sensor_times_out (globals_muxed two_sensors 1)
        (sensor_on_port 1 27)
        (main_read_back env_second_sensor_times_out (globals_muxed two_sensors 1)
          [sensor_on_port 0 27] 0 (initial_state (globals_muxed two_sensors 1)).main_running
          (List.replicate MAX_SENSORS 0)
          (read_back_start env_second_sensor_times_out
            (globals_muxed two_sensors 1) [])).2)).1 ≠ 0 ∧
    (main_loop_pass env_second_sensor_times_out (globals_muxed two_sensors 1)
      (initial_state (globals_muxed two_sensors 1)) []).1.main_running = 0 ∧
    (main_loop_pass env_second_sensor_times_out (globals_muxed two_sensors 1)
      (initial_state (globals_muxed two_sensors 1)) []).1.data.length
      = (globals_muxed two_sensors 1).enabled_sensors.length ∧
    (main_loop_pass env_second_sensor_times_out (globals_muxed two_sensors 1)
      (initial_state (globals_muxed two_sensors 1)) []).1.data.map
        rangefinder_data_t.distance_m = [1, 0] := by
  have h := C27_timeout_round_writes_zero_distances env_second_sensor_times_out
    (globals_muxed two_sensors 1) (initial_state (globals_muxed two_sensors 1)) []
    [sensor_on_port 0 27] [] (sensor_on_port 1 27) rfl (by decide) (by decide)
    (by decide) (by decide) (by decide) (by decide)
  exact ⟨rfl, by decide, by decide, by decide, by decide, by decide, by decide,
    h.1, h.2.2.1, by with_unfolding_all decide⟩

/-! ## The two decoders side by side -/

theorem vl53l1x_get_distance_mm_eq (env : Env) (tr : Trace) :
    (vl53l1x_get_distance_mm env tr).1
      = if (env.reply tr.length).ret ≠ 16 then { ret := -1, dist_mm := -1, sd := -1 }
        else if vl53l1x_status (env.reply tr.length).data ≠ 0 ∧
            vl53l1x_status (env.reply tr.length).data ≠ 2 then
          { ret := 0, dist_mm := -1, sd := -1 }
        else if signal (env.reply tr.length).data < 2 then
          { ret := 0, dist_mm := -1, sd := -1 }
        else { ret := 0, dist_mm := dist_mm_raw (env.reply tr.length).data,
               sd := sigma_mm (env.reply tr.length).data } := by
  simp only [vl53l1x_get_distance_mm, vl53l1x_read_reg_bytes, voxl_i2c_reg16_read_bytes,
    n_bytes, VL53L1X_LOWEST_ACCEPTABLE_SIGNAL, Nat.cast_ofNat]
  split_ifs <;> simp_all

theorem sf20c_get_distance_mm_eq (env : Env) (tr : Trace) :
    (sf20c_get_distance_mm env tr).1
      = if (env.reply tr.length).ret ≠ 16 then { ret := -1, dist_mm := -1000, sd := -1 }
        else if vl53l1x_status (env.reply tr.length).data ≠ 0 ∧
            vl53l1x_status (env.reply tr.length).data ≠ 2 then
          { ret := 0, dist_mm := -1000, sd := -1 }
        else if dist_mm_raw (env.reply tr.length).data > 8000 then
          { ret := 0, dist_mm := -1000, sd := -1 }
        else if signal (env.reply tr.length).data < 2 then
          { ret := 0, dist_mm := -1000, sd := -1 }
        else { ret := 0, dist_mm := dist_mm_raw (env.reply tr.length).data,
               sd := sigma_mm (env.reply tr.length).data } := by
  have hs : sf20c_status (env.reply tr.length).data
      = vl53l1x_status (env.reply tr.length).data := rfl
  simp only [sf20c_get_distance_mm, sf20c_read_reg_bytes, voxl_i2c_reg16_read_bytes,
    n_bytes, VL53L1X_LOWEST_ACCEPTABLE_SIGNAL, Nat.cast_ofNat, hs]
  split_ifs <;> simp_all

/-- C29: whenever `sf20c_get_distance_mm` accepts a block, `vl53l1x_get_distance_mm` accepts
it with the same `dist_mm` and `sd`; for a block whose raw range is at most 8000 the two
return the same value, agree on acceptance and on the accepted values, and on rejection
differ only in the sentinel (-1000 against -1, `sd = -1` in both); both issue the same bulk
read. -/
theorem C29_decoders_refine (env : Env) (tr : Trace) :
    ((sf20c_get_distance_mm env tr).1.accepted = true →
      (vl53l1x_get_distance_mm env tr).1.accepted = true ∧
      (vl53l1x_get_distance_mm env tr).1.dist_mm = (sf20c_get_distance_mm env tr).1.dist_mm ∧
      (vl53l1x_get_distance_mm env tr).1.sd = (sf20c_get_distance_mm env tr).1.sd) ∧
    (dist_mm_raw (env.reply tr.length).data ≤ 8000 →
      (sf20c_get_distance_mm env tr).1.ret = (vl53l1x_get_distance_mm env tr).1.ret ∧
      (sf20c_get_distance_mm env tr).1.accepted = (vl53l1x_get_distance_mm env tr).1.accepted ∧
      ((vl53l1x_get_distance_mm env tr).1.accepted = true →
        (sf20c_get_distance_mm env tr).1 = (vl53l1x_get_distance_mm env tr).1) ∧
      ((vl53l1x_get_distance_mm env tr).1.accepted = false →
        (sf20c_get_distance_mm env tr).1.dist_mm = -1000 ∧
        (sf20c_get_distance_mm env tr).1.sd = -1 ∧
        (vl53l1x_get_distance_mm env tr).1.dist_mm = -1 ∧
        (vl53l1x_get_distance_mm env tr).1.sd = -1)) ∧
    ((vl53l1x_get_distance_mm env tr).1.accepted = true ↔
      (env.reply tr.length).ret = 16 ∧
      (vl53l1x_status (env.reply tr.length).data = 0 ∨
        vl53l1x_status (env.reply tr.length).data = 2) ∧
      2 ≤ signal (env.reply tr.length).data) ∧
    ((sf20c_get_distance_mm env tr).1.accepted = true ↔
      (env.reply tr.length).ret = 16 ∧
      (sf20c_status (env.reply tr.length).data = 0 ∨
        sf20c_status (env.reply tr.length).data = 2) ∧
      dist_mm_raw (env.reply tr.length).data ≤ 8000 ∧
      2 ≤ signal (env.reply tr.length).data) ∧
    (sf20c_get_distance_mm env tr).2 = (vl53l1x_get_distance_mm env tr).2 := by
  have hs : sf20c_status (env.reply tr.length).data
      = vl53l1x_status (env.reply tr.length).data := rfl
  have hd : (0 : Int) ≤ (dist_mm_raw (env.reply tr.length).data : Int) := Int.natCast_nonneg _
  rw [vl53l1x_get_distance_mm_eq, sf20c_get_distance_mm_eq, hs]
  refine ⟨?_, ?_, ?_, ?_, rfl⟩
  · split_ifs <;> simp_all [Measurement.accepted]
  · intro h8
    have h8' : ¬ dist_mm_raw (env.reply tr.length).data > 8000 := by omega
    simp only [h8', if_false]
    split_ifs <;> simp_all [Measurement.accepted]
  · split_ifs <;> simp_all [Measurement.accepted]
    omega
  · split_ifs <;> simp_all [Measurement.accepted]
    omega

/-! ## Array bounds in decoding and configuration -/

theorem byteAt_congr_of (d1 d2 : List Nat)
    (h : ∀ i ∈ [1, 6, 7, 10, 11, 14, 15], byteAt d1 i = byteAt d2 i) :
    status_raw d1 = status_raw d2 ∧ signal d1 = signal d2 ∧ sigma_mm d1 = sigma_mm d2 ∧
    dist_mm_raw d1 = dist_mm_raw d2 := by
  have e1 : VL53L1_RESULT__RANGE_STATUS - base = 1 := by decide
  have e2 : VL53L1_RESULT__PEAK_SIGNAL_COUNT_RATE_MCPS_SD0 - base = 6 := by decide
  have e3 : VL53L1_RESULT__SIGMA_SD0 - base = 10 := by decide
  have e4 : VL53L1_RESULT__FINAL_CROSSTALK_CORRECTED_RANGE_MM_SD0 - base = 14 := by decide
  simp only [status_raw, signal, sigma_mm, dist_mm_raw, field16, e1, e2, e3, e4,
    h 1 (by simp), h 6 (by simp), h 7 (by simp), h 10 (by simp), h 11 (by simp),
    h 14 (by simp), h 15 (by simp), and_self]

/-- C30: the decoders read the result block at indexes 1, 6, 7, 10, 11, 14 and 15 only, all
below the 16 bytes read: two blocks that agree there (read with the same reported count)
decode alike.  The default-configuration loop, given at least 91 passes, ends by its own
condition after writing registers `0x2D .. 0x87` in ascending order, each with the table
entry at `Addr - 0x2D`, an index below the 91 entries of the table. -/
theorem C30_array_accesses_in_bounds (env env2 : Env) (tr tr2 : Trace) :
    (VL53L1_RESULT__RANGE_STATUS - base = 1 ∧
      VL53L1_RESULT__PEAK_SIGNAL_COUNT_RATE_MCPS_SD0 - base = 6 ∧
      VL53L1_RESULT__SIGMA_SD0 - base = 10 ∧
      VL53L1_RESULT__FINAL_CROSSTALK_CORRECTED_RANGE_MM_SD0 - base = 14 ∧
      ∀ i ∈ [1, 6, 7, 10, 11, 14, 15], i < n_bytes) ∧
    ((env.reply tr.length).ret = (env2.reply tr2.length).ret →
      (∀ i ∈ [1, 6, 7, 10, 11, 14, 15],
        byteAt (env.reply tr.length).data i = byteAt (env2.reply tr2.length).data i) →
      (vl53l1x_get_distance_mm env tr).1 = (vl53l1x_get_distance_mm env2 tr2).1 ∧
      (sf20c_get_distance_mm env tr).1 = (sf20c_get_distance_mm env2 tr2).1) ∧
    (∀ fuel, 91 ≤ fuel →
      load_defaults_loop env fuel 0x2D tr
        = tr ++ (List.range' 0x2D 91).map
            (fun Addr => Event.reg16_write_bytes (_reverse_lsb_msb_16 Addr)
              [VL51L1X_DEFAULT_CONFIGURATION.getD (Addr - 0x2D) 0 % 256])) ∧
    VL51L1X_DEFAULT_CONFIGURATION.length = 91 ∧
    (∀ Addr ∈ List.range' 0x2D 91,
      0x2D ≤ Addr ∧ Addr ≤ 0x87 ∧ Addr - 0x2D < VL51L1X_DEFAULT_CONFIGURATION.length ∧
      VL51L1X_DEFAULT_CONFIGURATION[Addr - 0x2D]?
        = some (VL51L1X_DEFAULT_CONFIGURATION.getD (Addr - 0x2D) 0)) ∧
    (List.range' 0x2D 91).head? = some 0x2D ∧
    (List.range' 0x2D 91).getLast? = some 0x87 ∧
    (∀ i, i < 91 → (List.range' 0x2D 91)[i]? = some (0x2D + i)) := by
  refine ⟨⟨by decide, by decide, by decide, by decide, by decide⟩, ?_, ?_, by decide, ?_,
    by decide, by decide, ?_⟩
  · intro hret hbytes
    obtain ⟨h1, h2, h3, h4⟩ := byteAt_congr_of _ _ hbytes
    have hv : vl53l1x_status (env.reply tr.length).data
        = vl53l1x_status (env2.reply tr2.length).data := by
      simp only [vl53l1x_status, h1]
    rw [vl53l1x_get_distance_mm_eq, vl53l1x_get_distance_mm_eq, sf20c_get_distance_mm_eq,
      sf20c_get_distance_mm_eq, hret, hv, h2, h3, h4]
    exact ⟨rfl, rfl⟩
  · intro fuel hf
    exact load_defaults_loop_eq env fuel 0x2D tr (by decide) (by omega)
  · intro Addr hA
    rw [List.mem_range'_1] at hA
    have hlen : VL51L1X_DEFAULT_CONFIGURATION.length = 91 := by decide
    refine ⟨by omega, by omega, by omega, ?_⟩
    rw [List.getD_eq_getElem?_getD, List.getElem?_eq_getElem (by omega)]
    rfl
  · intro i hi
    rw [List.getElem?_range' _ _ hi]
    simp

end Rangefinder
